import Mathlib

/-!
Verification of the rancher1.x exporter's scrape and lifecycle-accounting
engine, a shallow embedding of `src/metrics.go`.

Conventions of the embedding:
* Go `uint64` arithmetic is `Nat` with an explicit `% 2 ^ 64` (`inc64`,
  `sub64`).
* Prometheus metric vectors (`*Vec`) are association lists from label
  tuples to values; `WithLabelValues` creates an absent series at 0
  ("touching" it), `.Inc()` and `.Add(v)` add, `.Set(v)` overwrites.
  The `float64` sample values are modelled as `Int` (exact for the
  integral values this exporter writes).
* Go's embedded `*object` pointer inside `instance`, `service`, `stack`
  and `project` is modelled with an explicit heap (`Heap := List object`)
  and an address field `obj : Nat`; struct copies of the outer record
  (Go map reads) share the address, so writes through the embedded
  pointer are visible in the model while writes to the copy's own value
  fields are not.
* Panics are modelled as `Except.error`.
-/

namespace RancherExporter

/-- The modulus of Go's `uint64` arithmetic. -/
def W64 : Nat := 2 ^ 64

/-- Go `uint64` increment `x += 1` (wraps at `2 ^ 64`). -/
def inc64 (x : Nat) : Nat := (x + 1) % W64

/-- Go `uint64` subtraction `a - b` (wraps at `2 ^ 64`). -/
def sub64 (a b : Nat) : Nat := (a + W64 - b) % W64

/-- A Prometheus label tuple, as passed to `WithLabelValues`. -/
abbrev Labels := List String

/-- One metric family (a `prometheus.GaugeVec` / `CounterVec`): an
association list from label tuple to current sample value. -/
abbrev Family := List (Labels × Int)

/-- Current value of the series with labels `l`, if it has been created. -/
def famGet : Family → Labels → Option Int
  | [], _ => none
  | (k, v) :: rest, l => if k = l then some v else famGet rest l

/-- `WithLabelValues(l...).Set(v)`: create the series if absent, set it to `v`. -/
def famSet : Family → Labels → Int → Family
  | [], l, v => [(l, v)]
  | (k, w) :: rest, l, v =>
      if k = l then (k, v) :: rest else (k, w) :: famSet rest l v

/-- `WithLabelValues(l...).Add(v)`: create the series at 0 if absent, then add `v`. -/
def famAdd : Family → Labels → Int → Family
  | [], l, v => [(l, v)]
  | (k, w) :: rest, l, v =>
      if k = l then (k, w + v) :: rest else (k, w) :: famAdd rest l v

/-- A bare `WithLabelValues(l...)` call: touch the series (create it at 0). -/
def famTouch (f : Family) (l : Labels) : Family := famAdd f l 0

/-- `WithLabelValues(l...).Inc()`. -/
def famInc (f : Family) (l : Labels) : Family := famAdd f l 1

/-- Association-list lookup for the Go maps keyed by name
(`take, ok := m[name]`). -/
def lookupA {α : Type} : List (String × α) → String → Option α
  | [], _ => none
  | (k, v) :: rest, n => if k = n then some v else lookupA rest n

/-- Association-list insert-or-replace (`m[name] = v`). -/
def insertA {α : Type} : List (String × α) → String → α → List (String × α)
  | [], n, v => [(n, v)]
  | (k, w) :: rest, n, v =>
      if k = n then (k, v) :: rest else (k, w) :: insertA rest n v

/-- `strconv.FormatBool`. -/
def formatBool (b : Bool) : String := if b then "true" else "false"

/-- The fixed host agent state enumeration of the source. -/
def agentStates : List String :=
  ["activating", "active", "reconnecting", "disconnected", "disconnecting",
   "finishing-reconnect", "reconnected"]

/-- The fixed host state enumeration of the source. -/
def hostStates : List String :=
  ["activating", "active", "deactivating", "error", "erroring", "inactive",
   "provisioned", "purged", "purging", "registering", "removed", "removing",
   "requested", "restoring", "updating_active", "updating_inactive"]

/-- The fixed stack state enumeration of the source. -/
def stackStates : List String :=
  ["activating", "active", "canceled_upgrade", "canceling_upgrade", "error",
   "erroring", "finishing_upgrade", "removed", "removing", "requested",
   "restarting", "rolling_back", "updating_active", "upgraded", "upgrading"]

/-- The fixed service state enumeration of the source. -/
def serviceStates : List String :=
  ["activating", "active", "canceled_upgrade", "canceling_upgrade",
   "deactivating", "finishing_upgrade", "inactive", "registering", "removed",
   "removing", "requested", "restarting", "rolling_back", "updating_active",
   "updating_inactive", "upgraded", "upgrading"]

/-- The fixed health state enumeration of the source. -/
def healthStates : List String := ["healthy", "unhealthy"]

/-- The serialised (checkpointed) form of an instance, as stored in a
generic object's `resourceData` (fields of Go `instance` incl. the
embedded `object`). -/
structure sInstance where
  Id : String
  Name : String
  State : String
  Typ : String
  BootstrapCount : Nat
  FailureCount : Nat
  System : Bool
  StartupTime : Nat
deriving DecidableEq

/-- The serialised form of a service (Go `service`). -/
structure sService where
  Id : String
  Name : String
  State : String
  Typ : String
  BootstrapCount : Nat
  FailureCount : Nat
  System : Bool
  Instances : List (String × sInstance)
deriving DecidableEq

/-- The serialised form of a stack (Go `stack`). -/
structure sStack where
  Id : String
  Name : String
  State : String
  Typ : String
  BootstrapCount : Nat
  FailureCount : Nat
  System : Bool
  Services : List (String × sService)
deriving DecidableEq

/-- The serialised form of a project (Go `project`). -/
structure sProject where
  Id : String
  Name : String
  State : String
  Typ : String
  BootstrapCount : Nat
  FailureCount : Nat
  Stacks : List (String × sStack)
deriving DecidableEq

/-- One entry of a decoded API envelope's `data` array (Go `targetData`;
the Go `Type` field is called `Typ` here because `Type` is reserved in
Lean). -/
structure targetData where
  HealthState : String
  Key : String
  Name : String
  State : String
  System : Bool
  Scale : Int
  HostName : String
  ID : String
  StackID : String
  EnvID : String
  Typ : String
  AgentState : String
  CreatedTS : Nat
  FirstRunningTS : Nat
  ResourceData : Option sProject
deriving DecidableEq

/-- `targetPagination` (Go zero value: empty `Next`). -/
structure targetPagination where
  Next : String
deriving DecidableEq

/-- The decoded API envelope (Go `target`); `Pagination` is a pointer in
Go, hence `Option`. -/
structure target where
  Data : List targetData
  Pagination : Option targetPagination
deriving DecidableEq

/-- A `targetData` with every field at its Go zero value. -/
def targetData.zero : targetData :=
  { HealthState := "", Key := "", Name := "", State := "", System := false,
    Scale := 0, HostName := "", ID := "", StackID := "", EnvID := "",
    Typ := "", AgentState := "", CreatedTS := 0, FirstRunningTS := 0,
    ResourceData := none }

/-- Outcome of one HTTP GET as observed by `rancherClient.get`: the
transport call `r.client.Do(req)` either fails (the response is nil), or
returns a body that either decodes into a `target` or fails to decode. -/
inductive getOutcome where
  | transportErr
  | body (decoded : Option target)
deriving DecidableEq

/-- Embedding of `rancherClient.get` (src/metrics.go lines 176-195).
On a transport error the code only logs (`log.Error(err)`) and falls
through to `defer resp.Body.Close()` with `resp == nil`, which panics
with a nil-pointer dereference (modelled as `Except.error`).  On a JSON
decode error it logs and returns the zero-value `target` (no data, nil
pagination).  On success it returns the decoded page. -/
def rancherClientGet : getOutcome → Except String target
  | .transportErr =>
      .error ("runtime error: invalid memory address or nil pointer dereference")
  | .body none => .ok { Data := [], Pagination := none }
  | .body (some t) => .ok t

/-- Go `object` (the embedded, pointer-shared part of every node). -/
structure object where
  Id : String
  Name : String
  State : String
  Typ : String
  BootstrapCount : Nat
  FailureCount : Nat
deriving DecidableEq

/-- The Go zero value of `object`. -/
def object.zero : object :=
  { Id := "", Name := "", State := "", Typ := "", BootstrapCount := 0,
    FailureCount := 0 }

/-- The heap of `*object` allocations; addresses are list indices. -/
abbrev Heap := List object

/-- Dereference an `*object`. -/
def heapGet (h : Heap) (a : Nat) : object := h.getD a object.zero

/-- Write through an `*object`. -/
def heapSet (h : Heap) (a : Nat) (o : object) : Heap := h.set a o

/-- Model value of a Go `instance`: the embedded `*object` is the heap
address `obj`; `System` and `StartupTime` are the struct's own value
fields.  The `parent` back-pointer is dropped (it is only used to read
parent names, which the embedding passes explicitly). -/
structure instanceV where
  obj : Nat
  System : Bool
  StartupTime : Nat
deriving DecidableEq

/-- Model value of a Go `service`. -/
structure serviceV where
  obj : Nat
  Instances : List (String × instanceV)
  System : Bool
deriving DecidableEq

/-- Model value of a Go `stack`. -/
structure stackV where
  obj : Nat
  Services : List (String × serviceV)
  System : Bool
deriving DecidableEq

/-- Model value of a Go `project`. -/
structure projectV where
  obj : Nat
  Stacks : List (String × stackV)
deriving DecidableEq

/-- The process-wide metric registry: one field per metric vector
declared in src/metrics.go lines 34-148, with the source's variable
names. -/
structure Registry where
  infinityWorksHostsState : Family
  infinityWorksHostAgentsState : Family
  infinityWorksStacksHealth : Family
  infinityWorksStacksState : Family
  infinityWorksServicesScale : Family
  infinityWorksServicesHealth : Family
  infinityWorksServicesState : Family
  extendingTotalStackBootstrap : Family
  extendingTotalStackFailure : Family
  extendingTotalServiceBootstrap : Family
  extendingTotalServiceFailure : Family
  extendingTotalInstanceBootstrap : Family
  extendingTotalInstanceFailure : Family
  extendingInstanceBootstrapMsCost : Family
  extendingStackHeartbeat : Family
  extendingServiceHeartbeat : Family
  extendingInstanceHeartbeat : Family
deriving DecidableEq

/-- The registry with every family empty (process start). -/
def Registry.empty : Registry :=
  { infinityWorksHostsState := [], infinityWorksHostAgentsState := [],
    infinityWorksStacksHealth := [], infinityWorksStacksState := [],
    infinityWorksServicesScale := [], infinityWorksServicesHealth := [],
    infinityWorksServicesState := [],
    extendingTotalStackBootstrap := [], extendingTotalStackFailure := [],
    extendingTotalServiceBootstrap := [], extendingTotalServiceFailure := [],
    extendingTotalInstanceBootstrap := [], extendingTotalInstanceFailure := [],
    extendingInstanceBootstrapMsCost := [],
    extendingStackHeartbeat := [], extendingServiceHeartbeat := [],
    extendingInstanceHeartbeat := [] }

/-- The reset prelude at the top of `metric.fetch` (src/metrics.go lines
927-939): exactly the seven InfinityWorks gauges and the three heartbeat
gauges are `Reset()`; every other family is left untouched. -/
def metricFetchReset (r : Registry) : Registry :=
  { r with
    infinityWorksHostsState := [], infinityWorksHostAgentsState := [],
    infinityWorksStacksHealth := [], infinityWorksStacksState := [],
    infinityWorksServicesScale := [], infinityWorksServicesHealth := [],
    infinityWorksServicesState := [],
    extendingInstanceHeartbeat := [], extendingServiceHeartbeat := [],
    extendingStackHeartbeat := [] }

/-- One `for _, y := range states` one-hot loop: for each `y`, the gauge
at labels `mk y` is set to 1 if the observed value equals `y`, else 0. -/
def setOneHot (f : Family) (mk : String → Labels) (states : List String)
    (v : String) : Family :=
  states.foldl (fun acc y => famSet acc (mk y) (if v = y then 1 else 0)) f

/-- The host display name (`metric.fetch` hosts branch): `name` if
non-empty, else `hostname`. -/
def hostDisplayName (d : targetData) : String :=
  if d.Name.length ≠ 0 then d.Name else d.HostName

/-- One iteration of the hosts loop in `metric.fetch` (src/metrics.go
lines 951-978): one-hot host state and host agent state gauges. -/
def observeHost (reg : Registry) (d : targetData) : Registry :=
  let hostName := hostDisplayName d
  let f1 := setOneHot reg.infinityWorksHostsState
    (fun y => [d.ID, hostName, y]) hostStates d.State
  let reg := { reg with infinityWorksHostsState := f1 }
  let f2 := setOneHot reg.infinityWorksHostAgentsState
    (fun y => [d.ID, hostName, y]) agentStates d.AgentState
  { reg with infinityWorksHostAgentsState := f2 }

/-- The `switch stackState` block on the existing-stack branch of
`project.fetch` (src/metrics.go lines 608-625), given the object the
embedded pointer refers to.  Returns the updated bootstrap family,
failure family and object. -/
def stackTransitionStep (lbl : Labels) (bootFam failFam : Family)
    (old : object) (d : targetData) : Family × Family × object :=
  if old.State ≠ d.State then
    if d.State = "active" then
      if d.HealthState = "unhealthy" then
        (famInc bootFam lbl, famInc failFam lbl,
         { old with BootstrapCount := inc64 old.BootstrapCount,
                    FailureCount := inc64 old.FailureCount })
      else
        (famInc bootFam lbl, failFam,
         { old with BootstrapCount := inc64 old.BootstrapCount })
    else if d.State = "error" then
      (famInc bootFam lbl, famInc failFam lbl,
       { old with BootstrapCount := inc64 old.BootstrapCount,
                  FailureCount := inc64 old.FailureCount })
    else (bootFam, failFam, old)
  else (bootFam, failFam, old)

/-- The `switch stackState` block on the new-stack branch of
`project.fetch` (src/metrics.go lines 632-654).  Returns the updated
families and the initial `bootstrapCount`, `failureCount`. -/
def stackNewCounts (lbl : Labels) (bootFam failFam : Family)
    (d : targetData) : Family × Family × Nat × Nat :=
  if d.State = "active" then
    if d.HealthState = "unhealthy" then
      (famInc bootFam lbl, famInc failFam lbl, 1, 1)
    else
      (famInc bootFam lbl, famTouch failFam lbl, 1, 0)
  else if d.State = "error" then
    (famInc bootFam lbl, famInc failFam lbl, 1, 1)
  else
    (famTouch bootFam lbl, famTouch failFam lbl, 0, 0)

/-- Label context handed to a service observation: the enclosing stack's
name and id and the project name (read through `o.parent` in Go). -/
structure stkCtx where
  envName : String
  stackName : String
  stackId : String
deriving DecidableEq

/-- Label context handed to an instance observation (read through
`o.parent` chains in Go). -/
structure svcCtx where
  envName : String
  stackName : String
  serviceName : String
deriving DecidableEq

/-- The label tuple of the stack counter/heartbeat families:
`(environment_name, name, system, type)`. -/
def stackLbl (envName : String) (d : targetData) : Labels :=
  [envName, d.Name, formatBool d.System, d.Typ]

/-- The label tuple of the service counter/heartbeat families:
`(environment_name, stack_name, name, system, type)`. -/
def serviceLbl (ctx : stkCtx) (d : targetData) : Labels :=
  [ctx.envName, ctx.stackName, d.Name, formatBool d.System, d.Typ]

/-- The label tuple of the instance counter/heartbeat/startup families:
`(environment_name, stack_name, service_name, name, system, type)`. -/
def instanceLbl (ctx : svcCtx) (d : targetData) : Labels :=
  [ctx.envName, ctx.stackName, ctx.serviceName, d.Name,
   formatBool d.System, d.Typ]

/-- One iteration of the stacks loop of `project.fetch` (src/metrics.go
lines 576-670) for a single decoded entry `d`: one-hot gauges,
heartbeat, and the transition accounting against the model.  On the
existing branch the writes `take.Id`, `take.Type`, `take.State` and the
counter updates go through the embedded `*object`; the write
`take.System = d.System` only changes the local copy `take`, which is
dropped, so the stacks map is returned unchanged. -/
def observeStack (envName : String) (stks : List (String × stackV))
    (heap : Heap) (reg : Registry) (d : targetData) :
    List (String × stackV) × Heap × Registry :=
  let sys := formatBool d.System
  let f1 := setOneHot reg.infinityWorksStacksHealth
    (fun y => [d.ID, d.Name, y, sys]) healthStates d.HealthState
  let reg := { reg with infinityWorksStacksHealth := f1 }
  let f2 := setOneHot reg.infinityWorksStacksState
    (fun y => [d.ID, d.Name, y, sys]) stackStates d.State
  let reg := { reg with infinityWorksStacksState := f2 }
  let lbl := stackLbl envName d
  let f3 := famSet reg.extendingStackHeartbeat lbl 1
  let reg := { reg with extendingStackHeartbeat := f3 }
  match lookupA stks d.Name with
  | some take =>
      let old := heapGet heap take.obj
      let r := stackTransitionStep lbl reg.extendingTotalStackBootstrap
        reg.extendingTotalStackFailure old d
      let reg := { reg with extendingTotalStackBootstrap := r.1,
                            extendingTotalStackFailure := r.2.1 }
      let heap := heapSet heap take.obj
        { r.2.2 with Id := d.ID, Typ := d.Typ, State := d.State }
      (stks, heap, reg)
  | none =>
      let r := stackNewCounts lbl reg.extendingTotalStackBootstrap
        reg.extendingTotalStackFailure d
      let reg := { reg with extendingTotalStackBootstrap := r.1,
                            extendingTotalStackFailure := r.2.1 }
      let heap2 := heap ++
        [{ Id := d.ID, Name := d.Name, State := d.State, Typ := d.Typ,
           BootstrapCount := r.2.2.1, FailureCount := r.2.2.2 }]
      (insertA stks d.Name
        { obj := heap.length, Services := [], System := d.System },
       heap2, reg)

/-- The `switch serviceState` block on the existing-service branch of
`stack.fetch` (src/metrics.go lines 460-477); textually identical to the
stack rule. -/
def serviceTransitionStep (lbl : Labels) (bootFam failFam : Family)
    (old : object) (d : targetData) : Family × Family × object :=
  if old.State ≠ d.State then
    if d.State = "active" then
      if d.HealthState = "unhealthy" then
        (famInc bootFam lbl, famInc failFam lbl,
         { old with BootstrapCount := inc64 old.BootstrapCount,
                    FailureCount := inc64 old.FailureCount })
      else
        (famInc bootFam lbl, failFam,
         { old with BootstrapCount := inc64 old.BootstrapCount })
    else if d.State = "error" then
      (famInc bootFam lbl, famInc failFam lbl,
       { old with BootstrapCount := inc64 old.BootstrapCount,
                  FailureCount := inc64 old.FailureCount })
    else (bootFam, failFam, old)
  else (bootFam, failFam, old)

/-- The `switch serviceState` block on the new-service branch of
`stack.fetch` (src/metrics.go lines 484-506). -/
def serviceNewCounts (lbl : Labels) (bootFam failFam : Family)
    (d : targetData) : Family × Family × Nat × Nat :=
  if d.State = "active" then
    if d.HealthState = "unhealthy" then
      (famInc bootFam lbl, famInc failFam lbl, 1, 1)
    else
      (famInc bootFam lbl, famTouch failFam lbl, 1, 0)
  else if d.State = "error" then
    (famInc bootFam lbl, famInc failFam lbl, 1, 1)
  else
    (famTouch bootFam lbl, famTouch failFam lbl, 0, 0)

/-- One iteration of the services loop of `stack.fetch` (src/metrics.go
lines 425-522) for a single decoded entry `d`.  Same copy semantics as
`observeStack`: `take.System = d.System` is lost. -/
def observeService (ctx : stkCtx) (svcs : List (String × serviceV))
    (heap : Heap) (reg : Registry) (d : targetData) :
    List (String × serviceV) × Heap × Registry :=
  let sys := formatBool d.System
  let f0 := famSet reg.infinityWorksServicesScale
    [d.Name, ctx.stackName, sys] d.Scale
  let reg := { reg with infinityWorksServicesScale := f0 }
  let f1 := setOneHot reg.infinityWorksServicesHealth
    (fun y => [d.ID, ctx.stackId, d.Name, ctx.stackName, y, sys])
    healthStates d.HealthState
  let reg := { reg with infinityWorksServicesHealth := f1 }
  let f2 := setOneHot reg.infinityWorksServicesState
    (fun y => [d.ID, ctx.stackId, d.Name, ctx.stackName, y, sys])
    serviceStates d.State
  let reg := { reg with infinityWorksServicesState := f2 }
  let lbl := serviceLbl ctx d
  let f3 := famSet reg.extendingServiceHeartbeat lbl 1
  let reg := { reg with extendingServiceHeartbeat := f3 }
  match lookupA svcs d.Name with
  | some take =>
      let old := heapGet heap take.obj
      let r := serviceTransitionStep lbl reg.extendingTotalServiceBootstrap
        reg.extendingTotalServiceFailure old d
      let reg := { reg with extendingTotalServiceBootstrap := r.1,
                            extendingTotalServiceFailure := r.2.1 }
      let heap := heapSet heap take.obj
        { r.2.2 with Id := d.ID, Typ := d.Typ, State := d.State }
      (svcs, heap, reg)
  | none =>
      let r := serviceNewCounts lbl reg.extendingTotalServiceBootstrap
        reg.extendingTotalServiceFailure d
      let reg := { reg with extendingTotalServiceBootstrap := r.1,
                            extendingTotalServiceFailure := r.2.1 }
      let heap2 := heap ++
        [{ Id := d.ID, Name := d.Name, State := d.State, Typ := d.Typ,
           BootstrapCount := r.2.2.1, FailureCount := r.2.2.2 }]
      (insertA svcs d.Name
        { obj := heap.length, Instances := [], System := d.System },
       heap2, reg)

/-- The `switch instanceState` block on the existing-instance branch of
`service.fetch` (src/metrics.go lines 314-332): on a transition into
`running` the startup gauge is set iff `FirstRunningTS != 0`; on a
transition into `error` both counters are incremented; there is no
default case. -/
def instanceTransitionStep (lbl : Labels) (bootFam failFam msFam : Family)
    (old : object) (d : targetData) : Family × Family × Family × object :=
  if old.State ≠ d.State then
    if d.State = "running" then
      let msFam :=
        if d.FirstRunningTS ≠ 0 then
          famSet msFam lbl (Int.ofNat (sub64 d.FirstRunningTS d.CreatedTS))
        else msFam
      (famInc bootFam lbl, failFam, msFam,
       { old with BootstrapCount := inc64 old.BootstrapCount })
    else if d.State = "error" then
      (famInc bootFam lbl, famInc failFam lbl, msFam,
       { old with BootstrapCount := inc64 old.BootstrapCount,
                  FailureCount := inc64 old.FailureCount })
    else (bootFam, failFam, msFam, old)
  else (bootFam, failFam, msFam, old)

/-- The `switch instanceState` block on the new-instance branch of
`service.fetch` (src/metrics.go lines 340-364): `case "stopped"` falls
through to `case "running"`.  Returns families, `bootstrapCount`,
`failureCount` and `instanceStartupTime`. -/
def instanceNewCounts (lbl : Labels) (bootFam failFam msFam : Family)
    (d : targetData) : Family × Family × Family × Nat × Nat × Nat :=
  if d.State = "error" then
    (famInc bootFam lbl, famInc failFam lbl, msFam, 1, 1, 0)
  else if d.State = "stopped" ∨ d.State = "running" then
    let stime :=
      if d.FirstRunningTS ≠ 0 then sub64 d.FirstRunningTS d.CreatedTS else 0
    let msFam :=
      if d.FirstRunningTS ≠ 0 then famSet msFam lbl (Int.ofNat stime)
      else msFam
    (famInc bootFam lbl, famTouch failFam lbl, msFam, 1, 0, stime)
  else
    (famTouch bootFam lbl, famTouch failFam lbl, msFam, 0, 0, 0)

/-- One iteration of the instances loop of `service.fetch`
(src/metrics.go lines 295-379) for a single decoded entry `d`.  On the
existing branch, `take.Id`, `take.Type`, `take.State` and the counter
updates write through the embedded `*object`; `take.System = d.System`
and `take.StartupTime = instanceStartupTime` write the local struct
copy, which is dropped, so the instances map is returned unchanged. -/
def observeInstance (ctx : svcCtx) (insts : List (String × instanceV))
    (heap : Heap) (reg : Registry) (d : targetData) :
    List (String × instanceV) × Heap × Registry :=
  let lbl := instanceLbl ctx d
  let f1 := famSet reg.extendingInstanceHeartbeat lbl 1
  let reg := { reg with extendingInstanceHeartbeat := f1 }
  match lookupA insts d.Name with
  | some take =>
      let old := heapGet heap take.obj
      let r := instanceTransitionStep lbl reg.extendingTotalInstanceBootstrap
        reg.extendingTotalInstanceFailure reg.extendingInstanceBootstrapMsCost
        old d
      let reg := { reg with extendingTotalInstanceBootstrap := r.1,
                            extendingTotalInstanceFailure := r.2.1,
                            extendingInstanceBootstrapMsCost := r.2.2.1 }
      let heap := heapSet heap take.obj
        { r.2.2.2 with Id := d.ID, Typ := d.Typ, State := d.State }
      (insts, heap, reg)
  | none =>
      let r := instanceNewCounts lbl reg.extendingTotalInstanceBootstrap
        reg.extendingTotalInstanceFailure reg.extendingInstanceBootstrapMsCost
        d
      let reg := { reg with extendingTotalInstanceBootstrap := r.1,
                            extendingTotalInstanceFailure := r.2.1,
                            extendingInstanceBootstrapMsCost := r.2.2.1 }
      let heap2 := heap ++
        [{ Id := d.ID, Name := d.Name, State := d.State, Typ := d.Typ,
           BootstrapCount := r.2.2.2.1, FailureCount := r.2.2.2.2.1 }]
      (insertA insts d.Name
        { obj := heap.length, System := d.System,
          StartupTime := r.2.2.2.2.2 },
       heap2, reg)

/-- The full `for _, d := range t.Data` instances loop of one
`service.fetch` page. -/
def observeInstanceList (ctx : svcCtx) (insts : List (String × instanceV))
    (heap : Heap) (reg : Registry) :
    List targetData → List (String × instanceV) × Heap × Registry
  | [] => (insts, heap, reg)
  | d :: ds =>
      let r := observeInstance ctx insts heap reg d
      observeInstanceList ctx r.1 r.2.1 r.2.2 ds

/-- The full services loop of one `stack.fetch` page. -/
def observeServiceList (ctx : stkCtx) (svcs : List (String × serviceV))
    (heap : Heap) (reg : Registry) :
    List targetData → List (String × serviceV) × Heap × Registry
  | [] => (svcs, heap, reg)
  | d :: ds =>
      let r := observeService ctx svcs heap reg d
      observeServiceList ctx r.1 r.2.1 r.2.2 ds

/-- The full stacks loop of one `project.fetch` page. -/
def observeStackList (envName : String) (stks : List (String × stackV))
    (heap : Heap) (reg : Registry) :
    List targetData → List (String × stackV) × Heap × Registry
  | [] => (stks, heap, reg)
  | d :: ds =>
      let r := observeStack envName stks heap reg d
      observeStackList envName r.1 r.2.1 r.2.2 ds

/-- The checkpoint selection of `metric.recover` (src/metrics.go lines
747-749): if the generic-object query result is non-empty, the last
entry's `resourceData` is deserialised (the Go code dereferences it
unconditionally; a checkpoint record always carries one, and properties
are stated only when it is present). -/
def recoverSelect (data : List targetData) : Option sProject :=
  match data.getLast? with
  | none => none
  | some dl => dl.ResourceData

/-- The `object` allocated for a recovered instance (src/metrics.go
lines 811-819). -/
def sInstance.toObject (si : sInstance) : object :=
  { Id := si.Id, Name := si.Name, State := si.State, Typ := si.Typ,
    BootstrapCount := si.BootstrapCount, FailureCount := si.FailureCount }

/-- The `object` allocated for a recovered service (src/metrics.go
lines 784-792). -/
def sService.toObject (sv : sService) : object :=
  { Id := sv.Id, Name := sv.Name, State := sv.State, Typ := sv.Typ,
    BootstrapCount := sv.BootstrapCount, FailureCount := sv.FailureCount }

/-- The `object` allocated for a recovered stack (src/metrics.go
lines 757-765). -/
def sStack.toObject (st : sStack) : object :=
  { Id := st.Id, Name := st.Name, State := st.State, Typ := st.Typ,
    BootstrapCount := st.BootstrapCount, FailureCount := st.FailureCount }

/-- The allocation and counter seeding done for one recovered instance
(src/metrics.go lines 805-831): allocate its `object`, `Add` the stored
counts to the instance counter series, and `Set` the startup-ms gauge
to the stored `StartupTime`. -/
def recoverInstanceStep (envName stackName serviceName instanceName : String)
    (sIns : sInstance) (heap : Heap) (reg : Registry) : Heap × Registry :=
  let lbl := [envName, stackName, serviceName, instanceName,
              formatBool sIns.System, sIns.Typ]
  let fb := famAdd reg.extendingTotalInstanceBootstrap lbl
    (Int.ofNat sIns.BootstrapCount)
  let ff := famAdd reg.extendingTotalInstanceFailure lbl
    (Int.ofNat sIns.FailureCount)
  let fm := famSet reg.extendingInstanceBootstrapMsCost lbl
    (Int.ofNat sIns.StartupTime)
  (heap ++ [sIns.toObject],
   { reg with extendingTotalInstanceBootstrap := fb,
              extendingTotalInstanceFailure := ff,
              extendingInstanceBootstrapMsCost := fm })

/-- The instances walk of `metric.recover` (src/metrics.go lines
804-832): for each stored instance, allocate its node, insert it into
the enclosing service under its name, and seed its counter series. -/
def recoverInstances (envName stackName serviceName : String)
    (xs : List (String × sInstance)) (heap : Heap) (reg : Registry) :
    List (String × instanceV) × Heap × Registry :=
  match xs with
  | [] => ([], heap, reg)
  | (instanceName, sIns) :: rest =>
      let addr := heap.length
      let hr := recoverInstanceStep envName stackName serviceName
        instanceName sIns heap reg
      let r := recoverInstances envName stackName serviceName rest hr.1 hr.2
      ((instanceName, { obj := addr, System := sIns.System,
                        StartupTime := sIns.StartupTime }) :: r.1,
       r.2.1, r.2.2)

/-- The allocation and counter seeding for one recovered service
(src/metrics.go lines 778-802). -/
def recoverServiceStep (envName stackName serviceName : String)
    (sSvc : sService) (heap : Heap) (reg : Registry) : Heap × Registry :=
  let lbl := [envName, stackName, serviceName,
              formatBool sSvc.System, sSvc.Typ]
  let fb := famAdd reg.extendingTotalServiceBootstrap lbl
    (Int.ofNat sSvc.BootstrapCount)
  let ff := famAdd reg.extendingTotalServiceFailure lbl
    (Int.ofNat sSvc.FailureCount)
  (heap ++ [sSvc.toObject],
   { reg with extendingTotalServiceBootstrap := fb,
              extendingTotalServiceFailure := ff })

/-- The services walk of `metric.recover` (src/metrics.go lines
777-833): allocate each stored service, insert it under its name, `Add`
the stored counts to the service counter series, then walk its
instances. -/
def recoverServices (envName stackName : String)
    (xs : List (String × sService)) (heap : Heap) (reg : Registry) :
    List (String × serviceV) × Heap × Registry :=
  match xs with
  | [] => ([], heap, reg)
  | (serviceName, sSvc) :: rest =>
      let addr := heap.length
      let hr := recoverServiceStep envName stackName serviceName sSvc
        heap reg
      let ri := recoverInstances envName stackName serviceName
        sSvc.Instances hr.1 hr.2
      let r := recoverServices envName stackName rest ri.2.1 ri.2.2
      ((serviceName, { obj := addr, Instances := ri.1,
                       System := sSvc.System }) :: r.1,
       r.2.1, r.2.2)

/-- The allocation and counter seeding for one recovered stack
(src/metrics.go lines 751-775). -/
def recoverStackStep (envName stackName : String) (sStk : sStack)
    (heap : Heap) (reg : Registry) : Heap × Registry :=
  let lbl := [envName, stackName, formatBool sStk.System, sStk.Typ]
  let fb := famAdd reg.extendingTotalStackBootstrap lbl
    (Int.ofNat sStk.BootstrapCount)
  let ff := famAdd reg.extendingTotalStackFailure lbl
    (Int.ofNat sStk.FailureCount)
  (heap ++ [sStk.toObject],
   { reg with extendingTotalStackBootstrap := fb,
              extendingTotalStackFailure := ff })

/-- The stacks walk of `metric.recover` (src/metrics.go lines 750-834):
allocate each stored stack, insert it into the project's stacks map
under its name, `Add` the stored counts to the stack counter series,
then walk its services.  (Go inserts the stack before filling its
shared `Services` map; the net final state is the filled stack.) -/
def recoverStacks (envName : String) (xs : List (String × sStack))
    (proStacks : List (String × stackV)) (heap : Heap) (reg : Registry) :
    List (String × stackV) × Heap × Registry :=
  match xs with
  | [] => (proStacks, heap, reg)
  | (stackName, sStk) :: rest =>
      let addr := heap.length
      let hr := recoverStackStep envName stackName sStk heap reg
      let rs := recoverServices envName stackName sStk.Services hr.1 hr.2
      recoverStacks envName rest
        (insertA proStacks stackName
          { obj := addr, Services := rs.1, System := sStk.System })
        rs.2.1 rs.2.2

/-- The per-project goroutine body of `metric.recover` (src/metrics.go
lines 747-835): select the last checkpoint's `resourceData` and, when
present, rehydrate its stacks into the project's stacks map. -/
def recoverProject (envName : String) (proStacks : List (String × stackV))
    (heap : Heap) (reg : Registry) (data : List targetData) :
    List (String × stackV) × Heap × Registry :=
  match recoverSelect data with
  | none => (proStacks, heap, reg)
  | some sp => recoverStacks envName sp.Stacks proStacks heap reg

/-- The remove requests issued by the per-project goroutine body of
`metric.backup` (src/metrics.go lines 889-908): the ids POSTed to
`?action=remove`.  `createResult` is the outcome of the creating POST
(`none`: transport error, `some s`: HTTP status `s`); old checkpoint ids
are deleted only along the `statusCode == http.StatusCreated` branch,
and only those that the pre-listing recorded under this project's id. -/
def backupRemoves (genObjIdsMap : List (String × List String))
    (proId : String) (createResult : Option Nat) : List String :=
  match createResult with
  | none => []
  | some statusCode =>
      if statusCode ≠ 201 then []
      else
        match lookupA genObjIdsMap proId with
        | some genObjIds => genObjIds
        | none => []

/-- Modelled from the spec: the orchestrator's generic-object store for
one project, absent from src/ (it is the external server).  The set of
checkpoint record ids for the project: a create that returns
`201 Created` adds the fresh record `newId`; each `?action=remove` POST
issued by the backup deletes its id.  A create that fails (transport
error or any other status) adds nothing. -/
def backupServerAfter (oldIds : List String) (newId : String)
    (createResult : Option Nat)
    (genObjIdsMap : List (String × List String)) (proId : String) :
    List String :=
  let created :=
    match createResult with
    | some 201 => newId :: oldIds
    | _ => oldIds
  created.filter (fun i => i ∉ backupRemoves genObjIdsMap proId createResult)

/-- The fan-out of `metric.backup` over all projects (src/metrics.go
lines 871-911): each project's goroutine issues its own create POST and
its own removes; `createResults` gives each project's create outcome.
Returns, per project id, the remove requests issued for it. -/
def backupAllRemoves (genObjIdsMap : List (String × List String))
    (projectIds : List String) (createResults : String → Option Nat) :
    List (String × List String) :=
  projectIds.map (fun pid => (pid, backupRemoves genObjIdsMap pid (createResults pid)))

/-! ### Basic lemmas about families, association lists and the heap -/

theorem famGet_famSet_self (f : Family) (l : Labels) (v : Int) :
    famGet (famSet f l v) l = some v := by
  induction f with
  | nil => simp [famSet, famGet]
  | cons p rest ih =>
      obtain ⟨k, w⟩ := p
      by_cases h : k = l
      · simp [famSet, famGet, h]
      · simp [famSet, famGet, h, ih]

theorem famGet_famSet_ne (f : Family) (l' l : Labels) (v : Int)
    (h : l' ≠ l) : famGet (famSet f l' v) l = famGet f l := by
  induction f with
  | nil => simp [famSet, famGet, h]
  | cons p rest ih =>
      obtain ⟨k, w⟩ := p
      by_cases hk : k = l'
      · subst hk
        simp [famSet, famGet, h]
      · by_cases hl : k = l
        · simp [famSet, famGet, hk, hl, Ne.symm h]
        · simp [famSet, famGet, hk, hl, ih]

theorem famGet_famAdd_self (f : Family) (l : Labels) (v : Int) :
    famGet (famAdd f l v) l = some ((famGet f l).getD 0 + v) := by
  induction f with
  | nil => simp [famAdd, famGet]
  | cons p rest ih =>
      obtain ⟨k, w⟩ := p
      by_cases h : k = l
      · simp [famAdd, famGet, h]
      · simp [famAdd, famGet, h, ih]

theorem famGet_famAdd_ne (f : Family) (l' l : Labels) (v : Int)
    (h : l' ≠ l) : famGet (famAdd f l' v) l = famGet f l := by
  induction f with
  | nil => simp [famAdd, famGet, h]
  | cons p rest ih =>
      obtain ⟨k, w⟩ := p
      by_cases hk : k = l'
      · subst hk
        simp [famAdd, famGet, h]
      · by_cases hl : k = l
        · simp [famAdd, famGet, hk, hl, Ne.symm h]
        · simp [famAdd, famGet, hk, hl, ih]

theorem famGet_famInc_self (f : Family) (l : Labels) :
    famGet (famInc f l) l = some ((famGet f l).getD 0 + 1) :=
  famGet_famAdd_self f l 1

theorem famGet_famTouch_self (f : Family) (l : Labels) :
    famGet (famTouch f l) l = some ((famGet f l).getD 0) := by
  have := famGet_famAdd_self f l 0
  simpa [famTouch] using this

/-- Adding a non-negative quantity never decreases any series. -/
theorem famAdd_mono (f : Family) (l' l : Labels) (v : Int) (hv : 0 ≤ v) :
    (famGet f l).getD 0 ≤ (famGet (famAdd f l' v) l).getD 0 := by
  by_cases h : l' = l
  · subst h
    rw [famGet_famAdd_self]
    simp
    omega
  · rw [famGet_famAdd_ne f l' l v h]

theorem famInc_mono (f : Family) (l' l : Labels) :
    (famGet f l).getD 0 ≤ (famGet (famInc f l') l).getD 0 :=
  famAdd_mono f l' l 1 (by omega)

theorem famTouch_mono (f : Family) (l' l : Labels) :
    (famGet f l).getD 0 ≤ (famGet (famTouch f l') l).getD 0 :=
  famAdd_mono f l' l 0 (by omega)

theorem lookupA_insertA_self {α : Type} (m : List (String × α)) (n : String)
    (v : α) : lookupA (insertA m n v) n = some v := by
  induction m with
  | nil => simp [insertA, lookupA]
  | cons p rest ih =>
      obtain ⟨k, w⟩ := p
      by_cases h : k = n
      · simp [insertA, lookupA, h]
      · simp [insertA, lookupA, h, ih]

theorem lookupA_insertA_ne {α : Type} (m : List (String × α)) (n' n : String)
    (v : α) (h : n' ≠ n) : lookupA (insertA m n' v) n = lookupA m n := by
  induction m with
  | nil => simp [insertA, lookupA, h]
  | cons p rest ih =>
      obtain ⟨k, w⟩ := p
      by_cases hk : k = n'
      · subst hk
        simp [insertA, lookupA, h]
      · by_cases hl : k = n
        · simp [insertA, lookupA, hk, hl, Ne.symm h]
        · simp [insertA, lookupA, hk, hl, ih]

theorem heapGet_heapSet_self (h : Heap) (a : Nat) (o : object)
    (ha : a < h.length) : heapGet (heapSet h a o) a = o := by
  induction h generalizing a with
  | nil => simp at ha
  | cons x rest ih =>
      cases a with
      | zero => simp [heapGet, heapSet]
      | succ n =>
          have : n < rest.length := by simpa using ha
          simpa [heapGet, heapSet] using ih n this

theorem heapGet_heapSet_ne (h : Heap) (a b : Nat) (o : object)
    (hab : a ≠ b) : heapGet (heapSet h a o) b = heapGet h b := by
  induction h generalizing a b with
  | nil => simp [heapGet, heapSet]
  | cons x rest ih =>
      cases a with
      | zero =>
          cases b with
          | zero => exact absurd rfl hab
          | succ m => simp [heapGet, heapSet]
      | succ n =>
          cases b with
          | zero => simp [heapGet, heapSet]
          | succ m =>
              have : n ≠ m := fun hh => hab (by omega)
              simpa [heapGet, heapSet] using ih n m this

/-- Writing out of range is a no-op (Go cannot reach this case: every
stored address was allocated). -/
theorem heapSet_oob (h : Heap) (a : Nat) (o : object)
    (ha : h.length ≤ a) : heapSet h a o = h := by
  induction h generalizing a with
  | nil => simp [heapSet]
  | cons x rest ih =>
      cases a with
      | zero => simp at ha
      | succ n =>
          have : rest.length ≤ n := by simpa using ha
          simpa [heapSet] using ih n this

theorem heapGet_append_lt (h ext : Heap) (a : Nat) (ha : a < h.length) :
    heapGet (h ++ ext) a = heapGet h a := by
  induction h generalizing a with
  | nil => simp at ha
  | cons x rest ih =>
      cases a with
      | zero => simp [heapGet]
      | succ n =>
          have : n < rest.length := by simpa using ha
          simpa [heapGet] using ih n this

theorem heapGet_append_len (h : Heap) (o : object) (ext : Heap) :
    heapGet (h ++ o :: ext) h.length = o := by
  induction h with
  | nil => simp [heapGet]
  | cons x rest ih => simpa [heapGet] using ih

/-! ### One-hot lemmas -/

theorem setOneHot_cons (f : Family) (mk : String → Labels) (z : String)
    (zs : List String) (v : String) :
    setOneHot f mk (z :: zs) v =
      setOneHot (famSet f (mk z) (if v = z then 1 else 0)) mk zs v := rfl

theorem famGet_setOneHot_ne (f : Family) (mk : String → Labels)
    (ys : List String) (v : String) (l : Labels)
    (h : ∀ y ∈ ys, mk y ≠ l) :
    famGet (setOneHot f mk ys v) l = famGet f l := by
  induction ys generalizing f with
  | nil => rfl
  | cons z zs ih =>
      rw [setOneHot_cons,
        ih _ (fun y hy => h y (List.mem_cons_of_mem _ hy)),
        famGet_famSet_ne _ _ _ _ (h z (List.mem_cons_self _ _))]

theorem famGet_setOneHot_mem (f : Family) (mk : String → Labels)
    (ys : List String) (v y : String) (hy : y ∈ ys)
    (hinj : ∀ a ∈ ys, ∀ b ∈ ys, mk a = mk b → a = b) :
    famGet (setOneHot f mk ys v) (mk y) = some (if v = y then 1 else 0) := by
  induction ys generalizing f with
  | nil => cases hy
  | cons z zs ih =>
      by_cases hyz : y ∈ zs
      · have hinj' : ∀ a ∈ zs, ∀ b ∈ zs, mk a = mk b → a = b := by
          intro a ha b hb
          exact hinj a (List.mem_cons_of_mem _ ha) b (List.mem_cons_of_mem _ hb)
        rw [setOneHot_cons]
        exact ih (famSet f (mk z) (if v = z then 1 else 0)) hyz hinj'
      · have hz : y = z := by
          rcases List.mem_cons.mp hy with h | h
          · exact h
          · exact absurd h hyz
        subst hz
        have hne : ∀ w ∈ zs, mk w ≠ mk y := by
          intro w hw hmk
          have : w = y :=
            hinj w (List.mem_cons_of_mem _ hw) y (List.mem_cons_self _ _) hmk
          exact hyz (this ▸ hw)
        rw [setOneHot_cons, famGet_setOneHot_ne _ _ _ _ _ hne,
          famGet_famSet_self]

/-- The sum, over an enumeration, of the gauge values of one labelled
identity. -/
def famOneHotSum (f : Family) (mk : String → Labels)
    (ys : List String) : Int :=
  (ys.map (fun y => (famGet f (mk y)).getD 0)).sum

theorem sum_indicator_eq (v : String) (ys : List String) (hnd : ys.Nodup) :
    (ys.map (fun y => if v = y then (1 : Int) else 0)).sum =
      if v ∈ ys then 1 else 0 := by
  induction ys with
  | nil => simp
  | cons z zs ih =>
      have hnd' := (List.nodup_cons.mp hnd).2
      have hz := (List.nodup_cons.mp hnd).1
      by_cases h : v = z
      · subst h
        have : v ∉ zs := hz
        have hzero : (zs.map (fun y => if v = y then (1 : Int) else 0)).sum = 0 := by
          rw [ih hnd']
          simp [this]
        simp [hzero]
      · simp only [List.map, List.sum_cons, if_neg h, zero_add, ih hnd']
        have : (v ∈ z :: zs) = (v ∈ zs) := by
          simp [List.mem_cons, h]
        simp [List.mem_cons, h]

theorem famOneHotSum_setOneHot (f : Family) (mk : String → Labels)
    (ys : List String) (v : String) (hnd : ys.Nodup)
    (hinj : ∀ a ∈ ys, ∀ b ∈ ys, mk a = mk b → a = b) :
    famOneHotSum (setOneHot f mk ys v) mk ys = if v ∈ ys then 1 else 0 := by
  unfold famOneHotSum
  have hmap : (ys.map (fun y => (famGet (setOneHot f mk ys v) (mk y)).getD 0)) =
      ys.map (fun y => if v = y then (1 : Int) else 0) := by
    apply List.map_congr_left
    intro y hy
    rw [famGet_setOneHot_mem f mk ys v y hy hinj]
    rfl
  rw [hmap, sum_indicator_eq v ys hnd]

/-! ### Characterisation of the observation steps -/

theorem observeStack_existing (envName : String)
    (stks : List (String × stackV)) (heap : Heap) (reg : Registry)
    (d : targetData) (take : stackV)
    (hlook : lookupA stks d.Name = some take) :
    observeStack envName stks heap reg d =
      (stks,
       heapSet heap take.obj
         { (stackTransitionStep (stackLbl envName d)
             reg.extendingTotalStackBootstrap reg.extendingTotalStackFailure
             (heapGet heap take.obj) d).2.2 with
           Id := d.ID, Typ := d.Typ, State := d.State },
       { reg with
         infinityWorksStacksHealth := setOneHot reg.infinityWorksStacksHealth
           (fun y => [d.ID, d.Name, y, formatBool d.System]) healthStates
           d.HealthState,
         infinityWorksStacksState := setOneHot reg.infinityWorksStacksState
           (fun y => [d.ID, d.Name, y, formatBool d.System]) stackStates
           d.State,
         extendingStackHeartbeat := famSet reg.extendingStackHeartbeat
           (stackLbl envName d) 1,
         extendingTotalStackBootstrap := (stackTransitionStep
           (stackLbl envName d) reg.extendingTotalStackBootstrap
           reg.extendingTotalStackFailure (heapGet heap take.obj) d).1,
         extendingTotalStackFailure := (stackTransitionStep
           (stackLbl envName d) reg.extendingTotalStackBootstrap
           reg.extendingTotalStackFailure (heapGet heap take.obj) d).2.1 }) := by
  simp only [observeStack, hlook]

theorem observeStack_new (envName : String)
    (stks : List (String × stackV)) (heap : Heap) (reg : Registry)
    (d : targetData) (hlook : lookupA stks d.Name = none) :
    observeStack envName stks heap reg d =
      (insertA stks d.Name
         { obj := heap.length, Services := [], System := d.System },
       heap ++
         [{ Id := d.ID, Name := d.Name, State := d.State, Typ := d.Typ,
            BootstrapCount := (stackNewCounts (stackLbl envName d)
              reg.extendingTotalStackBootstrap reg.extendingTotalStackFailure
              d).2.2.1,
            FailureCount := (stackNewCounts (stackLbl envName d)
              reg.extendingTotalStackBootstrap reg.extendingTotalStackFailure
              d).2.2.2 }],
       { reg with
         infinityWorksStacksHealth := setOneHot reg.infinityWorksStacksHealth
           (fun y => [d.ID, d.Name, y, formatBool d.System]) healthStates
           d.HealthState,
         infinityWorksStacksState := setOneHot reg.infinityWorksStacksState
           (fun y => [d.ID, d.Name, y, formatBool d.System]) stackStates
           d.State,
         extendingStackHeartbeat := famSet reg.extendingStackHeartbeat
           (stackLbl envName d) 1,
         extendingTotalStackBootstrap := (stackNewCounts
           (stackLbl envName d) reg.extendingTotalStackBootstrap
           reg.extendingTotalStackFailure d).1,
         extendingTotalStackFailure := (stackNewCounts
           (stackLbl envName d) reg.extendingTotalStackBootstrap
           reg.extendingTotalStackFailure d).2.1 }) := by
  simp only [observeStack, hlook]

theorem observeService_existing (ctx : stkCtx)
    (svcs : List (String × serviceV)) (heap : Heap) (reg : Registry)
    (d : targetData) (take : serviceV)
    (hlook : lookupA svcs d.Name = some take) :
    observeService ctx svcs heap reg d =
      (svcs,
       heapSet heap take.obj
         { (serviceTransitionStep (serviceLbl ctx d)
             reg.extendingTotalServiceBootstrap
             reg.extendingTotalServiceFailure
             (heapGet heap take.obj) d).2.2 with
           Id := d.ID, Typ := d.Typ, State := d.State },
       { reg with
         infinityWorksServicesScale := famSet reg.infinityWorksServicesScale
           [d.Name, ctx.stackName, formatBool d.System] d.Scale,
         infinityWorksServicesHealth :=
           setOneHot reg.infinityWorksServicesHealth
             (fun y => [d.ID, ctx.stackId, d.Name, ctx.stackName, y,
               formatBool d.System]) healthStates d.HealthState,
         infinityWorksServicesState :=
           setOneHot reg.infinityWorksServicesState
             (fun y => [d.ID, ctx.stackId, d.Name, ctx.stackName, y,
               formatBool d.System]) serviceStates d.State,
         extendingServiceHeartbeat := famSet reg.extendingServiceHeartbeat
           (serviceLbl ctx d) 1,
         extendingTotalServiceBootstrap := (serviceTransitionStep
           (serviceLbl ctx d) reg.extendingTotalServiceBootstrap
           reg.extendingTotalServiceFailure (heapGet heap take.obj) d).1,
         extendingTotalServiceFailure := (serviceTransitionStep
           (serviceLbl ctx d) reg.extendingTotalServiceBootstrap
           reg.extendingTotalServiceFailure (heapGet heap take.obj) d).2.1 }) := by
  simp only [observeService, hlook]

theorem observeService_new (ctx : stkCtx)
    (svcs : List (String × serviceV)) (heap : Heap) (reg : Registry)
    (d : targetData) (hlook : lookupA svcs d.Name = none) :
    observeService ctx svcs heap reg d =
      (insertA svcs d.Name
         { obj := heap.length, Instances := [], System := d.System },
       heap ++
         [{ Id := d.ID, Name := d.Name, State := d.State, Typ := d.Typ,
            BootstrapCount := (serviceNewCounts (serviceLbl ctx d)
              reg.extendingTotalServiceBootstrap
              reg.extendingTotalServiceFailure d).2.2.1,
            FailureCount := (serviceNewCounts (serviceLbl ctx d)
              reg.extendingTotalServiceBootstrap
              reg.extendingTotalServiceFailure d).2.2.2 }],
       { reg with
         infinityWorksServicesScale := famSet reg.infinityWorksServicesScale
           [d.Name, ctx.stackName, formatBool d.System] d.Scale,
         infinityWorksServicesHealth :=
           setOneHot reg.infinityWorksServicesHealth
             (fun y => [d.ID, ctx.stackId, d.Name, ctx.stackName, y,
               formatBool d.System]) healthStates d.HealthState,
         infinityWorksServicesState :=
           setOneHot reg.infinityWorksServicesState
             (fun y => [d.ID, ctx.stackId, d.Name, ctx.stackName, y,
               formatBool d.System]) serviceStates d.State,
         extendingServiceHeartbeat := famSet reg.extendingServiceHeartbeat
           (serviceLbl ctx d) 1,
         extendingTotalServiceBootstrap := (serviceNewCounts
           (serviceLbl ctx d) reg.extendingTotalServiceBootstrap
           reg.extendingTotalServiceFailure d).1,
         extendingTotalServiceFailure := (serviceNewCounts
           (serviceLbl ctx d) reg.extendingTotalServiceBootstrap
           reg.extendingTotalServiceFailure d).2.1 }) := by
  simp only [observeService, hlook]

theorem observeInstance_existing (ctx : svcCtx)
    (insts : List (String × instanceV)) (heap : Heap) (reg : Registry)
    (d : targetData) (take : instanceV)
    (hlook : lookupA insts d.Name = some take) :
    observeInstance ctx insts heap reg d =
      (insts,
       heapSet heap take.obj
         { (instanceTransitionStep (instanceLbl ctx d)
             reg.extendingTotalInstanceBootstrap
             reg.extendingTotalInstanceFailure
             reg.extendingInstanceBootstrapMsCost
             (heapGet heap take.obj) d).2.2.2 with
           Id := d.ID, Typ := d.Typ, State := d.State },
       { reg with
         extendingInstanceHeartbeat := famSet reg.extendingInstanceHeartbeat
           (instanceLbl ctx d) 1,
         extendingTotalInstanceBootstrap := (instanceTransitionStep
           (instanceLbl ctx d) reg.extendingTotalInstanceBootstrap
           reg.extendingTotalInstanceFailure
           reg.extendingInstanceBootstrapMsCost
           (heapGet heap take.obj) d).1,
         extendingTotalInstanceFailure := (instanceTransitionStep
           (instanceLbl ctx d) reg.extendingTotalInstanceBootstrap
           reg.extendingTotalInstanceFailure
           reg.extendingInstanceBootstrapMsCost
           (heapGet heap take.obj) d).2.1,
         extendingInstanceBootstrapMsCost := (instanceTransitionStep
           (instanceLbl ctx d) reg.extendingTotalInstanceBootstrap
           reg.extendingTotalInstanceFailure
           reg.extendingInstanceBootstrapMsCost
           (heapGet heap take.obj) d).2.2.1 }) := by
  simp only [observeInstance, hlook]

theorem observeInstance_new (ctx : svcCtx)
    (insts : List (String × instanceV)) (heap : Heap) (reg : Registry)
    (d : targetData) (hlook : lookupA insts d.Name = none) :
    observeInstance ctx insts heap reg d =
      (insertA insts d.Name
         { obj := heap.length, System := d.System,
           StartupTime := (instanceNewCounts (instanceLbl ctx d)
             reg.extendingTotalInstanceBootstrap
             reg.extendingTotalInstanceFailure
             reg.extendingInstanceBootstrapMsCost d).2.2.2.2.2 },
       heap ++
         [{ Id := d.ID, Name := d.Name, State := d.State, Typ := d.Typ,
            BootstrapCount := (instanceNewCounts (instanceLbl ctx d)
              reg.extendingTotalInstanceBootstrap
              reg.extendingTotalInstanceFailure
              reg.extendingInstanceBootstrapMsCost d).2.2.2.1,
            FailureCount := (instanceNewCounts (instanceLbl ctx d)
              reg.extendingTotalInstanceBootstrap
              reg.extendingTotalInstanceFailure
              reg.extendingInstanceBootstrapMsCost d).2.2.2.2.1 }],
       { reg with
         extendingInstanceHeartbeat := famSet reg.extendingInstanceHeartbeat
           (instanceLbl ctx d) 1,
         extendingTotalInstanceBootstrap := (instanceNewCounts
           (instanceLbl ctx d) reg.extendingTotalInstanceBootstrap
           reg.extendingTotalInstanceFailure
           reg.extendingInstanceBootstrapMsCost d).1,
         extendingTotalInstanceFailure := (instanceNewCounts
           (instanceLbl ctx d) reg.extendingTotalInstanceBootstrap
           reg.extendingTotalInstanceFailure
           reg.extendingInstanceBootstrapMsCost d).2.1,
         extendingInstanceBootstrapMsCost := (instanceNewCounts
           (instanceLbl ctx d) reg.extendingTotalInstanceBootstrap
           reg.extendingTotalInstanceFailure
           reg.extendingInstanceBootstrapMsCost d).2.2.1 }) := by
  simp only [observeInstance, hlook]

/-! ### Case analysis of the transition steps -/

theorem stackTransitionStep_active_unhealthy (lbl : Labels)
    (bF fF : Family) (old : object) (d : targetData)
    (hne : old.State ≠ d.State) (ha : d.State = "active")
    (hu : d.HealthState = "unhealthy") :
    stackTransitionStep lbl bF fF old d =
      (famInc bF lbl, famInc fF lbl,
       { old with BootstrapCount := inc64 old.BootstrapCount,
                  FailureCount := inc64 old.FailureCount }) := by
  rw [ha] at hne
  simp [stackTransitionStep, ha, hu, hne]

theorem stackTransitionStep_active_healthy (lbl : Labels)
    (bF fF : Family) (old : object) (d : targetData)
    (hne : old.State ≠ d.State) (ha : d.State = "active")
    (hu : d.HealthState ≠ "unhealthy") :
    stackTransitionStep lbl bF fF old d =
      (famInc bF lbl, fF,
       { old with BootstrapCount := inc64 old.BootstrapCount }) := by
  rw [ha] at hne
  simp [stackTransitionStep, ha, hu, hne]

theorem stackTransitionStep_error (lbl : Labels)
    (bF fF : Family) (old : object) (d : targetData)
    (hne : old.State ≠ d.State) (hna : d.State ≠ "active")
    (he : d.State = "error") :
    stackTransitionStep lbl bF fF old d =
      (famInc bF lbl, famInc fF lbl,
       { old with BootstrapCount := inc64 old.BootstrapCount,
                  FailureCount := inc64 old.FailureCount }) := by
  rw [he] at hne
  simp [stackTransitionStep, hna, he, hne]

theorem stackTransitionStep_other (lbl : Labels)
    (bF fF : Family) (old : object) (d : targetData)
    (hna : d.State ≠ "active") (hnerr : d.State ≠ "error") :
    stackTransitionStep lbl bF fF old d = (bF, fF, old) := by
  by_cases hne : old.State = d.State
  · simp [stackTransitionStep, hne]
  · simp [stackTransitionStep, hne, hna, hnerr]

theorem stackTransitionStep_same (lbl : Labels)
    (bF fF : Family) (old : object) (d : targetData)
    (hs : old.State = d.State) :
    stackTransitionStep lbl bF fF old d = (bF, fF, old) := by
  simp [stackTransitionStep, hs]

theorem stackNewCounts_active_unhealthy (lbl : Labels) (bF fF : Family)
    (d : targetData) (ha : d.State = "active")
    (hu : d.HealthState = "unhealthy") :
    stackNewCounts lbl bF fF d = (famInc bF lbl, famInc fF lbl, 1, 1) := by
  simp [stackNewCounts, ha, hu]

theorem stackNewCounts_active_healthy (lbl : Labels) (bF fF : Family)
    (d : targetData) (ha : d.State = "active")
    (hu : d.HealthState ≠ "unhealthy") :
    stackNewCounts lbl bF fF d = (famInc bF lbl, famTouch fF lbl, 1, 0) := by
  simp [stackNewCounts, ha, hu]

theorem stackNewCounts_error (lbl : Labels) (bF fF : Family)
    (d : targetData) (hna : d.State ≠ "active") (he : d.State = "error") :
    stackNewCounts lbl bF fF d = (famInc bF lbl, famInc fF lbl, 1, 1) := by
  simp [stackNewCounts, hna, he]

theorem stackNewCounts_other (lbl : Labels) (bF fF : Family)
    (d : targetData) (hna : d.State ≠ "active") (hnerr : d.State ≠ "error") :
    stackNewCounts lbl bF fF d = (famTouch bF lbl, famTouch fF lbl, 0, 0) := by
  simp [stackNewCounts, hna, hnerr]

/-- `stack.fetch`'s service transition block is textually identical to
`project.fetch`'s stack transition block. -/
theorem serviceTransitionStep_eq_stack :
    @serviceTransitionStep = @stackTransitionStep := rfl

/-- Likewise for the new-node blocks. -/
theorem serviceNewCounts_eq_stack : @serviceNewCounts = @stackNewCounts := rfl

theorem instanceTransitionStep_running (lbl : Labels)
    (bF fF mF : Family) (old : object) (d : targetData)
    (hne : old.State ≠ d.State) (hr : d.State = "running") :
    instanceTransitionStep lbl bF fF mF old d =
      (famInc bF lbl, fF,
       (if d.FirstRunningTS ≠ 0 then
          famSet mF lbl (Int.ofNat (sub64 d.FirstRunningTS d.CreatedTS))
        else mF),
       { old with BootstrapCount := inc64 old.BootstrapCount }) := by
  rw [hr] at hne
  by_cases hf : d.FirstRunningTS ≠ 0
  · simp [instanceTransitionStep, hr, hne, hf]
  · simp [instanceTransitionStep, hr, hne, hf]

theorem instanceTransitionStep_error (lbl : Labels)
    (bF fF mF : Family) (old : object) (d : targetData)
    (hne : old.State ≠ d.State) (hnr : d.State ≠ "running")
    (he : d.State = "error") :
    instanceTransitionStep lbl bF fF mF old d =
      (famInc bF lbl, famInc fF lbl, mF,
       { old with BootstrapCount := inc64 old.BootstrapCount,
                  FailureCount := inc64 old.FailureCount }) := by
  rw [he] at hne
  simp [instanceTransitionStep, hnr, he, hne]

theorem instanceTransitionStep_other (lbl : Labels)
    (bF fF mF : Family) (old : object) (d : targetData)
    (hnr : d.State ≠ "running") (hnerr : d.State ≠ "error") :
    instanceTransitionStep lbl bF fF mF old d = (bF, fF, mF, old) := by
  by_cases hne : old.State = d.State
  · simp [instanceTransitionStep, hne]
  · simp [instanceTransitionStep, hne, hnr, hnerr]

theorem instanceTransitionStep_same (lbl : Labels)
    (bF fF mF : Family) (old : object) (d : targetData)
    (hs : old.State = d.State) :
    instanceTransitionStep lbl bF fF mF old d = (bF, fF, mF, old) := by
  simp [instanceTransitionStep, hs]

theorem instanceNewCounts_error (lbl : Labels) (bF fF mF : Family)
    (d : targetData) (he : d.State = "error") :
    instanceNewCounts lbl bF fF mF d =
      (famInc bF lbl, famInc fF lbl, mF, 1, 1, 0) := by
  simp [instanceNewCounts, he]

theorem instanceNewCounts_run_stop (lbl : Labels) (bF fF mF : Family)
    (d : targetData) (hne : d.State ≠ "error")
    (hrs : d.State = "stopped" ∨ d.State = "running") :
    instanceNewCounts lbl bF fF mF d =
      (famInc bF lbl, famTouch fF lbl,
       (if d.FirstRunningTS ≠ 0 then
          famSet mF lbl (Int.ofNat (sub64 d.FirstRunningTS d.CreatedTS))
        else mF),
       1, 0,
       (if d.FirstRunningTS ≠ 0 then sub64 d.FirstRunningTS d.CreatedTS
        else 0)) := by
  by_cases hf : d.FirstRunningTS ≠ 0
  · simp [instanceNewCounts, hne, hrs, hf]
  · simp [instanceNewCounts, hne, hrs, hf]

theorem instanceNewCounts_other (lbl : Labels) (bF fF mF : Family)
    (d : targetData) (hne : d.State ≠ "error")
    (hns : d.State ≠ "stopped") (hnr : d.State ≠ "running") :
    instanceNewCounts lbl bF fF mF d =
      (famTouch bF lbl, famTouch fF lbl, mF, 0, 0, 0) := by
  simp [instanceNewCounts, hne, hns, hnr]

/-! ### Claim C1: stack/service transition accounting -/

/-- The Scenario C stack as decoded at one scrape (name `stk`, project
`env`, varying health and state). -/
def scenStackObs (hs st : String) : targetData :=
  { targetData.zero with
    Name := "stk", ID := "1st1", Typ := "stack", State := st,
    HealthState := hs }

/-- Scenario C, scrape 1: first sight, `active(healthy)`. -/
def scenC1s1 : List (String × stackV) × Heap × Registry :=
  observeStack "env" [] [] Registry.empty (scenStackObs "healthy" "active")

/-- Scenario C, scrape 2: `upgrading`. -/
def scenC1s2 : List (String × stackV) × Heap × Registry :=
  observeStack "env" scenC1s1.1 scenC1s1.2.1 (metricFetchReset scenC1s1.2.2)
    (scenStackObs "healthy" "upgrading")

/-- Scenario C, scrape 3: `active(unhealthy)`. -/
def scenC1s3 : List (String × stackV) × Heap × Registry :=
  observeStack "env" scenC1s2.1 scenC1s2.2.1 (metricFetchReset scenC1s2.2.2)
    (scenStackObs "unhealthy" "active")

/-- Scenario C, scrape 4: `active(unhealthy)` again. -/
def scenC1s4 : List (String × stackV) × Heap × Registry :=
  observeStack "env" scenC1s3.1 scenC1s3.2.1 (metricFetchReset scenC1s3.2.2)
    (scenStackObs "unhealthy" "active")

/-- **C1**: for every observed stack or service that already exists in
the model, if the newly observed state differs from the stored state
then: when the new state is `active`, the bootstrap counter series and
the node's `bootstrapCount` increase by exactly 1, and the failure
counter increases by 1 iff the observed health is `unhealthy` (otherwise
both the node's `failureCount` and the failure family are unchanged);
when the new state is `error`, both bootstrap and failure increase by
exactly 1; for any other new state nothing is incremented.  The same
increments apply on first sight of a node in state `active` or `error`.
For the Scenario C transition sequence
`unseen → active(healthy) → upgrading → active(unhealthy) →
active(unhealthy)` the cumulative totals after each scrape are
bootstrap `1,1,2,2` and failure `0,0,1,1`. -/
theorem claim1_transition_rules :
    (∀ (envName : String) (stks : List (String × stackV)) (heap : Heap)
       (reg : Registry) (d : targetData) (take : stackV),
      lookupA stks d.Name = some take →
      take.obj < heap.length →
      (heapGet heap take.obj).State ≠ d.State →
      ((d.State = "active" →
        (heapGet (observeStack envName stks heap reg d).2.1
            take.obj).BootstrapCount
          = inc64 (heapGet heap take.obj).BootstrapCount ∧
        famGet (observeStack envName stks heap reg
            d).2.2.extendingTotalStackBootstrap (stackLbl envName d)
          = some ((famGet reg.extendingTotalStackBootstrap
              (stackLbl envName d)).getD 0 + 1) ∧
        (d.HealthState = "unhealthy" →
          (heapGet (observeStack envName stks heap reg d).2.1
              take.obj).FailureCount
            = inc64 (heapGet heap take.obj).FailureCount ∧
          famGet (observeStack envName stks heap reg
              d).2.2.extendingTotalStackFailure (stackLbl envName d)
            = some ((famGet reg.extendingTotalStackFailure
                (stackLbl envName d)).getD 0 + 1)) ∧
        (d.HealthState ≠ "unhealthy" →
          (heapGet (observeStack envName stks heap reg d).2.1
              take.obj).FailureCount
            = (heapGet heap take.obj).FailureCount ∧
          (observeStack envName stks heap reg
              d).2.2.extendingTotalStackFailure
            = reg.extendingTotalStackFailure)) ∧
      (d.State = "error" →
        (heapGet (observeStack envName stks heap reg d).2.1
            take.obj).BootstrapCount
          = inc64 (heapGet heap take.obj).BootstrapCount ∧
        (heapGet (observeStack envName stks heap reg d).2.1
            take.obj).FailureCount
          = inc64 (heapGet heap take.obj).FailureCount ∧
        famGet (observeStack envName stks heap reg
            d).2.2.extendingTotalStackBootstrap (stackLbl envName d)
          = some ((famGet reg.extendingTotalStackBootstrap
              (stackLbl envName d)).getD 0 + 1) ∧
        famGet (observeStack envName stks heap reg
            d).2.2.extendingTotalStackFailure (stackLbl envName d)
          = some ((famGet reg.extendingTotalStackFailure
              (stackLbl envName d)).getD 0 + 1)) ∧
      (d.State ≠ "active" → d.State ≠ "error" →
        (heapGet (observeStack envName stks heap reg d).2.1
            take.obj).BootstrapCount
          = (heapGet heap take.obj).BootstrapCount ∧
        (heapGet (observeStack envName stks heap reg d).2.1
            take.obj).FailureCount
          = (heapGet heap take.obj).FailureCount ∧
        (observeStack envName stks heap reg
            d).2.2.extendingTotalStackBootstrap
          = reg.extendingTotalStackBootstrap ∧
        (observeStack envName stks heap reg
            d).2.2.extendingTotalStackFailure
          = reg.extendingTotalStackFailure))) ∧
    (∀ (ctx : stkCtx) (svcs : List (String × serviceV)) (heap : Heap)
       (reg : Registry) (d : targetData) (take : serviceV),
      lookupA svcs d.Name = some take →
      take.obj < heap.length →
      (heapGet heap take.obj).State ≠ d.State →
      ((d.State = "active" →
        (heapGet (observeService ctx svcs heap reg d).2.1
            take.obj).BootstrapCount
          = inc64 (heapGet heap take.obj).BootstrapCount ∧
        famGet (observeService ctx svcs heap reg
            d).2.2.extendingTotalServiceBootstrap (serviceLbl ctx d)
          = some ((famGet reg.extendingTotalServiceBootstrap
              (serviceLbl ctx d)).getD 0 + 1) ∧
        (d.HealthState = "unhealthy" →
          (heapGet (observeService ctx svcs heap reg d).2.1
              take.obj).FailureCount
            = inc64 (heapGet heap take.obj).FailureCount ∧
          famGet (observeService ctx svcs heap reg
              d).2.2.extendingTotalServiceFailure (serviceLbl ctx d)
            = some ((famGet reg.extendingTotalServiceFailure
                (serviceLbl ctx d)).getD 0 + 1)) ∧
        (d.HealthState ≠ "unhealthy" →
          (heapGet (observeService ctx svcs heap reg d).2.1
              take.obj).FailureCount
            = (heapGet heap take.obj).FailureCount ∧
          (observeService ctx svcs heap reg
              d).2.2.extendingTotalServiceFailure
            = reg.extendingTotalServiceFailure)) ∧
      (d.State = "error" →
        (heapGet (observeService ctx svcs heap reg d).2.1
            take.obj).BootstrapCount
          = inc64 (heapGet heap take.obj).BootstrapCount ∧
        (heapGet (observeService ctx svcs heap reg d).2.1
            take.obj).FailureCount
          = inc64 (heapGet heap take.obj).FailureCount ∧
        famGet (observeService ctx svcs heap reg
            d).2.2.extendingTotalServiceBootstrap (serviceLbl ctx d)
          = some ((famGet reg.extendingTotalServiceBootstrap
              (serviceLbl ctx d)).getD 0 + 1) ∧
        famGet (observeService ctx svcs heap reg
            d).2.2.extendingTotalServiceFailure (serviceLbl ctx d)
          = some ((famGet reg.extendingTotalServiceFailure
              (serviceLbl ctx d)).getD 0 + 1)) ∧
      (d.State ≠ "active" → d.State ≠ "error" →
        (heapGet (observeService ctx svcs heap reg d).2.1
            take.obj).BootstrapCount
          = (heapGet heap take.obj).BootstrapCount ∧
        (heapGet (observeService ctx svcs heap reg d).2.1
            take.obj).FailureCount
          = (heapGet heap take.obj).FailureCount ∧
        (observeService ctx svcs heap reg
            d).2.2.extendingTotalServiceBootstrap
          = reg.extendingTotalServiceBootstrap ∧
        (observeService ctx svcs heap reg
            d).2.2.extendingTotalServiceFailure
          = reg.extendingTotalServiceFailure))) ∧
    (∀ (envName : String) (stks : List (String × stackV)) (heap : Heap)
       (reg : Registry) (d : targetData),
      lookupA stks d.Name = none →
      ((d.State = "active" →
        (heapGet (observeStack envName stks heap reg d).2.1
            heap.length).BootstrapCount = 1 ∧
        famGet (observeStack envName stks heap reg
            d).2.2.extendingTotalStackBootstrap (stackLbl envName d)
          = some ((famGet reg.extendingTotalStackBootstrap
              (stackLbl envName d)).getD 0 + 1) ∧
        (d.HealthState = "unhealthy" →
          (heapGet (observeStack envName stks heap reg d).2.1
              heap.length).FailureCount = 1 ∧
          famGet (observeStack envName stks heap reg
              d).2.2.extendingTotalStackFailure (stackLbl envName d)
            = some ((famGet reg.extendingTotalStackFailure
                (stackLbl envName d)).getD 0 + 1)) ∧
        (d.HealthState ≠ "unhealthy" →
          (heapGet (observeStack envName stks heap reg d).2.1
              heap.length).FailureCount = 0 ∧
          famGet (observeStack envName stks heap reg
              d).2.2.extendingTotalStackFailure (stackLbl envName d)
            = some ((famGet reg.extendingTotalStackFailure
                (stackLbl envName d)).getD 0))) ∧
      (d.State = "error" →
        (heapGet (observeStack envName stks heap reg d).2.1
            heap.length).BootstrapCount = 1 ∧
        (heapGet (observeStack envName stks heap reg d).2.1
            heap.length).FailureCount = 1 ∧
        famGet (observeStack envName stks heap reg
            d).2.2.extendingTotalStackBootstrap (stackLbl envName d)
          = some ((famGet reg.extendingTotalStackBootstrap
              (stackLbl envName d)).getD 0 + 1) ∧
        famGet (observeStack envName stks heap reg
            d).2.2.extendingTotalStackFailure (stackLbl envName d)
          = some ((famGet reg.extendingTotalStackFailure
              (stackLbl envName d)).getD 0 + 1)))) ∧
    (∀ (ctx : stkCtx) (svcs : List (String × serviceV)) (heap : Heap)
       (reg : Registry) (d : targetData),
      lookupA svcs d.Name = none →
      ((d.State = "active" →
        (heapGet (observeService ctx svcs heap reg d).2.1
            heap.length).BootstrapCount = 1 ∧
        famGet (observeService ctx svcs heap reg
            d).2.2.extendingTotalServiceBootstrap (serviceLbl ctx d)
          = some ((famGet reg.extendingTotalServiceBootstrap
              (serviceLbl ctx d)).getD 0 + 1) ∧
        (d.HealthState = "unhealthy" →
          (heapGet (observeService ctx svcs heap reg d).2.1
              heap.length).FailureCount = 1 ∧
          famGet (observeService ctx svcs heap reg
              d).2.2.extendingTotalServiceFailure (serviceLbl ctx d)
            = some ((famGet reg.extendingTotalServiceFailure
                (serviceLbl ctx d)).getD 0 + 1)) ∧
        (d.HealthState ≠ "unhealthy" →
          (heapGet (observeService ctx svcs heap reg d).2.1
              heap.length).FailureCount = 0 ∧
          famGet (observeService ctx svcs heap reg
              d).2.2.extendingTotalServiceFailure (serviceLbl ctx d)
            = some ((famGet reg.extendingTotalServiceFailure
                (serviceLbl ctx d)).getD 0))) ∧
      (d.State = "error" →
        (heapGet (observeService ctx svcs heap reg d).2.1
            heap.length).BootstrapCount = 1 ∧
        (heapGet (observeService ctx svcs heap reg d).2.1
            heap.length).FailureCount = 1 ∧
        famGet (observeService ctx svcs heap reg
            d).2.2.extendingTotalServiceBootstrap (serviceLbl ctx d)
          = some ((famGet reg.extendingTotalServiceBootstrap
              (serviceLbl ctx d)).getD 0 + 1) ∧
        famGet (observeService ctx svcs heap reg
            d).2.2.extendingTotalServiceFailure (serviceLbl ctx d)
          = some ((famGet reg.extendingTotalServiceFailure
              (serviceLbl ctx d)).getD 0 + 1)))) ∧
    (famGet scenC1s1.2.2.extendingTotalStackBootstrap
        ["env", "stk", "false", "stack"] = some 1 ∧
     famGet scenC1s1.2.2.extendingTotalStackFailure
        ["env", "stk", "false", "stack"] = some 0 ∧
     famGet scenC1s2.2.2.extendingTotalStackBootstrap
        ["env", "stk", "false", "stack"] = some 1 ∧
     famGet scenC1s2.2.2.extendingTotalStackFailure
        ["env", "stk", "false", "stack"] = some 0 ∧
     famGet scenC1s3.2.2.extendingTotalStackBootstrap
        ["env", "stk", "false", "stack"] = some 2 ∧
     famGet scenC1s3.2.2.extendingTotalStackFailure
        ["env", "stk", "false", "stack"] = some 1 ∧
     famGet scenC1s4.2.2.extendingTotalStackBootstrap
        ["env", "stk", "false", "stack"] = some 2 ∧
     famGet scenC1s4.2.2.extendingTotalStackFailure
        ["env", "stk", "false", "stack"] = some 1) := by
  refine ⟨?_, ?_, ?_, ?_, ?_⟩
  · intro envName stks heap reg d take hlook hlt hne
    rw [observeStack_existing envName stks heap reg d take hlook]
    refine ⟨?_, ?_, ?_⟩
    · intro ha
      by_cases hu : d.HealthState = "unhealthy"
      · rw [stackTransitionStep_active_unhealthy _ _ _ _ _ hne ha hu]
        simp [heapGet_heapSet_self _ _ _ hlt, famGet_famInc_self]
        intro hu'
        exact absurd hu hu'
      · rw [stackTransitionStep_active_healthy _ _ _ _ _ hne ha hu]
        simp [heapGet_heapSet_self _ _ _ hlt, famGet_famInc_self, hu]
    · intro he
      have hna : d.State ≠ "active" := by rw [he]; decide
      rw [stackTransitionStep_error _ _ _ _ _ hne hna he]
      simp [heapGet_heapSet_self _ _ _ hlt, famGet_famInc_self]
    · intro hna hnerr
      rw [stackTransitionStep_other _ _ _ _ _ hna hnerr]
      simp [heapGet_heapSet_self _ _ _ hlt]
  · intro ctx svcs heap reg d take hlook hlt hne
    rw [observeService_existing ctx svcs heap reg d take hlook,
      serviceTransitionStep_eq_stack]
    refine ⟨?_, ?_, ?_⟩
    · intro ha
      by_cases hu : d.HealthState = "unhealthy"
      · rw [stackTransitionStep_active_unhealthy _ _ _ _ _ hne ha hu]
        simp [heapGet_heapSet_self _ _ _ hlt, famGet_famInc_self]
        intro hu'
        exact absurd hu hu'
      · rw [stackTransitionStep_active_healthy _ _ _ _ _ hne ha hu]
        simp [heapGet_heapSet_self _ _ _ hlt, famGet_famInc_self, hu]
    · intro he
      have hna : d.State ≠ "active" := by rw [he]; decide
      rw [stackTransitionStep_error _ _ _ _ _ hne hna he]
      simp [heapGet_heapSet_self _ _ _ hlt, famGet_famInc_self]
    · intro hna hnerr
      rw [stackTransitionStep_other _ _ _ _ _ hna hnerr]
      simp [heapGet_heapSet_self _ _ _ hlt]
  · intro envName stks heap reg d hlook
    rw [observeStack_new envName stks heap reg d hlook]
    refine ⟨?_, ?_⟩
    · intro ha
      by_cases hu : d.HealthState = "unhealthy"
      · rw [stackNewCounts_active_unhealthy _ _ _ _ ha hu]
        simp [heapGet_append_len, famGet_famInc_self]
        exact hu
      · rw [stackNewCounts_active_healthy _ _ _ _ ha hu]
        simp [heapGet_append_len, famGet_famInc_self, famGet_famTouch_self,
          hu]
    · intro he
      have hna : d.State ≠ "active" := by rw [he]; decide
      rw [stackNewCounts_error _ _ _ _ hna he]
      simp [heapGet_append_len, famGet_famInc_self]
  · intro ctx svcs heap reg d hlook
    rw [observeService_new ctx svcs heap reg d hlook,
      serviceNewCounts_eq_stack]
    refine ⟨?_, ?_⟩
    · intro ha
      by_cases hu : d.HealthState = "unhealthy"
      · rw [stackNewCounts_active_unhealthy _ _ _ _ ha hu]
        simp [heapGet_append_len, famGet_famInc_self]
        exact hu
      · rw [stackNewCounts_active_healthy _ _ _ _ ha hu]
        simp [heapGet_append_len, famGet_famInc_self, famGet_famTouch_self,
          hu]
    · intro he
      have hna : d.State ≠ "active" := by rw [he]; decide
      rw [stackNewCounts_error _ _ _ _ hna he]
      simp [heapGet_append_len, famGet_famInc_self]
  · decide

/-- Concrete pre-state for the C1 witness: one stack `stk` stored in
state `upgrading` with counts 3/1. -/
def witC1take : stackV := { obj := 0, Services := [], System := false }

def witC1stks : List (String × stackV) := [("stk", witC1take)]

def witC1heap : Heap :=
  [{ Id := "1", Name := "stk", State := "upgrading", Typ := "stack",
     BootstrapCount := 3, FailureCount := 1 }]

/-- Witness for C1: a concrete `upgrading → active(unhealthy)` stack
transition increments the stored `bootstrapCount` from 3 to 4. -/
theorem claim1_transition_rules_witness :
    lookupA witC1stks "stk" = some witC1take ∧
    (0 : Nat) < 1 ∧
    (heapGet witC1heap 0).State ≠ (scenStackObs "unhealthy" "active").State ∧
    (heapGet (observeStack "env" witC1stks witC1heap Registry.empty
        (scenStackObs "unhealthy" "active")).2.1 0).BootstrapCount
      = inc64 3 :=
  ⟨by decide, by decide, by decide,
   ((claim1_transition_rules.1 "env" witC1stks witC1heap Registry.empty
      (scenStackObs "unhealthy" "active") witC1take
      (by decide) (by decide) (by decide)).1 (by decide)).1⟩

/-! ### Claim C2: instance transition accounting -/

/-- Go's `uint64` subtraction agrees with truncated subtraction when no
underflow occurs, so `firstRunningTS - createdTS` is the literal
difference whenever `createdTS ≤ firstRunningTS`. -/
theorem sub64_eq_sub (c f : Nat) (h1 : c ≤ f) (h2 : f < W64) :
    sub64 f c = f - c := by
  unfold sub64
  have hW : (0 : Nat) < W64 := by unfold W64; positivity
  have : f + W64 - c = (f - c) + W64 := by omega
  rw [this, Nat.add_mod_right]
  exact Nat.mod_eq_of_lt (by omega)

/-- **C2**: for every observed instance: on first sight in state
`running` or `stopped`, or on a transition from any state other than
`running` into `running`, the instance bootstrap counter increases by
exactly 1, the failure counter does not increase, and
`instance_startup_ms` is set to `firstRunningTS - createdTS` iff
`firstRunningTS ≠ 0` (with `firstRunningTS == 0` the gauge family is
untouched); on first sight in `error` or a transition from a
non-`error` state into `error`, both bootstrap and failure increase by
exactly 1; on first sight in any other state, both counter label series
are created (touched) without incrementing. -/
theorem claim2_instance_rules :
    (∀ (ctx : svcCtx) (insts : List (String × instanceV)) (heap : Heap)
       (reg : Registry) (d : targetData) (take : instanceV),
      lookupA insts d.Name = some take →
      take.obj < heap.length →
      (heapGet heap take.obj).State ≠ d.State →
      ((d.State = "running" →
        (heapGet (observeInstance ctx insts heap reg d).2.1
            take.obj).BootstrapCount
          = inc64 (heapGet heap take.obj).BootstrapCount ∧
        famGet (observeInstance ctx insts heap reg
            d).2.2.extendingTotalInstanceBootstrap (instanceLbl ctx d)
          = some ((famGet reg.extendingTotalInstanceBootstrap
              (instanceLbl ctx d)).getD 0 + 1) ∧
        (heapGet (observeInstance ctx insts heap reg d).2.1
            take.obj).FailureCount
          = (heapGet heap take.obj).FailureCount ∧
        (observeInstance ctx insts heap reg
            d).2.2.extendingTotalInstanceFailure
          = reg.extendingTotalInstanceFailure ∧
        (d.FirstRunningTS ≠ 0 →
          famGet (observeInstance ctx insts heap reg
              d).2.2.extendingInstanceBootstrapMsCost (instanceLbl ctx d)
            = some (Int.ofNat (sub64 d.FirstRunningTS d.CreatedTS))) ∧
        (d.FirstRunningTS = 0 →
          (observeInstance ctx insts heap reg
              d).2.2.extendingInstanceBootstrapMsCost
            = reg.extendingInstanceBootstrapMsCost)) ∧
      (d.State = "error" →
        (heapGet (observeInstance ctx insts heap reg d).2.1
            take.obj).BootstrapCount
          = inc64 (heapGet heap take.obj).BootstrapCount ∧
        (heapGet (observeInstance ctx insts heap reg d).2.1
            take.obj).FailureCount
          = inc64 (heapGet heap take.obj).FailureCount ∧
        famGet (observeInstance ctx insts heap reg
            d).2.2.extendingTotalInstanceBootstrap (instanceLbl ctx d)
          = some ((famGet reg.extendingTotalInstanceBootstrap
              (instanceLbl ctx d)).getD 0 + 1) ∧
        famGet (observeInstance ctx insts heap reg
            d).2.2.extendingTotalInstanceFailure (instanceLbl ctx d)
          = some ((famGet reg.extendingTotalInstanceFailure
              (instanceLbl ctx d)).getD 0 + 1) ∧
        (observeInstance ctx insts heap reg
            d).2.2.extendingInstanceBootstrapMsCost
          = reg.extendingInstanceBootstrapMsCost))) ∧
    (∀ (ctx : svcCtx) (insts : List (String × instanceV)) (heap : Heap)
       (reg : Registry) (d : targetData),
      lookupA insts d.Name = none →
      ((d.State = "running" ∨ d.State = "stopped" →
        (heapGet (observeInstance ctx insts heap reg d).2.1
            heap.length).BootstrapCount = 1 ∧
        (heapGet (observeInstance ctx insts heap reg d).2.1
            heap.length).FailureCount = 0 ∧
        famGet (observeInstance ctx insts heap reg
            d).2.2.extendingTotalInstanceBootstrap (instanceLbl ctx d)
          = some ((famGet reg.extendingTotalInstanceBootstrap
              (instanceLbl ctx d)).getD 0 + 1) ∧
        famGet (observeInstance ctx insts heap reg
            d).2.2.extendingTotalInstanceFailure (instanceLbl ctx d)
          = some ((famGet reg.extendingTotalInstanceFailure
              (instanceLbl ctx d)).getD 0) ∧
        (d.FirstRunningTS ≠ 0 →
          famGet (observeInstance ctx insts heap reg
              d).2.2.extendingInstanceBootstrapMsCost (instanceLbl ctx d)
            = some (Int.ofNat (sub64 d.FirstRunningTS d.CreatedTS))) ∧
        (d.FirstRunningTS = 0 →
          (observeInstance ctx insts heap reg
              d).2.2.extendingInstanceBootstrapMsCost
            = reg.extendingInstanceBootstrapMsCost)) ∧
      (d.State = "error" →
        (heapGet (observeInstance ctx insts heap reg d).2.1
            heap.length).BootstrapCount = 1 ∧
        (heapGet (observeInstance ctx insts heap reg d).2.1
            heap.length).FailureCount = 1 ∧
        famGet (observeInstance ctx insts heap reg
            d).2.2.extendingTotalInstanceBootstrap (instanceLbl ctx d)
          = some ((famGet reg.extendingTotalInstanceBootstrap
              (instanceLbl ctx d)).getD 0 + 1) ∧
        famGet (observeInstance ctx insts heap reg
            d).2.2.extendingTotalInstanceFailure (instanceLbl ctx d)
          = some ((famGet reg.extendingTotalInstanceFailure
              (instanceLbl ctx d)).getD 0 + 1) ∧
        (observeInstance ctx insts heap reg
            d).2.2.extendingInstanceBootstrapMsCost
          = reg.extendingInstanceBootstrapMsCost) ∧
      (d.State ≠ "running" → d.State ≠ "stopped" → d.State ≠ "error" →
        (heapGet (observeInstance ctx insts heap reg d).2.1
            heap.length).BootstrapCount = 0 ∧
        (heapGet (observeInstance ctx insts heap reg d).2.1
            heap.length).FailureCount = 0 ∧
        famGet (observeInstance ctx insts heap reg
            d).2.2.extendingTotalInstanceBootstrap (instanceLbl ctx d)
          = some ((famGet reg.extendingTotalInstanceBootstrap
              (instanceLbl ctx d)).getD 0) ∧
        famGet (observeInstance ctx insts heap reg
            d).2.2.extendingTotalInstanceFailure (instanceLbl ctx d)
          = some ((famGet reg.extendingTotalInstanceFailure
              (instanceLbl ctx d)).getD 0) ∧
        (observeInstance ctx insts heap reg
            d).2.2.extendingInstanceBootstrapMsCost
          = reg.extendingInstanceBootstrapMsCost))) ∧
    (∀ c f : Nat, c ≤ f → f < W64 → sub64 f c = f - c) := by
  refine ⟨?_, ?_, ?_⟩
  · intro ctx insts heap reg d take hlook hlt hne
    rw [observeInstance_existing ctx insts heap reg d take hlook]
    refine ⟨?_, ?_⟩
    · intro hr
      rw [instanceTransitionStep_running _ _ _ _ _ _ hne hr]
      by_cases hf : d.FirstRunningTS ≠ 0
      · simp [heapGet_heapSet_self _ _ _ hlt, famGet_famInc_self,
          famGet_famSet_self, hf]
      · simp [heapGet_heapSet_self _ _ _ hlt, famGet_famInc_self, hf]
    · intro he
      have hnr : d.State ≠ "running" := by rw [he]; decide
      rw [instanceTransitionStep_error _ _ _ _ _ _ hne hnr he]
      simp [heapGet_heapSet_self _ _ _ hlt, famGet_famInc_self]
  · intro ctx insts heap reg d hlook
    rw [observeInstance_new ctx insts heap reg d hlook]
    refine ⟨?_, ?_, ?_⟩
    · intro hrs
      have hnerr : d.State ≠ "error" := by
        rcases hrs with h | h <;> rw [h] <;> decide
      rw [instanceNewCounts_run_stop _ _ _ _ _ hnerr (Or.symm hrs)]
      by_cases hf : d.FirstRunningTS ≠ 0
      · simp [heapGet_append_len, famGet_famInc_self, famGet_famTouch_self,
          famGet_famSet_self, hf]
      · simp [heapGet_append_len, famGet_famInc_self, famGet_famTouch_self,
          hf]
    · intro he
      rw [instanceNewCounts_error _ _ _ _ _ he]
      simp [heapGet_append_len, famGet_famInc_self]
    · intro hnr hns hnerr
      rw [instanceNewCounts_other _ _ _ _ _ hnerr hns hnr]
      simp [heapGet_append_len, famGet_famTouch_self]
  · intro c f h1 h2
    exact sub64_eq_sub c f h1 h2

/-- Concrete observation for the C2 witness (Scenario A): a new
instance `ins` first seen `running` with `createdTS = 1000`,
`firstRunningTS = 1250`. -/
def witC2d : targetData :=
  { targetData.zero with
    Name := "ins", ID := "1i1", Typ := "container", State := "running",
    CreatedTS := 1000, FirstRunningTS := 1250 }

def witC2ctx : svcCtx :=
  { envName := "env", stackName := "stk", serviceName := "svc" }

/-- Witness for C2: the Scenario A instance boot sets
`instance_startup_ms` to 250 on first sight. -/
theorem claim2_instance_rules_witness :
    lookupA ([] : List (String × instanceV)) "ins" = none ∧
    witC2d.FirstRunningTS ≠ 0 ∧
    famGet (observeInstance witC2ctx [] [] Registry.empty
        witC2d).2.2.extendingInstanceBootstrapMsCost
        (instanceLbl witC2ctx witC2d)
      = some (Int.ofNat (sub64 1250 1000)) ∧
    sub64 1250 1000 = 250 :=
  ⟨by decide, by decide,
   ((claim2_instance_rules.2.1 witC2ctx [] [] Registry.empty witC2d
      (by decide)).1 (Or.inl (by decide))).2.2.2.2.1 (by decide),
   by decide⟩

/-! ### Claim C3: unchanged state increments nothing -/

theorem observeStack_unchanged_effects (envName : String)
    (stks : List (String × stackV)) (heap : Heap) (reg : Registry)
    (d : targetData) (take : stackV)
    (hlook : lookupA stks d.Name = some take)
    (hs : (heapGet heap take.obj).State = d.State) :
    (observeStack envName stks heap reg d).1 = stks ∧
    (∀ a, (heapGet (observeStack envName stks heap reg d).2.1
            a).BootstrapCount = (heapGet heap a).BootstrapCount ∧
          (heapGet (observeStack envName stks heap reg d).2.1
            a).FailureCount = (heapGet heap a).FailureCount ∧
          (heapGet (observeStack envName stks heap reg d).2.1
            a).State = (heapGet heap a).State) ∧
    (observeStack envName stks heap reg d).2.2.extendingTotalStackBootstrap
      = reg.extendingTotalStackBootstrap ∧
    (observeStack envName stks heap reg d).2.2.extendingTotalStackFailure
      = reg.extendingTotalStackFailure ∧
    (observeStack envName stks heap reg d).2.2.extendingTotalServiceBootstrap
      = reg.extendingTotalServiceBootstrap ∧
    (observeStack envName stks heap reg d).2.2.extendingTotalServiceFailure
      = reg.extendingTotalServiceFailure ∧
    (observeStack envName stks heap reg d).2.2.extendingTotalInstanceBootstrap
      = reg.extendingTotalInstanceBootstrap ∧
    (observeStack envName stks heap reg d).2.2.extendingTotalInstanceFailure
      = reg.extendingTotalInstanceFailure := by
  rw [observeStack_existing envName stks heap reg d take hlook,
    stackTransitionStep_same _ _ _ _ _ hs]
  refine ⟨rfl, ?_, rfl, rfl, rfl, rfl, rfl, rfl⟩
  intro a
  by_cases hlt : take.obj < heap.length
  · by_cases ha : a = take.obj
    · subst ha
      rw [heapGet_heapSet_self _ _ _ hlt]
      exact ⟨rfl, rfl, hs.symm⟩
    · rw [heapGet_heapSet_ne _ _ _ _ (fun hh => ha hh.symm)]
      exact ⟨rfl, rfl, rfl⟩
  · rw [heapSet_oob _ _ _ (Nat.le_of_not_lt hlt)]
    exact ⟨rfl, rfl, rfl⟩

theorem observeService_unchanged_effects (ctx : stkCtx)
    (svcs : List (String × serviceV)) (heap : Heap) (reg : Registry)
    (d : targetData) (take : serviceV)
    (hlook : lookupA svcs d.Name = some take)
    (hs : (heapGet heap take.obj).State = d.State) :
    (observeService ctx svcs heap reg d).1 = svcs ∧
    (∀ a, (heapGet (observeService ctx svcs heap reg d).2.1
            a).BootstrapCount = (heapGet heap a).BootstrapCount ∧
          (heapGet (observeService ctx svcs heap reg d).2.1
            a).FailureCount = (heapGet heap a).FailureCount ∧
          (heapGet (observeService ctx svcs heap reg d).2.1
            a).State = (heapGet heap a).State) ∧
    (observeService ctx svcs heap reg d).2.2.extendingTotalStackBootstrap
      = reg.extendingTotalStackBootstrap ∧
    (observeService ctx svcs heap reg d).2.2.extendingTotalStackFailure
      = reg.extendingTotalStackFailure ∧
    (observeService ctx svcs heap reg d).2.2.extendingTotalServiceBootstrap
      = reg.extendingTotalServiceBootstrap ∧
    (observeService ctx svcs heap reg d).2.2.extendingTotalServiceFailure
      = reg.extendingTotalServiceFailure ∧
    (observeService ctx svcs heap reg d).2.2.extendingTotalInstanceBootstrap
      = reg.extendingTotalInstanceBootstrap ∧
    (observeService ctx svcs heap reg d).2.2.extendingTotalInstanceFailure
      = reg.extendingTotalInstanceFailure := by
  rw [observeService_existing ctx svcs heap reg d take hlook,
    serviceTransitionStep_eq_stack, stackTransitionStep_same _ _ _ _ _ hs]
  refine ⟨rfl, ?_, rfl, rfl, rfl, rfl, rfl, rfl⟩
  intro a
  by_cases hlt : take.obj < heap.length
  · by_cases ha : a = take.obj
    · subst ha
      rw [heapGet_heapSet_self _ _ _ hlt]
      exact ⟨rfl, rfl, hs.symm⟩
    · rw [heapGet_heapSet_ne _ _ _ _ (fun hh => ha hh.symm)]
      exact ⟨rfl, rfl, rfl⟩
  · rw [heapSet_oob _ _ _ (Nat.le_of_not_lt hlt)]
    exact ⟨rfl, rfl, rfl⟩

theorem observeInstance_unchanged_effects (ctx : svcCtx)
    (insts : List (String × instanceV)) (heap : Heap) (reg : Registry)
    (d : targetData) (take : instanceV)
    (hlook : lookupA insts d.Name = some take)
    (hs : (heapGet heap take.obj).State = d.State) :
    (observeInstance ctx insts heap reg d).1 = insts ∧
    (∀ a, (heapGet (observeInstance ctx insts heap reg d).2.1
            a).BootstrapCount = (heapGet heap a).BootstrapCount ∧
          (heapGet (observeInstance ctx insts heap reg d).2.1
            a).FailureCount = (heapGet heap a).FailureCount ∧
          (heapGet (observeInstance ctx insts heap reg d).2.1
            a).State = (heapGet heap a).State) ∧
    (observeInstance ctx insts heap reg d).2.2.extendingTotalStackBootstrap
      = reg.extendingTotalStackBootstrap ∧
    (observeInstance ctx insts heap reg d).2.2.extendingTotalStackFailure
      = reg.extendingTotalStackFailure ∧
    (observeInstance ctx insts heap reg d).2.2.extendingTotalServiceBootstrap
      = reg.extendingTotalServiceBootstrap ∧
    (observeInstance ctx insts heap reg d).2.2.extendingTotalServiceFailure
      = reg.extendingTotalServiceFailure ∧
    (observeInstance ctx insts heap reg d).2.2.extendingTotalInstanceBootstrap
      = reg.extendingTotalInstanceBootstrap ∧
    (observeInstance ctx insts heap reg d).2.2.extendingTotalInstanceFailure
      = reg.extendingTotalInstanceFailure := by
  rw [observeInstance_existing ctx insts heap reg d take hlook,
    instanceTransitionStep_same _ _ _ _ _ _ hs]
  refine ⟨rfl, ?_, rfl, rfl, rfl, rfl, rfl, rfl⟩
  intro a
  by_cases hlt : take.obj < heap.length
  · by_cases ha : a = take.obj
    · subst ha
      rw [heapGet_heapSet_self _ _ _ hlt]
      exact ⟨rfl, rfl, hs.symm⟩
    · rw [heapGet_heapSet_ne _ _ _ _ (fun hh => ha hh.symm)]
      exact ⟨rfl, rfl, rfl⟩
  · rw [heapSet_oob _ _ _ (Nat.le_of_not_lt hlt)]
    exact ⟨rfl, rfl, rfl⟩

theorem observeStackList_unchanged_effects (envName : String)
    (stks : List (String × stackV)) (heap : Heap) (reg : Registry)
    (ds : List targetData)
    (h : ∀ d ∈ ds, ∃ take, lookupA stks d.Name = some take ∧
      (heapGet heap take.obj).State = d.State) :
    (observeStackList envName stks heap reg ds).1 = stks ∧
    (∀ a, (heapGet (observeStackList envName stks heap reg ds).2.1
            a).BootstrapCount = (heapGet heap a).BootstrapCount ∧
          (heapGet (observeStackList envName stks heap reg ds).2.1
            a).FailureCount = (heapGet heap a).FailureCount ∧
          (heapGet (observeStackList envName stks heap reg ds).2.1
            a).State = (heapGet heap a).State) ∧
    (observeStackList envName stks heap reg
        ds).2.2.extendingTotalStackBootstrap
      = reg.extendingTotalStackBootstrap ∧
    (observeStackList envName stks heap reg
        ds).2.2.extendingTotalStackFailure
      = reg.extendingTotalStackFailure ∧
    (observeStackList envName stks heap reg
        ds).2.2.extendingTotalServiceBootstrap
      = reg.extendingTotalServiceBootstrap ∧
    (observeStackList envName stks heap reg
        ds).2.2.extendingTotalServiceFailure
      = reg.extendingTotalServiceFailure ∧
    (observeStackList envName stks heap reg
        ds).2.2.extendingTotalInstanceBootstrap
      = reg.extendingTotalInstanceBootstrap ∧
    (observeStackList envName stks heap reg
        ds).2.2.extendingTotalInstanceFailure
      = reg.extendingTotalInstanceFailure := by
  induction ds generalizing stks heap reg with
  | nil => exact ⟨rfl, fun a => ⟨rfl, rfl, rfl⟩, rfl, rfl, rfl, rfl, rfl, rfl⟩
  | cons d ds ih =>
      obtain ⟨take, hlook, hs⟩ := h d (List.mem_cons_self _ _)
      obtain ⟨he1, he2, he3, he4, he5, he6, he7, he8⟩ :=
        observeStack_unchanged_effects envName stks heap reg d take hlook hs
      have hrec : observeStackList envName stks heap reg (d :: ds) =
          observeStackList envName (observeStack envName stks heap reg d).1
            (observeStack envName stks heap reg d).2.1
            (observeStack envName stks heap reg d).2.2 ds := rfl
      have hprem : ∀ d' ∈ ds, ∃ take',
          lookupA (observeStack envName stks heap reg d).1 d'.Name
            = some take' ∧
          (heapGet (observeStack envName stks heap reg d).2.1
            take'.obj).State = d'.State := by
        intro d' hd'
        obtain ⟨t', hl', hs'⟩ := h d' (List.mem_cons_of_mem _ hd')
        refine ⟨t', ?_, ?_⟩
        · rw [he1]
          exact hl'
        · rw [(he2 t'.obj).2.2]
          exact hs'
      obtain ⟨i1, i2, i3, i4, i5, i6, i7, i8⟩ := ih _ _ _ hprem
      rw [hrec]
      refine ⟨by rw [i1, he1], ?_, by rw [i3, he3], by rw [i4, he4],
        by rw [i5, he5], by rw [i6, he6], by rw [i7, he7], by rw [i8, he8]⟩
      intro a
      exact ⟨by rw [(i2 a).1, (he2 a).1], by rw [(i2 a).2.1, (he2 a).2.1],
        by rw [(i2 a).2.2, (he2 a).2.2]⟩

theorem observeServiceList_unchanged_effects (ctx : stkCtx)
    (svcs : List (String × serviceV)) (heap : Heap) (reg : Registry)
    (ds : List targetData)
    (h : ∀ d ∈ ds, ∃ take, lookupA svcs d.Name = some take ∧
      (heapGet heap take.obj).State = d.State) :
    (observeServiceList ctx svcs heap reg ds).1 = svcs ∧
    (∀ a, (heapGet (observeServiceList ctx svcs heap reg ds).2.1
            a).BootstrapCount = (heapGet heap a).BootstrapCount ∧
          (heapGet (observeServiceList ctx svcs heap reg ds).2.1
            a).FailureCount = (heapGet heap a).FailureCount ∧
          (heapGet (observeServiceList ctx svcs heap reg ds).2.1
            a).State = (heapGet heap a).State) ∧
    (observeServiceList ctx svcs heap reg
        ds).2.2.extendingTotalStackBootstrap
      = reg.extendingTotalStackBootstrap ∧
    (observeServiceList ctx svcs heap reg
        ds).2.2.extendingTotalStackFailure
      = reg.extendingTotalStackFailure ∧
    (observeServiceList ctx svcs heap reg
        ds).2.2.extendingTotalServiceBootstrap
      = reg.extendingTotalServiceBootstrap ∧
    (observeServiceList ctx svcs heap reg
        ds).2.2.extendingTotalServiceFailure
      = reg.extendingTotalServiceFailure ∧
    (observeServiceList ctx svcs heap reg
        ds).2.2.extendingTotalInstanceBootstrap
      = reg.extendingTotalInstanceBootstrap ∧
    (observeServiceList ctx svcs heap reg
        ds).2.2.extendingTotalInstanceFailure
      = reg.extendingTotalInstanceFailure := by
  induction ds generalizing svcs heap reg with
  | nil => exact ⟨rfl, fun a => ⟨rfl, rfl, rfl⟩, rfl, rfl, rfl, rfl, rfl, rfl⟩
  | cons d ds ih =>
      obtain ⟨take, hlook, hs⟩ := h d (List.mem_cons_self _ _)
      obtain ⟨he1, he2, he3, he4, he5, he6, he7, he8⟩ :=
        observeService_unchanged_effects ctx svcs heap reg d take hlook hs
      have hrec : observeServiceList ctx svcs heap reg (d :: ds) =
          observeServiceList ctx (observeService ctx svcs heap reg d).1
            (observeService ctx svcs heap reg d).2.1
            (observeService ctx svcs heap reg d).2.2 ds := rfl
      have hprem : ∀ d' ∈ ds, ∃ take',
          lookupA (observeService ctx svcs heap reg d).1 d'.Name
            = some take' ∧
          (heapGet (observeService ctx svcs heap reg d).2.1
            take'.obj).State = d'.State := by
        intro d' hd'
        obtain ⟨t', hl', hs'⟩ := h d' (List.mem_cons_of_mem _ hd')
        refine ⟨t', ?_, ?_⟩
        · rw [he1]
          exact hl'
        · rw [(he2 t'.obj).2.2]
          exact hs'
      obtain ⟨i1, i2, i3, i4, i5, i6, i7, i8⟩ := ih _ _ _ hprem
      rw [hrec]
      refine ⟨by rw [i1, he1], ?_, by rw [i3, he3], by rw [i4, he4],
        by rw [i5, he5], by rw [i6, he6], by rw [i7, he7], by rw [i8, he8]⟩
      intro a
      exact ⟨by rw [(i2 a).1, (he2 a).1], by rw [(i2 a).2.1, (he2 a).2.1],
        by rw [(i2 a).2.2, (he2 a).2.2]⟩

theorem observeInstanceList_unchanged_effects (ctx : svcCtx)
    (insts : List (String × instanceV)) (heap : Heap) (reg : Registry)
    (ds : List targetData)
    (h : ∀ d ∈ ds, ∃ take, lookupA insts d.Name = some take ∧
      (heapGet heap take.obj).State = d.State) :
    (observeInstanceList ctx insts heap reg ds).1 = insts ∧
    (∀ a, (heapGet (observeInstanceList ctx insts heap reg ds).2.1
            a).BootstrapCount = (heapGet heap a).BootstrapCount ∧
          (heapGet (observeInstanceList ctx insts heap reg ds).2.1
            a).FailureCount = (heapGet heap a).FailureCount ∧
          (heapGet (observeInstanceList ctx insts heap reg ds).2.1
            a).State = (heapGet heap a).State) ∧
    (observeInstanceList ctx insts heap reg
        ds).2.2.extendingTotalStackBootstrap
      = reg.extendingTotalStackBootstrap ∧
    (observeInstanceList ctx insts heap reg
        ds).2.2.extendingTotalStackFailure
      = reg.extendingTotalStackFailure ∧
    (observeInstanceList ctx insts heap reg
        ds).2.2.extendingTotalServiceBootstrap
      = reg.extendingTotalServiceBootstrap ∧
    (observeInstanceList ctx insts heap reg
        ds).2.2.extendingTotalServiceFailure
      = reg.extendingTotalServiceFailure ∧
    (observeInstanceList ctx insts heap reg
        ds).2.2.extendingTotalInstanceBootstrap
      = reg.extendingTotalInstanceBootstrap ∧
    (observeInstanceList ctx insts heap reg
        ds).2.2.extendingTotalInstanceFailure
      = reg.extendingTotalInstanceFailure := by
  induction ds generalizing insts heap reg with
  | nil => exact ⟨rfl, fun a => ⟨rfl, rfl, rfl⟩, rfl, rfl, rfl, rfl, rfl, rfl⟩
  | cons d ds ih =>
      obtain ⟨take, hlook, hs⟩ := h d (List.mem_cons_self _ _)
      obtain ⟨he1, he2, he3, he4, he5, he6, he7, he8⟩ :=
        observeInstance_unchanged_effects ctx insts heap reg d take hlook hs
      have hrec : observeInstanceList ctx insts heap reg (d :: ds) =
          observeInstanceList ctx (observeInstance ctx insts heap reg d).1
            (observeInstance ctx insts heap reg d).2.1
            (observeInstance ctx insts heap reg d).2.2 ds := rfl
      have hprem : ∀ d' ∈ ds, ∃ take',
          lookupA (observeInstance ctx insts heap reg d).1 d'.Name
            = some take' ∧
          (heapGet (observeInstance ctx insts heap reg d).2.1
            take'.obj).State = d'.State := by
        intro d' hd'
        obtain ⟨t', hl', hs'⟩ := h d' (List.mem_cons_of_mem _ hd')
        refine ⟨t', ?_, ?_⟩
        · rw [he1]
          exact hl'
        · rw [(he2 t'.obj).2.2]
          exact hs'
      obtain ⟨i1, i2, i3, i4, i5, i6, i7, i8⟩ := ih _ _ _ hprem
      rw [hrec]
      refine ⟨by rw [i1, he1], ?_, by rw [i3, he3], by rw [i4, he4],
        by rw [i5, he5], by rw [i6, he6], by rw [i7, he7], by rw [i8, he8]⟩
      intro a
      exact ⟨by rw [(i2 a).1, (he2 a).1], by rw [(i2 a).2.1, (he2 a).2.1],
        by rw [(i2 a).2.2, (he2 a).2.2]⟩

/-- **C3**: for every stack, service or instance already present in the
model, a scrape observation whose state equals the stored state
increments no bootstrap/failure counter family and leaves every node's
`bootstrapCount` and `failureCount` unchanged; hence a whole observation
loop in which every entry's observed state equals its stored state
leaves all six counter families and all stored counts unchanged (the
second of two identical back-to-back scrapes has zero counter delta). -/
theorem claim3_unchanged_state_zero_delta :
    (∀ (envName : String) (stks : List (String × stackV)) (heap : Heap)
       (reg : Registry) (d : targetData) (take : stackV),
      lookupA stks d.Name = some take →
      (heapGet heap take.obj).State = d.State →
      (∀ a, (heapGet (observeStack envName stks heap reg d).2.1
              a).BootstrapCount = (heapGet heap a).BootstrapCount ∧
            (heapGet (observeStack envName stks heap reg d).2.1
              a).FailureCount = (heapGet heap a).FailureCount) ∧
      (observeStack envName stks heap reg
          d).2.2.extendingTotalStackBootstrap
        = reg.extendingTotalStackBootstrap ∧
      (observeStack envName stks heap reg
          d).2.2.extendingTotalStackFailure
        = reg.extendingTotalStackFailure) ∧
    (∀ (ctx : stkCtx) (svcs : List (String × serviceV)) (heap : Heap)
       (reg : Registry) (d : targetData) (take : serviceV),
      lookupA svcs d.Name = some take →
      (heapGet heap take.obj).State = d.State →
      (∀ a, (heapGet (observeService ctx svcs heap reg d).2.1
              a).BootstrapCount = (heapGet heap a).BootstrapCount ∧
            (heapGet (observeService ctx svcs heap reg d).2.1
              a).FailureCount = (heapGet heap a).FailureCount) ∧
      (observeService ctx svcs heap reg
          d).2.2.extendingTotalServiceBootstrap
        = reg.extendingTotalServiceBootstrap ∧
      (observeService ctx svcs heap reg
          d).2.2.extendingTotalServiceFailure
        = reg.extendingTotalServiceFailure) ∧
    (∀ (ctx : svcCtx) (insts : List (String × instanceV)) (heap : Heap)
       (reg : Registry) (d : targetData) (take : instanceV),
      lookupA insts d.Name = some take →
      (heapGet heap take.obj).State = d.State →
      (∀ a, (heapGet (observeInstance ctx insts heap reg d).2.1
              a).BootstrapCount = (heapGet heap a).BootstrapCount ∧
            (heapGet (observeInstance ctx insts heap reg d).2.1
              a).FailureCount = (heapGet heap a).FailureCount) ∧
      (observeInstance ctx insts heap reg
          d).2.2.extendingTotalInstanceBootstrap
        = reg.extendingTotalInstanceBootstrap ∧
      (observeInstance ctx insts heap reg
          d).2.2.extendingTotalInstanceFailure
        = reg.extendingTotalInstanceFailure) ∧
    (∀ (envName : String) (stks : List (String × stackV)) (heap : Heap)
       (reg : Registry) (ds : List targetData),
      (∀ d ∈ ds, ∃ take, lookupA stks d.Name = some take ∧
        (heapGet heap take.obj).State = d.State) →
      (∀ a, (heapGet (observeStackList envName stks heap reg ds).2.1
              a).BootstrapCount = (heapGet heap a).BootstrapCount ∧
            (heapGet (observeStackList envName stks heap reg ds).2.1
              a).FailureCount = (heapGet heap a).FailureCount) ∧
      (observeStackList envName stks heap reg
          ds).2.2.extendingTotalStackBootstrap
        = reg.extendingTotalStackBootstrap ∧
      (observeStackList envName stks heap reg
          ds).2.2.extendingTotalStackFailure
        = reg.extendingTotalStackFailure ∧
      (observeStackList envName stks heap reg
          ds).2.2.extendingTotalServiceBootstrap
        = reg.extendingTotalServiceBootstrap ∧
      (observeStackList envName stks heap reg
          ds).2.2.extendingTotalServiceFailure
        = reg.extendingTotalServiceFailure ∧
      (observeStackList envName stks heap reg
          ds).2.2.extendingTotalInstanceBootstrap
        = reg.extendingTotalInstanceBootstrap ∧
      (observeStackList envName stks heap reg
          ds).2.2.extendingTotalInstanceFailure
        = reg.extendingTotalInstanceFailure) ∧
    (∀ (ctx : stkCtx) (svcs : List (String × serviceV)) (heap : Heap)
       (reg : Registry) (ds : List targetData),
      (∀ d ∈ ds, ∃ take, lookupA svcs d.Name = some take ∧
        (heapGet heap take.obj).State = d.State) →
      (∀ a, (heapGet (observeServiceList ctx svcs heap reg ds).2.1
              a).BootstrapCount = (heapGet heap a).BootstrapCount ∧
            (heapGet (observeServiceList ctx svcs heap reg ds).2.1
              a).FailureCount = (heapGet heap a).FailureCount) ∧
      (observeServiceList ctx svcs heap reg
          ds).2.2.extendingTotalServiceBootstrap
        = reg.extendingTotalServiceBootstrap ∧
      (observeServiceList ctx svcs heap reg
          ds).2.2.extendingTotalServiceFailure
        = reg.extendingTotalServiceFailure) ∧
    (∀ (ctx : svcCtx) (insts : List (String × instanceV)) (heap : Heap)
       (reg : Registry) (ds : List targetData),
      (∀ d ∈ ds, ∃ take, lookupA insts d.Name = some take ∧
        (heapGet heap take.obj).State = d.State) →
      (∀ a, (heapGet (observeInstanceList ctx insts heap reg ds).2.1
              a).BootstrapCount = (heapGet heap a).BootstrapCount ∧
            (heapGet (observeInstanceList ctx insts heap reg ds).2.1
              a).FailureCount = (heapGet heap a).FailureCount) ∧
      (observeInstanceList ctx insts heap reg
          ds).2.2.extendingTotalInstanceBootstrap
        = reg.extendingTotalInstanceBootstrap ∧
      (observeInstanceList ctx insts heap reg
          ds).2.2.extendingTotalInstanceFailure
        = reg.extendingTotalInstanceFailure) := by
  refine ⟨?_, ?_, ?_, ?_, ?_, ?_⟩
  · intro envName stks heap reg d take hlook hs
    obtain ⟨_, h2, h3, h4, _, _, _, _⟩ :=
      observeStack_unchanged_effects envName stks heap reg d take hlook hs
    exact ⟨fun a => ⟨(h2 a).1, (h2 a).2.1⟩, h3, h4⟩
  · intro ctx svcs heap reg d take hlook hs
    obtain ⟨_, h2, _, _, h5, h6, _, _⟩ :=
      observeService_unchanged_effects ctx svcs heap reg d take hlook hs
    exact ⟨fun a => ⟨(h2 a).1, (h2 a).2.1⟩, h5, h6⟩
  · intro ctx insts heap reg d take hlook hs
    obtain ⟨_, h2, _, _, _, _, h7, h8⟩ :=
      observeInstance_unchanged_effects ctx insts heap reg d take hlook hs
    exact ⟨fun a => ⟨(h2 a).1, (h2 a).2.1⟩, h7, h8⟩
  · intro envName stks heap reg ds h
    obtain ⟨_, h2, h3, h4, h5, h6, h7, h8⟩ :=
      observeStackList_unchanged_effects envName stks heap reg ds h
    exact ⟨fun a => ⟨(h2 a).1, (h2 a).2.1⟩, h3, h4, h5, h6, h7, h8⟩
  · intro ctx svcs heap reg ds h
    obtain ⟨_, h2, _, _, h5, h6, _, _⟩ :=
      observeServiceList_unchanged_effects ctx svcs heap reg ds h
    exact ⟨fun a => ⟨(h2 a).1, (h2 a).2.1⟩, h5, h6⟩
  · intro ctx insts heap reg ds h
    obtain ⟨_, h2, _, _, _, _, h7, h8⟩ :=
      observeInstanceList_unchanged_effects ctx insts heap reg ds h
    exact ⟨fun a => ⟨(h2 a).1, (h2 a).2.1⟩, h7, h8⟩

/-- Witness for C3: re-observing the concrete stack of the C1 witness
in its stored state `upgrading` leaves its stored `bootstrapCount` at 3
and the stack counter families untouched. -/
theorem claim3_unchanged_state_zero_delta_witness :
    lookupA witC1stks "stk" = some witC1take ∧
    (heapGet witC1heap 0).State = (scenStackObs "healthy" "upgrading").State ∧
    (heapGet (observeStack "env" witC1stks witC1heap Registry.empty
        (scenStackObs "healthy" "upgrading")).2.1 0).BootstrapCount = 3 :=
  ⟨by decide, by decide,
   by
    have h := (claim3_unchanged_state_zero_delta.1 "env" witC1stks witC1heap
      Registry.empty (scenStackObs "healthy" "upgrading") witC1take
      (by decide) (by decide)).1 0
    rw [h.1]
    decide⟩

/-! ### Claim C10: pointer writes are visible, value-copy writes are lost -/

/-- **C10**: when a stack, service or instance already present in the
model is re-observed, the writes through the embedded `*object` pointer
(`Id`, `Type`, `State`; the counter updates go through the same pointer)
are visible in the model afterwards, while the assignments
`take.System = d.System` (and `take.StartupTime = instanceStartupTime`
for instances) hit a local copy of the struct that is never stored back:
the maps are returned unchanged, so the model still holds the `System`
(and `StartupTime`) values from the node's first sight. -/
theorem claim10_pointer_vs_copy_writes :
    (∀ (envName : String) (stks : List (String × stackV)) (heap : Heap)
       (reg : Registry) (d : targetData) (take : stackV),
      lookupA stks d.Name = some take →
      take.obj < heap.length →
      (observeStack envName stks heap reg d).1 = stks ∧
      lookupA (observeStack envName stks heap reg d).1 d.Name = some take ∧
      (heapGet (observeStack envName stks heap reg d).2.1 take.obj).Id
        = d.ID ∧
      (heapGet (observeStack envName stks heap reg d).2.1 take.obj).Typ
        = d.Typ ∧
      (heapGet (observeStack envName stks heap reg d).2.1 take.obj).State
        = d.State) ∧
    (∀ (ctx : stkCtx) (svcs : List (String × serviceV)) (heap : Heap)
       (reg : Registry) (d : targetData) (take : serviceV),
      lookupA svcs d.Name = some take →
      take.obj < heap.length →
      (observeService ctx svcs heap reg d).1 = svcs ∧
      lookupA (observeService ctx svcs heap reg d).1 d.Name = some take ∧
      (heapGet (observeService ctx svcs heap reg d).2.1 take.obj).Id
        = d.ID ∧
      (heapGet (observeService ctx svcs heap reg d).2.1 take.obj).Typ
        = d.Typ ∧
      (heapGet (observeService ctx svcs heap reg d).2.1 take.obj).State
        = d.State) ∧
    (∀ (ctx : svcCtx) (insts : List (String × instanceV)) (heap : Heap)
       (reg : Registry) (d : targetData) (take : instanceV),
      lookupA insts d.Name = some take →
      take.obj < heap.length →
      (observeInstance ctx insts heap reg d).1 = insts ∧
      lookupA (observeInstance ctx insts heap reg d).1 d.Name = some take ∧
      (lookupA (observeInstance ctx insts heap reg d).1 d.Name).map
          (fun v => (v.System, v.StartupTime))
        = some (take.System, take.StartupTime) ∧
      (heapGet (observeInstance ctx insts heap reg d).2.1 take.obj).Id
        = d.ID ∧
      (heapGet (observeInstance ctx insts heap reg d).2.1 take.obj).Typ
        = d.Typ ∧
      (heapGet (observeInstance ctx insts heap reg d).2.1 take.obj).State
        = d.State) := by
  refine ⟨?_, ?_, ?_⟩
  · intro envName stks heap reg d take hlook hlt
    rw [observeStack_existing envName stks heap reg d take hlook]
    refine ⟨rfl, hlook, ?_, ?_, ?_⟩ <;>
      rw [heapGet_heapSet_self _ _ _ hlt]
  · intro ctx svcs heap reg d take hlook hlt
    rw [observeService_existing ctx svcs heap reg d take hlook]
    refine ⟨rfl, hlook, ?_, ?_, ?_⟩ <;>
      rw [heapGet_heapSet_self _ _ _ hlt]
  · intro ctx insts heap reg d take hlook hlt
    rw [observeInstance_existing ctx insts heap reg d take hlook]
    refine ⟨rfl, hlook, ?_, ?_, ?_, ?_⟩
    · rw [hlook]
      rfl
    · rw [heapGet_heapSet_self _ _ _ hlt]
    · rw [heapGet_heapSet_self _ _ _ hlt]
    · rw [heapGet_heapSet_self _ _ _ hlt]

/-- Concrete observation for the C10 witness: the stored stack of the
C1 witness is re-observed with `System = true` and a new id, but the
model keeps `System = false`. -/
def witC10d : targetData :=
  { targetData.zero with
    Name := "stk", ID := "2st", Typ := "stack", State := "upgrading",
    System := true }

/-- Witness for C10: after the observation the heap object carries the
new id `2st`, yet the stacks map still holds the entry with
`System = false` although `witC10d.System = true`. -/
theorem claim10_pointer_vs_copy_writes_witness :
    lookupA witC1stks "stk" = some witC1take ∧
    (0 : Nat) < 1 ∧
    witC10d.System = true ∧
    witC1take.System = false ∧
    lookupA (observeStack "env" witC1stks witC1heap Registry.empty
        witC10d).1 "stk" = some witC1take ∧
    (heapGet (observeStack "env" witC1stks witC1heap Registry.empty
        witC10d).2.1 0).Id = "2st" :=
  ⟨by decide, by decide, by decide, by decide,
   (claim10_pointer_vs_copy_writes.1 "env" witC1stks witC1heap
      Registry.empty witC10d witC1take (by decide) (by decide)).2.1,
   (claim10_pointer_vs_copy_writes.1 "env" witC1stks witC1heap
      Registry.empty witC10d witC1take (by decide) (by decide)).2.2.1⟩

/-! ### Claim C6: one-hot state and health gauges -/

theorem observeHost_hostsState (reg : Registry) (d : targetData) :
    (observeHost reg d).infinityWorksHostsState =
      setOneHot reg.infinityWorksHostsState
        (fun y => [d.ID, hostDisplayName d, y]) hostStates d.State := by
  simp only [observeHost]

theorem observeHost_agentsState (reg : Registry) (d : targetData) :
    (observeHost reg d).infinityWorksHostAgentsState =
      setOneHot reg.infinityWorksHostAgentsState
        (fun y => [d.ID, hostDisplayName d, y]) agentStates d.AgentState := by
  simp only [observeHost]

theorem observeStack_stacksHealth (envName : String)
    (stks : List (String × stackV)) (heap : Heap) (reg : Registry)
    (d : targetData) :
    (observeStack envName stks heap reg d).2.2.infinityWorksStacksHealth =
      setOneHot reg.infinityWorksStacksHealth
        (fun y => [d.ID, d.Name, y, formatBool d.System]) healthStates
        d.HealthState := by
  cases hl : lookupA stks d.Name with
  | none => rw [observeStack_new envName stks heap reg d hl]
  | some take => rw [observeStack_existing envName stks heap reg d take hl]

theorem observeStack_stacksState (envName : String)
    (stks : List (String × stackV)) (heap : Heap) (reg : Registry)
    (d : targetData) :
    (observeStack envName stks heap reg d).2.2.infinityWorksStacksState =
      setOneHot reg.infinityWorksStacksState
        (fun y => [d.ID, d.Name, y, formatBool d.System]) stackStates
        d.State := by
  cases hl : lookupA stks d.Name with
  | none => rw [observeStack_new envName stks heap reg d hl]
  | some take => rw [observeStack_existing envName stks heap reg d take hl]

theorem observeService_servicesHealth (ctx : stkCtx)
    (svcs : List (String × serviceV)) (heap : Heap) (reg : Registry)
    (d : targetData) :
    (observeService ctx svcs heap reg d).2.2.infinityWorksServicesHealth =
      setOneHot reg.infinityWorksServicesHealth
        (fun y => [d.ID, ctx.stackId, d.Name, ctx.stackName, y,
          formatBool d.System]) healthStates d.HealthState := by
  cases hl : lookupA svcs d.Name with
  | none => rw [observeService_new ctx svcs heap reg d hl]
  | some take => rw [observeService_existing ctx svcs heap reg d take hl]

theorem observeService_servicesState (ctx : stkCtx)
    (svcs : List (String × serviceV)) (heap : Heap) (reg : Registry)
    (d : targetData) :
    (observeService ctx svcs heap reg d).2.2.infinityWorksServicesState =
      setOneHot reg.infinityWorksServicesState
        (fun y => [d.ID, ctx.stackId, d.Name, ctx.stackName, y,
          formatBool d.System]) serviceStates d.State := by
  cases hl : lookupA svcs d.Name with
  | none => rw [observeService_new ctx svcs heap reg d hl]
  | some take => rw [observeService_existing ctx svcs heap reg d take hl]

/-- **C6**: after any observation, for every labelled identity of the
host-state, host-agent-state, stack-health, stack-state, service-health
and service-state gauges, the values over the enumerated set are
one-hot: 1 exactly at the label equal to the observed value (when it is
in the enumeration) and 0 at every other label, so the sum over the
enumeration is 0 or 1. -/
theorem claim6_one_hot_gauges :
    (∀ (reg : Registry) (d : targetData) (y : String), y ∈ hostStates →
      famGet (observeHost reg d).infinityWorksHostsState
          [d.ID, hostDisplayName d, y]
        = some (if d.State = y then 1 else 0)) ∧
    (∀ (reg : Registry) (d : targetData),
      famOneHotSum (observeHost reg d).infinityWorksHostsState
          (fun y => [d.ID, hostDisplayName d, y]) hostStates
        = if d.State ∈ hostStates then 1 else 0) ∧
    (∀ (reg : Registry) (d : targetData) (y : String), y ∈ agentStates →
      famGet (observeHost reg d).infinityWorksHostAgentsState
          [d.ID, hostDisplayName d, y]
        = some (if d.AgentState = y then 1 else 0)) ∧
    (∀ (reg : Registry) (d : targetData),
      famOneHotSum (observeHost reg d).infinityWorksHostAgentsState
          (fun y => [d.ID, hostDisplayName d, y]) agentStates
        = if d.AgentState ∈ agentStates then 1 else 0) ∧
    (∀ (envName : String) (stks : List (String × stackV)) (heap : Heap)
       (reg : Registry) (d : targetData) (y : String), y ∈ healthStates →
      famGet (observeStack envName stks heap reg
          d).2.2.infinityWorksStacksHealth
          [d.ID, d.Name, y, formatBool d.System]
        = some (if d.HealthState = y then 1 else 0)) ∧
    (∀ (envName : String) (stks : List (String × stackV)) (heap : Heap)
       (reg : Registry) (d : targetData),
      famOneHotSum (observeStack envName stks heap reg
          d).2.2.infinityWorksStacksHealth
          (fun y => [d.ID, d.Name, y, formatBool d.System]) healthStates
        = if d.HealthState ∈ healthStates then 1 else 0) ∧
    (∀ (envName : String) (stks : List (String × stackV)) (heap : Heap)
       (reg : Registry) (d : targetData) (y : String), y ∈ stackStates →
      famGet (observeStack envName stks heap reg
          d).2.2.infinityWorksStacksState
          [d.ID, d.Name, y, formatBool d.System]
        = some (if d.State = y then 1 else 0)) ∧
    (∀ (envName : String) (stks : List (String × stackV)) (heap : Heap)
       (reg : Registry) (d : targetData),
      famOneHotSum (observeStack envName stks heap reg
          d).2.2.infinityWorksStacksState
          (fun y => [d.ID, d.Name, y, formatBool d.System]) stackStates
        = if d.State ∈ stackStates then 1 else 0) ∧
    (∀ (ctx : stkCtx) (svcs : List (String × serviceV)) (heap : Heap)
       (reg : Registry) (d : targetData) (y : String), y ∈ healthStates →
      famGet (observeService ctx svcs heap reg
          d).2.2.infinityWorksServicesHealth
          [d.ID, ctx.stackId, d.Name, ctx.stackName, y, formatBool d.System]
        = some (if d.HealthState = y then 1 else 0)) ∧
    (∀ (ctx : stkCtx) (svcs : List (String × serviceV)) (heap : Heap)
       (reg : Registry) (d : targetData),
      famOneHotSum (observeService ctx svcs heap reg
          d).2.2.infinityWorksServicesHealth
          (fun y => [d.ID, ctx.stackId, d.Name, ctx.stackName, y,
            formatBool d.System]) healthStates
        = if d.HealthState ∈ healthStates then 1 else 0) ∧
    (∀ (ctx : stkCtx) (svcs : List (String × serviceV)) (heap : Heap)
       (reg : Registry) (d : targetData) (y : String), y ∈ serviceStates →
      famGet (observeService ctx svcs heap reg
          d).2.2.infinityWorksServicesState
          [d.ID, ctx.stackId, d.Name, ctx.stackName, y, formatBool d.System]
        = some (if d.State = y then 1 else 0)) ∧
    (∀ (ctx : stkCtx) (svcs : List (String × serviceV)) (heap : Heap)
       (reg : Registry) (d : targetData),
      famOneHotSum (observeService ctx svcs heap reg
          d).2.2.infinityWorksServicesState
          (fun y => [d.ID, ctx.stackId, d.Name, ctx.stackName, y,
            formatBool d.System]) serviceStates
        = if d.State ∈ serviceStates then 1 else 0) ∧
    (∀ (v : String) (ys : List String),
      (if v ∈ ys then (1 : Int) else 0) = 0 ∨
      (if v ∈ ys then (1 : Int) else 0) = 1) := by
  have hndHost : hostStates.Nodup := by decide
  have hndAgent : agentStates.Nodup := by decide
  have hndHealth : healthStates.Nodup := by decide
  have hndStack : stackStates.Nodup := by decide
  have hndService : serviceStates.Nodup := by decide
  refine ⟨?_, ?_, ?_, ?_, ?_, ?_, ?_, ?_, ?_, ?_, ?_, ?_, ?_⟩
  · intro reg d y hy
    rw [observeHost_hostsState]
    exact famGet_setOneHot_mem _ _ _ _ y hy
      (by intro a _ b _ hab; simpa using hab)
  · intro reg d
    rw [observeHost_hostsState]
    exact famOneHotSum_setOneHot _ _ _ _ hndHost
      (by intro a _ b _ hab; simpa using hab)
  · intro reg d y hy
    rw [observeHost_agentsState]
    exact famGet_setOneHot_mem _ _ _ _ y hy
      (by intro a _ b _ hab; simpa using hab)
  · intro reg d
    rw [observeHost_agentsState]
    exact famOneHotSum_setOneHot _ _ _ _ hndAgent
      (by intro a _ b _ hab; simpa using hab)
  · intro envName stks heap reg d y hy
    rw [observeStack_stacksHealth]
    exact famGet_setOneHot_mem _ _ _ _ y hy
      (by intro a _ b _ hab; simpa using hab)
  · intro envName stks heap reg d
    rw [observeStack_stacksHealth]
    exact famOneHotSum_setOneHot _ _ _ _ hndHealth
      (by intro a _ b _ hab; simpa using hab)
  · intro envName stks heap reg d y hy
    rw [observeStack_stacksState]
    exact famGet_setOneHot_mem _ _ _ _ y hy
      (by intro a _ b _ hab; simpa using hab)
  · intro envName stks heap reg d
    rw [observeStack_stacksState]
    exact famOneHotSum_setOneHot _ _ _ _ hndStack
      (by intro a _ b _ hab; simpa using hab)
  · intro ctx svcs heap reg d y hy
    rw [observeService_servicesHealth]
    exact famGet_setOneHot_mem _ _ _ _ y hy
      (by intro a _ b _ hab; simpa using hab)
  · intro ctx svcs heap reg d
    rw [observeService_servicesHealth]
    exact famOneHotSum_setOneHot _ _ _ _ hndHealth
      (by intro a _ b _ hab; simpa using hab)
  · intro ctx svcs heap reg d y hy
    rw [observeService_servicesState]
    exact famGet_setOneHot_mem _ _ _ _ y hy
      (by intro a _ b _ hab; simpa using hab)
  · intro ctx svcs heap reg d
    rw [observeService_servicesState]
    exact famOneHotSum_setOneHot _ _ _ _ hndService
      (by intro a _ b _ hab; simpa using hab)
  · intro v ys
    by_cases h : v ∈ ys
    · right
      simp [h]
    · left
      simp [h]

/-- Concrete host observation for the C6 witness. -/
def witC6d : targetData :=
  { targetData.zero with
    Name := "node1", HostName := "ip-10-0-0-1", ID := "1h1",
    State := "active", AgentState := "active" }

/-- Witness for C6: the concrete host gauge is 1 at `active` and its
one-hot sum over the host state enumeration is 1. -/
theorem claim6_one_hot_gauges_witness :
    ("active" ∈ hostStates) ∧
    famGet (observeHost Registry.empty witC6d).infinityWorksHostsState
        ["1h1", "node1", "active"] = some 1 ∧
    famOneHotSum (observeHost Registry.empty
        witC6d).infinityWorksHostsState
        (fun y => ["1h1", "node1", y]) hostStates = 1 := by
  have hmem : "active" ∈ hostStates := by decide
  refine ⟨hmem, ?_, ?_⟩
  · have h := claim6_one_hot_gauges.1 Registry.empty witC6d "active" hmem
    exact h
  · have h := claim6_one_hot_gauges.2.1 Registry.empty witC6d
    exact h.trans (by decide)

/-! ### Claim C5: counters never decrease -/

theorem inc64_eq (x : Nat) (h : x + 1 < W64) : inc64 x = x + 1 := by
  unfold inc64
  exact Nat.mod_eq_of_lt h

theorem heapGet_oob (h : Heap) (a : Nat) (ha : h.length ≤ a) :
    heapGet h a = object.zero := by
  induction h generalizing a with
  | nil => cases a <;> rfl
  | cons x rest ih =>
      cases a with
      | zero => simp at ha
      | succ n =>
          have : rest.length ≤ n := by simpa using ha
          simpa [heapGet] using ih n this

/-- The object written back by the existing-branch of a stack
observation changes each counter by 0 or one `inc64`, and the counter
families only grow. -/
theorem stackTransitionStep_writeback_bounds (lbl : Labels)
    (bF fF : Family) (old : object) (d : targetData) :
    ((stackTransitionStep lbl bF fF old d).2.2.BootstrapCount
        = old.BootstrapCount ∨
     (stackTransitionStep lbl bF fF old d).2.2.BootstrapCount
        = inc64 old.BootstrapCount) ∧
    ((stackTransitionStep lbl bF fF old d).2.2.FailureCount
        = old.FailureCount ∨
     (stackTransitionStep lbl bF fF old d).2.2.FailureCount
        = inc64 old.FailureCount) ∧
    (∀ l, (famGet bF l).getD 0
      ≤ (famGet (stackTransitionStep lbl bF fF old d).1 l).getD 0) ∧
    (∀ l, (famGet fF l).getD 0
      ≤ (famGet (stackTransitionStep lbl bF fF old d).2.1 l).getD 0) := by
  by_cases h0 : old.State = d.State
  · rw [stackTransitionStep_same _ _ _ _ _ h0]
    exact ⟨Or.inl rfl, Or.inl rfl, fun l => le_refl _, fun l => le_refl _⟩
  · by_cases h2 : d.State = "active"
    · by_cases h3 : d.HealthState = "unhealthy"
      · rw [stackTransitionStep_active_unhealthy _ _ _ _ _ h0 h2 h3]
        exact ⟨Or.inr rfl, Or.inr rfl, fun l => famInc_mono _ _ _,
          fun l => famInc_mono _ _ _⟩
      · rw [stackTransitionStep_active_healthy _ _ _ _ _ h0 h2 h3]
        exact ⟨Or.inr rfl, Or.inl rfl, fun l => famInc_mono _ _ _,
          fun l => le_refl _⟩
    · by_cases h4 : d.State = "error"
      · rw [stackTransitionStep_error _ _ _ _ _ h0 h2 h4]
        exact ⟨Or.inr rfl, Or.inr rfl, fun l => famInc_mono _ _ _,
          fun l => famInc_mono _ _ _⟩
      · rw [stackTransitionStep_other _ _ _ _ _ h2 h4]
        exact ⟨Or.inl rfl, Or.inl rfl, fun l => le_refl _, fun l => le_refl _⟩

theorem stackNewCounts_bounds (lbl : Labels) (bF fF : Family)
    (d : targetData) :
    (stackNewCounts lbl bF fF d).2.2.1 ≤ 1 ∧
    (stackNewCounts lbl bF fF d).2.2.2 ≤ 1 ∧
    (∀ l, (famGet bF l).getD 0
      ≤ (famGet (stackNewCounts lbl bF fF d).1 l).getD 0) ∧
    (∀ l, (famGet fF l).getD 0
      ≤ (famGet (stackNewCounts lbl bF fF d).2.1 l).getD 0) := by
  by_cases h2 : d.State = "active"
  · by_cases h3 : d.HealthState = "unhealthy"
    · rw [stackNewCounts_active_unhealthy _ _ _ _ h2 h3]
      exact ⟨by simp, by simp, fun l => famInc_mono _ _ _,
        fun l => famInc_mono _ _ _⟩
    · rw [stackNewCounts_active_healthy _ _ _ _ h2 h3]
      exact ⟨by simp, by simp, fun l => famInc_mono _ _ _,
        fun l => famTouch_mono _ _ _⟩
  · by_cases h4 : d.State = "error"
    · rw [stackNewCounts_error _ _ _ _ h2 h4]
      exact ⟨by simp, by simp, fun l => famInc_mono _ _ _,
        fun l => famInc_mono _ _ _⟩
    · rw [stackNewCounts_other _ _ _ _ h2 h4]
      exact ⟨by simp, by simp, fun l => famTouch_mono _ _ _,
        fun l => famTouch_mono _ _ _⟩

theorem instanceTransitionStep_writeback_bounds (lbl : Labels)
    (bF fF mF : Family) (old : object) (d : targetData) :
    ((instanceTransitionStep lbl bF fF mF old d).2.2.2.BootstrapCount
        = old.BootstrapCount ∨
     (instanceTransitionStep lbl bF fF mF old d).2.2.2.BootstrapCount
        = inc64 old.BootstrapCount) ∧
    ((instanceTransitionStep lbl bF fF mF old d).2.2.2.FailureCount
        = old.FailureCount ∨
     (instanceTransitionStep lbl bF fF mF old d).2.2.2.FailureCount
        = inc64 old.FailureCount) ∧
    (∀ l, (famGet bF l).getD 0
      ≤ (famGet (instanceTransitionStep lbl bF fF mF old d).1 l).getD 0) ∧
    (∀ l, (famGet fF l).getD 0
      ≤ (famGet (instanceTransitionStep lbl bF fF mF old d).2.1 l).getD 0) := by
  by_cases h0 : old.State = d.State
  · rw [instanceTransitionStep_same _ _ _ _ _ _ h0]
    exact ⟨Or.inl rfl, Or.inl rfl, fun l => le_refl _, fun l => le_refl _⟩
  · by_cases h2 : d.State = "running"
    · rw [instanceTransitionStep_running _ _ _ _ _ _ h0 h2]
      exact ⟨Or.inr rfl, Or.inl rfl, fun l => famInc_mono _ _ _,
        fun l => le_refl _⟩
    · by_cases h4 : d.State = "error"
      · rw [instanceTransitionStep_error _ _ _ _ _ _ h0 h2 h4]
        exact ⟨Or.inr rfl, Or.inr rfl, fun l => famInc_mono _ _ _,
          fun l => famInc_mono _ _ _⟩
      · rw [instanceTransitionStep_other _ _ _ _ _ _ h2 h4]
        exact ⟨Or.inl rfl, Or.inl rfl, fun l => le_refl _, fun l => le_refl _⟩

theorem instanceNewCounts_bounds (lbl : Labels) (bF fF mF : Family)
    (d : targetData) :
    (instanceNewCounts lbl bF fF mF d).2.2.2.1 ≤ 1 ∧
    (instanceNewCounts lbl bF fF mF d).2.2.2.2.1 ≤ 1 ∧
    (∀ l, (famGet bF l).getD 0
      ≤ (famGet (instanceNewCounts lbl bF fF mF d).1 l).getD 0) ∧
    (∀ l, (famGet fF l).getD 0
      ≤ (famGet (instanceNewCounts lbl bF fF mF d).2.1 l).getD 0) := by
  by_cases h1 : d.State = "error"
  · rw [instanceNewCounts_error _ _ _ _ _ h1]
    exact ⟨by simp, by simp, fun l => famInc_mono _ _ _,
      fun l => famInc_mono _ _ _⟩
  · by_cases h2 : d.State = "stopped" ∨ d.State = "running"
    · rw [instanceNewCounts_run_stop _ _ _ _ _ h1 h2]
      exact ⟨by simp, by simp, fun l => famInc_mono _ _ _,
        fun l => famTouch_mono _ _ _⟩
    · have hns : d.State ≠ "stopped" := fun hh => h2 (Or.inl hh)
      have hnr : d.State ≠ "running" := fun hh => h2 (Or.inr hh)
      rw [instanceNewCounts_other _ _ _ _ _ h1 hns hnr]
      exact ⟨by simp, by simp, fun l => famTouch_mono _ _ _,
        fun l => famTouch_mono _ _ _⟩

theorem observeStack_counts_bounds (envName : String)
    (stks : List (String × stackV)) (heap : Heap) (reg : Registry)
    (d : targetData)
    (hok : ∀ a, (heapGet heap a).BootstrapCount + 1 < W64 ∧
      (heapGet heap a).FailureCount + 1 < W64) :
    (∀ a, (heapGet heap a).BootstrapCount
        ≤ (heapGet (observeStack envName stks heap reg d).2.1
            a).BootstrapCount ∧
      (heapGet (observeStack envName stks heap reg d).2.1
          a).BootstrapCount ≤ (heapGet heap a).BootstrapCount + 1 ∧
      (heapGet heap a).FailureCount
        ≤ (heapGet (observeStack envName stks heap reg d).2.1
            a).FailureCount ∧
      (heapGet (observeStack envName stks heap reg d).2.1
          a).FailureCount ≤ (heapGet heap a).FailureCount + 1) ∧
    (∀ l, (famGet reg.extendingTotalStackBootstrap l).getD 0
        ≤ (famGet (observeStack envName stks heap reg
            d).2.2.extendingTotalStackBootstrap l).getD 0 ∧
      (famGet reg.extendingTotalStackFailure l).getD 0
        ≤ (famGet (observeStack envName stks heap reg
            d).2.2.extendingTotalStackFailure l).getD 0 ∧
      (famGet reg.extendingTotalServiceBootstrap l).getD 0
        ≤ (famGet (observeStack envName stks heap reg
            d).2.2.extendingTotalServiceBootstrap l).getD 0 ∧
      (famGet reg.extendingTotalServiceFailure l).getD 0
        ≤ (famGet (observeStack envName stks heap reg
            d).2.2.extendingTotalServiceFailure l).getD 0 ∧
      (famGet reg.extendingTotalInstanceBootstrap l).getD 0
        ≤ (famGet (observeStack envName stks heap reg
            d).2.2.extendingTotalInstanceBootstrap l).getD 0 ∧
      (famGet reg.extendingTotalInstanceFailure l).getD 0
        ≤ (famGet (observeStack envName stks heap reg
            d).2.2.extendingTotalInstanceFailure l).getD 0) := by
  cases hl : lookupA stks d.Name with
  | some take =>
      rw [observeStack_existing envName stks heap reg d take hl]
      dsimp only
      obtain ⟨hB, hF, hbf, hff⟩ := stackTransitionStep_writeback_bounds
        (stackLbl envName d) reg.extendingTotalStackBootstrap
        reg.extendingTotalStackFailure (heapGet heap take.obj) d
      refine ⟨?_, ?_⟩
      · intro a
        by_cases hlt : take.obj < heap.length
        · by_cases ha : a = take.obj
          · rw [ha, heapGet_heapSet_self _ _ _ hlt]
            have e1 := inc64_eq (heapGet heap take.obj).BootstrapCount
              (hok take.obj).1
            have e2 := inc64_eq (heapGet heap take.obj).FailureCount
              (hok take.obj).2
            show (heapGet heap take.obj).BootstrapCount
                ≤ (stackTransitionStep (stackLbl envName d)
                    reg.extendingTotalStackBootstrap
                    reg.extendingTotalStackFailure
                    (heapGet heap take.obj) d).2.2.BootstrapCount ∧
              (stackTransitionStep (stackLbl envName d)
                  reg.extendingTotalStackBootstrap
                  reg.extendingTotalStackFailure
                  (heapGet heap take.obj) d).2.2.BootstrapCount
                ≤ (heapGet heap take.obj).BootstrapCount + 1 ∧
              (heapGet heap take.obj).FailureCount
                ≤ (stackTransitionStep (stackLbl envName d)
                    reg.extendingTotalStackBootstrap
                    reg.extendingTotalStackFailure
                    (heapGet heap take.obj) d).2.2.FailureCount ∧
              (stackTransitionStep (stackLbl envName d)
                  reg.extendingTotalStackBootstrap
                  reg.extendingTotalStackFailure
                  (heapGet heap take.obj) d).2.2.FailureCount
                ≤ (heapGet heap take.obj).FailureCount + 1
            rcases hB with hB | hB <;> rcases hF with hF | hF <;>
              simp only [hB, hF, e1, e2] <;> omega
          · rw [heapGet_heapSet_ne _ _ _ _ (fun hh => ha hh.symm)]
            omega
        · rw [heapSet_oob _ _ _ (Nat.le_of_not_lt hlt)]
          omega
      · intro l
        exact ⟨hbf l, hff l, le_refl _, le_refl _, le_refl _, le_refl _⟩
  | none =>
      rw [observeStack_new envName stks heap reg d hl]
      dsimp only
      obtain ⟨hb1, hf1, hbf, hff⟩ := stackNewCounts_bounds
        (stackLbl envName d) reg.extendingTotalStackBootstrap
        reg.extendingTotalStackFailure d
      refine ⟨?_, ?_⟩
      · intro a
        by_cases hlt : a < heap.length
        · rw [heapGet_append_lt _ _ _ hlt]
          omega
        · have hz : heapGet heap a = object.zero :=
            heapGet_oob _ _ (Nat.le_of_not_lt hlt)
          by_cases he : a = heap.length
          · subst he
            rw [heapGet_append_len, hz]
            simp only [object.zero]
            refine ⟨Nat.zero_le _, ?_, Nat.zero_le _, ?_⟩ <;> simp <;> omega
          · have h2 : ∀ o : object, heapGet (heap ++ [o]) a = object.zero :=
              fun o => heapGet_oob _ _ (by simp; omega)
            rw [h2, hz]
            omega
      · intro l
        exact ⟨hbf l, hff l, le_refl _, le_refl _, le_refl _, le_refl _⟩

theorem observeService_counts_bounds (ctx : stkCtx)
    (svcs : List (String × serviceV)) (heap : Heap) (reg : Registry)
    (d : targetData)
    (hok : ∀ a, (heapGet heap a).BootstrapCount + 1 < W64 ∧
      (heapGet heap a).FailureCount + 1 < W64) :
    (∀ a, (heapGet heap a).BootstrapCount
        ≤ (heapGet (observeService ctx svcs heap reg d).2.1
            a).BootstrapCount ∧
      (heapGet (observeService ctx svcs heap reg d).2.1
          a).BootstrapCount ≤ (heapGet heap a).BootstrapCount + 1 ∧
      (heapGet heap a).FailureCount
        ≤ (heapGet (observeService ctx svcs heap reg d).2.1
            a).FailureCount ∧
      (heapGet (observeService ctx svcs heap reg d).2.1
          a).FailureCount ≤ (heapGet heap a).FailureCount + 1) ∧
    (∀ l, (famGet reg.extendingTotalStackBootstrap l).getD 0
        ≤ (famGet (observeService ctx svcs heap reg
            d).2.2.extendingTotalStackBootstrap l).getD 0 ∧
      (famGet reg.extendingTotalStackFailure l).getD 0
        ≤ (famGet (observeService ctx svcs heap reg
            d).2.2.extendingTotalStackFailure l).getD 0 ∧
      (famGet reg.extendingTotalServiceBootstrap l).getD 0
        ≤ (famGet (observeService ctx svcs heap reg
            d).2.2.extendingTotalServiceBootstrap l).getD 0 ∧
      (famGet reg.extendingTotalServiceFailure l).getD 0
        ≤ (famGet (observeService ctx svcs heap reg
            d).2.2.extendingTotalServiceFailure l).getD 0 ∧
      (famGet reg.extendingTotalInstanceBootstrap l).getD 0
        ≤ (famGet (observeService ctx svcs heap reg
            d).2.2.extendingTotalInstanceBootstrap l).getD 0 ∧
      (famGet reg.extendingTotalInstanceFailure l).getD 0
        ≤ (famGet (observeService ctx svcs heap reg
            d).2.2.extendingTotalInstanceFailure l).getD 0) := by
  cases hl : lookupA svcs d.Name with
  | some take =>
      rw [observeService_existing ctx svcs heap reg d take hl,
        serviceTransitionStep_eq_stack]
      dsimp only
      obtain ⟨hB, hF, hbf, hff⟩ := stackTransitionStep_writeback_bounds
        (serviceLbl ctx d) reg.extendingTotalServiceBootstrap
        reg.extendingTotalServiceFailure (heapGet heap take.obj) d
      refine ⟨?_, ?_⟩
      · intro a
        by_cases hlt : take.obj < heap.length
        · by_cases ha : a = take.obj
          · rw [ha, heapGet_heapSet_self _ _ _ hlt]
            have e1 := inc64_eq (heapGet heap take.obj).BootstrapCount
              (hok take.obj).1
            have e2 := inc64_eq (heapGet heap take.obj).FailureCount
              (hok take.obj).2
            show (heapGet heap take.obj).BootstrapCount
                ≤ (stackTransitionStep (serviceLbl ctx d)
                    reg.extendingTotalServiceBootstrap
                    reg.extendingTotalServiceFailure
                    (heapGet heap take.obj) d).2.2.BootstrapCount ∧
              (stackTransitionStep (serviceLbl ctx d)
                  reg.extendingTotalServiceBootstrap
                  reg.extendingTotalServiceFailure
                  (heapGet heap take.obj) d).2.2.BootstrapCount
                ≤ (heapGet heap take.obj).BootstrapCount + 1 ∧
              (heapGet heap take.obj).FailureCount
                ≤ (stackTransitionStep (serviceLbl ctx d)
                    reg.extendingTotalServiceBootstrap
                    reg.extendingTotalServiceFailure
                    (heapGet heap take.obj) d).2.2.FailureCount ∧
              (stackTransitionStep (serviceLbl ctx d)
                  reg.extendingTotalServiceBootstrap
                  reg.extendingTotalServiceFailure
                  (heapGet heap take.obj) d).2.2.FailureCount
                ≤ (heapGet heap take.obj).FailureCount + 1
            rcases hB with hB | hB <;> rcases hF with hF | hF <;>
              simp only [hB, hF, e1, e2] <;> omega
          · rw [heapGet_heapSet_ne _ _ _ _ (fun hh => ha hh.symm)]
            omega
        · rw [heapSet_oob _ _ _ (Nat.le_of_not_lt hlt)]
          omega
      · intro l
        exact ⟨le_refl _, le_refl _, hbf l, hff l, le_refl _, le_refl _⟩
  | none =>
      rw [observeService_new ctx svcs heap reg d hl,
        serviceNewCounts_eq_stack]
      dsimp only
      obtain ⟨hb1, hf1, hbf, hff⟩ := stackNewCounts_bounds
        (serviceLbl ctx d) reg.extendingTotalServiceBootstrap
        reg.extendingTotalServiceFailure d
      refine ⟨?_, ?_⟩
      · intro a
        by_cases hlt : a < heap.length
        · rw [heapGet_append_lt _ _ _ hlt]
          omega
        · have hz : heapGet heap a = object.zero :=
            heapGet_oob _ _ (Nat.le_of_not_lt hlt)
          by_cases he : a = heap.length
          · subst he
            rw [heapGet_append_len, hz]
            simp only [object.zero]
            refine ⟨Nat.zero_le _, ?_, Nat.zero_le _, ?_⟩ <;> simp <;> omega
          · have h2 : ∀ o : object, heapGet (heap ++ [o]) a = object.zero :=
              fun o => heapGet_oob _ _ (by simp; omega)
            rw [h2, hz]
            omega
      · intro l
        exact ⟨le_refl _, le_refl _, hbf l, hff l, le_refl _, le_refl _⟩

theorem observeInstance_counts_bounds (ctx : svcCtx)
    (insts : List (String × instanceV)) (heap : Heap) (reg : Registry)
    (d : targetData)
    (hok : ∀ a, (heapGet heap a).BootstrapCount + 1 < W64 ∧
      (heapGet heap a).FailureCount + 1 < W64) :
    (∀ a, (heapGet heap a).BootstrapCount
        ≤ (heapGet (observeInstance ctx insts heap reg d).2.1
            a).BootstrapCount ∧
      (heapGet (observeInstance ctx insts heap reg d).2.1
          a).BootstrapCount ≤ (heapGet heap a).BootstrapCount + 1 ∧
      (heapGet heap a).FailureCount
        ≤ (heapGet (observeInstance ctx insts heap reg d).2.1
            a).FailureCount ∧
      (heapGet (observeInstance ctx insts heap reg d).2.1
          a).FailureCount ≤ (heapGet heap a).FailureCount + 1) ∧
    (∀ l, (famGet reg.extendingTotalStackBootstrap l).getD 0
        ≤ (famGet (observeInstance ctx insts heap reg
            d).2.2.extendingTotalStackBootstrap l).getD 0 ∧
      (famGet reg.extendingTotalStackFailure l).getD 0
        ≤ (famGet (observeInstance ctx insts heap reg
            d).2.2.extendingTotalStackFailure l).getD 0 ∧
      (famGet reg.extendingTotalServiceBootstrap l).getD 0
        ≤ (famGet (observeInstance ctx insts heap reg
            d).2.2.extendingTotalServiceBootstrap l).getD 0 ∧
      (famGet reg.extendingTotalServiceFailure l).getD 0
        ≤ (famGet (observeInstance ctx insts heap reg
            d).2.2.extendingTotalServiceFailure l).getD 0 ∧
      (famGet reg.extendingTotalInstanceBootstrap l).getD 0
        ≤ (famGet (observeInstance ctx insts heap reg
            d).2.2.extendingTotalInstanceBootstrap l).getD 0 ∧
      (famGet reg.extendingTotalInstanceFailure l).getD 0
        ≤ (famGet (observeInstance ctx insts heap reg
            d).2.2.extendingTotalInstanceFailure l).getD 0) := by
  cases hl : lookupA insts d.Name with
  | some take =>
      rw [observeInstance_existing ctx insts heap reg d take hl]
      dsimp only
      obtain ⟨hB, hF, hbf, hff⟩ := instanceTransitionStep_writeback_bounds
        (instanceLbl ctx d) reg.extendingTotalInstanceBootstrap
        reg.extendingTotalInstanceFailure
        reg.extendingInstanceBootstrapMsCost (heapGet heap take.obj) d
      refine ⟨?_, ?_⟩
      · intro a
        by_cases hlt : take.obj < heap.length
        · by_cases ha : a = take.obj
          · rw [ha, heapGet_heapSet_self _ _ _ hlt]
            have e1 := inc64_eq (heapGet heap take.obj).BootstrapCount
              (hok take.obj).1
            have e2 := inc64_eq (heapGet heap take.obj).FailureCount
              (hok take.obj).2
            show (heapGet heap take.obj).BootstrapCount
                ≤ (instanceTransitionStep (instanceLbl ctx d)
                    reg.extendingTotalInstanceBootstrap
                    reg.extendingTotalInstanceFailure
                    reg.extendingInstanceBootstrapMsCost
                    (heapGet heap take.obj) d).2.2.2.BootstrapCount ∧
              (instanceTransitionStep (instanceLbl ctx d)
                  reg.extendingTotalInstanceBootstrap
                  reg.extendingTotalInstanceFailure
                  reg.extendingInstanceBootstrapMsCost
                  (heapGet heap take.obj) d).2.2.2.BootstrapCount
                ≤ (heapGet heap take.obj).BootstrapCount + 1 ∧
              (heapGet heap take.obj).FailureCount
                ≤ (instanceTransitionStep (instanceLbl ctx d)
                    reg.extendingTotalInstanceBootstrap
                    reg.extendingTotalInstanceFailure
                    reg.extendingInstanceBootstrapMsCost
                    (heapGet heap take.obj) d).2.2.2.FailureCount ∧
              (instanceTransitionStep (instanceLbl ctx d)
                  reg.extendingTotalInstanceBootstrap
                  reg.extendingTotalInstanceFailure
                  reg.extendingInstanceBootstrapMsCost
                  (heapGet heap take.obj) d).2.2.2.FailureCount
                ≤ (heapGet heap take.obj).FailureCount + 1
            rcases hB with hB | hB <;> rcases hF with hF | hF <;>
              simp only [hB, hF, e1, e2] <;> omega
          · rw [heapGet_heapSet_ne _ _ _ _ (fun hh => ha hh.symm)]
            omega
        · rw [heapSet_oob _ _ _ (Nat.le_of_not_lt hlt)]
          omega
      · intro l
        exact ⟨le_refl _, le_refl _, le_refl _, le_refl _, hbf l, hff l⟩
  | none =>
      rw [observeInstance_new ctx insts heap reg d hl]
      dsimp only
      obtain ⟨hb1, hf1, hbf, hff⟩ := instanceNewCounts_bounds
        (instanceLbl ctx d) reg.extendingTotalInstanceBootstrap
        reg.extendingTotalInstanceFailure
        reg.extendingInstanceBootstrapMsCost d
      refine ⟨?_, ?_⟩
      · intro a
        by_cases hlt : a < heap.length
        · rw [heapGet_append_lt _ _ _ hlt]
          omega
        · have hz : heapGet heap a = object.zero :=
            heapGet_oob _ _ (Nat.le_of_not_lt hlt)
          by_cases he : a = heap.length
          · subst he
            rw [heapGet_append_len, hz]
            simp only [object.zero]
            refine ⟨Nat.zero_le _, ?_, Nat.zero_le _, ?_⟩ <;> simp <;> omega
          · have h2 : ∀ o : object, heapGet (heap ++ [o]) a = object.zero :=
              fun o => heapGet_oob _ _ (by simp; omega)
            rw [h2, hz]
            omega
      · intro l
        exact ⟨le_refl _, le_refl _, le_refl _, le_refl _, hbf l, hff l⟩

theorem observeStackList_counts_bounds (envName : String)
    (stks : List (String × stackV)) (heap : Heap) (reg : Registry)
    (ds : List targetData)
    (hok : ∀ a, (heapGet heap a).BootstrapCount + ds.length < W64 ∧
      (heapGet heap a).FailureCount + ds.length < W64) :
    (∀ a, (heapGet heap a).BootstrapCount
        ≤ (heapGet (observeStackList envName stks heap reg ds).2.1
            a).BootstrapCount ∧
      (heapGet (observeStackList envName stks heap reg ds).2.1
          a).BootstrapCount ≤ (heapGet heap a).BootstrapCount + ds.length ∧
      (heapGet heap a).FailureCount
        ≤ (heapGet (observeStackList envName stks heap reg ds).2.1
            a).FailureCount ∧
      (heapGet (observeStackList envName stks heap reg ds).2.1
          a).FailureCount ≤ (heapGet heap a).FailureCount + ds.length) ∧
    (∀ l, (famGet reg.extendingTotalStackBootstrap l).getD 0
        ≤ (famGet (observeStackList envName stks heap reg
            ds).2.2.extendingTotalStackBootstrap l).getD 0 ∧
      (famGet reg.extendingTotalStackFailure l).getD 0
        ≤ (famGet (observeStackList envName stks heap reg
            ds).2.2.extendingTotalStackFailure l).getD 0 ∧
      (famGet reg.extendingTotalServiceBootstrap l).getD 0
        ≤ (famGet (observeStackList envName stks heap reg
            ds).2.2.extendingTotalServiceBootstrap l).getD 0 ∧
      (famGet reg.extendingTotalServiceFailure l).getD 0
        ≤ (famGet (observeStackList envName stks heap reg
            ds).2.2.extendingTotalServiceFailure l).getD 0 ∧
      (famGet reg.extendingTotalInstanceBootstrap l).getD 0
        ≤ (famGet (observeStackList envName stks heap reg
            ds).2.2.extendingTotalInstanceBootstrap l).getD 0 ∧
      (famGet reg.extendingTotalInstanceFailure l).getD 0
        ≤ (famGet (observeStackList envName stks heap reg
            ds).2.2.extendingTotalInstanceFailure l).getD 0) := by
  induction ds generalizing stks heap reg with
  | nil =>
      refine ⟨fun a => ?_, fun l => ?_⟩
      · simp only [observeStackList, List.length_nil]
        omega
      · simp only [observeStackList]
        exact ⟨le_refl _, le_refl _, le_refl _, le_refl _, le_refl _,
          le_refl _⟩
  | cons d ds ih =>
      have hok1 : ∀ a, (heapGet heap a).BootstrapCount + 1 < W64 ∧
          (heapGet heap a).FailureCount + 1 < W64 := by
        intro a
        have h1 := (hok a).1
        have h2 := (hok a).2
        simp only [List.length_cons] at h1 h2
        omega
      obtain ⟨hs1, hs2⟩ :=
        observeStack_counts_bounds envName stks heap reg d hok1
      have hok2 : ∀ a,
          (heapGet (observeStack envName stks heap reg d).2.1
            a).BootstrapCount + ds.length < W64 ∧
          (heapGet (observeStack envName stks heap reg d).2.1
            a).FailureCount + ds.length < W64 := by
        intro a
        have h1 := (hok a).1
        have h2 := (hok a).2
        have h3 := (hs1 a).2.1
        have h4 := (hs1 a).2.2.2
        simp only [List.length_cons] at h1 h2
        omega
      obtain ⟨hi1, hi2⟩ := ih (observeStack envName stks heap reg d).1
        (observeStack envName stks heap reg d).2.1
        (observeStack envName stks heap reg d).2.2 hok2
      have hrec : observeStackList envName stks heap reg (d :: ds) =
          observeStackList envName (observeStack envName stks heap reg d).1
            (observeStack envName stks heap reg d).2.1
            (observeStack envName stks heap reg d).2.2 ds := rfl
      rw [hrec]
      refine ⟨fun a => ?_, fun l => ?_⟩
      · have A := hs1 a
        have B := hi1 a
        simp only [List.length_cons]
        omega
      · exact ⟨le_trans (hs2 l).1 (hi2 l).1,
          le_trans (hs2 l).2.1 (hi2 l).2.1,
          le_trans (hs2 l).2.2.1 (hi2 l).2.2.1,
          le_trans (hs2 l).2.2.2.1 (hi2 l).2.2.2.1,
          le_trans (hs2 l).2.2.2.2.1 (hi2 l).2.2.2.2.1,
          le_trans (hs2 l).2.2.2.2.2 (hi2 l).2.2.2.2.2⟩

theorem observeServiceList_counts_bounds (ctx : stkCtx)
    (svcs : List (String × serviceV)) (heap : Heap) (reg : Registry)
    (ds : List targetData)
    (hok : ∀ a, (heapGet heap a).BootstrapCount + ds.length < W64 ∧
      (heapGet heap a).FailureCount + ds.length < W64) :
    (∀ a, (heapGet heap a).BootstrapCount
        ≤ (heapGet (observeServiceList ctx svcs heap reg ds).2.1
            a).BootstrapCount ∧
      (heapGet (observeServiceList ctx svcs heap reg ds).2.1
          a).BootstrapCount ≤ (heapGet heap a).BootstrapCount + ds.length ∧
      (heapGet heap a).FailureCount
        ≤ (heapGet (observeServiceList ctx svcs heap reg ds).2.1
            a).FailureCount ∧
      (heapGet (observeServiceList ctx svcs heap reg ds).2.1
          a).FailureCount ≤ (heapGet heap a).FailureCount + ds.length) ∧
    (∀ l, (famGet reg.extendingTotalStackBootstrap l).getD 0
        ≤ (famGet (observeServiceList ctx svcs heap reg
            ds).2.2.extendingTotalStackBootstrap l).getD 0 ∧
      (famGet reg.extendingTotalStackFailure l).getD 0
        ≤ (famGet (observeServiceList ctx svcs heap reg
            ds).2.2.extendingTotalStackFailure l).getD 0 ∧
      (famGet reg.extendingTotalServiceBootstrap l).getD 0
        ≤ (famGet (observeServiceList ctx svcs heap reg
            ds).2.2.extendingTotalServiceBootstrap l).getD 0 ∧
      (famGet reg.extendingTotalServiceFailure l).getD 0
        ≤ (famGet (observeServiceList ctx svcs heap reg
            ds).2.2.extendingTotalServiceFailure l).getD 0 ∧
      (famGet reg.extendingTotalInstanceBootstrap l).getD 0
        ≤ (famGet (observeServiceList ctx svcs heap reg
            ds).2.2.extendingTotalInstanceBootstrap l).getD 0 ∧
      (famGet reg.extendingTotalInstanceFailure l).getD 0
        ≤ (famGet (observeServiceList ctx svcs heap reg
            ds).2.2.extendingTotalInstanceFailure l).getD 0) := by
  induction ds generalizing svcs heap reg with
  | nil =>
      refine ⟨fun a => ?_, fun l => ?_⟩
      · simp only [observeServiceList, List.length_nil]
        omega
      · simp only [observeServiceList]
        exact ⟨le_refl _, le_refl _, le_refl _, le_refl _, le_refl _,
          le_refl _⟩
  | cons d ds ih =>
      have hok1 : ∀ a, (heapGet heap a).BootstrapCount + 1 < W64 ∧
          (heapGet heap a).FailureCount + 1 < W64 := by
        intro a
        have h1 := (hok a).1
        have h2 := (hok a).2
        simp only [List.length_cons] at h1 h2
        omega
      obtain ⟨hs1, hs2⟩ :=
        observeService_counts_bounds ctx svcs heap reg d hok1
      have hok2 : ∀ a,
          (heapGet (observeService ctx svcs heap reg d).2.1
            a).BootstrapCount + ds.length < W64 ∧
          (heapGet (observeService ctx svcs heap reg d).2.1
            a).FailureCount + ds.length < W64 := by
        intro a
        have h1 := (hok a).1
        have h2 := (hok a).2
        have h3 := (hs1 a).2.1
        have h4 := (hs1 a).2.2.2
        simp only [List.length_cons] at h1 h2
        omega
      obtain ⟨hi1, hi2⟩ := ih (observeService ctx svcs heap reg d).1
        (observeService ctx svcs heap reg d).2.1
        (observeService ctx svcs heap reg d).2.2 hok2
      have hrec : observeServiceList ctx svcs heap reg (d :: ds) =
          observeServiceList ctx (observeService ctx svcs heap reg d).1
            (observeService ctx svcs heap reg d).2.1
            (observeService ctx svcs heap reg d).2.2 ds := rfl
      rw [hrec]
      refine ⟨fun a => ?_, fun l => ?_⟩
      · have A := hs1 a
        have B := hi1 a
        simp only [List.length_cons]
        omega
      · exact ⟨le_trans (hs2 l).1 (hi2 l).1,
          le_trans (hs2 l).2.1 (hi2 l).2.1,
          le_trans (hs2 l).2.2.1 (hi2 l).2.2.1,
          le_trans (hs2 l).2.2.2.1 (hi2 l).2.2.2.1,
          le_trans (hs2 l).2.2.2.2.1 (hi2 l).2.2.2.2.1,
          le_trans (hs2 l).2.2.2.2.2 (hi2 l).2.2.2.2.2⟩

theorem observeInstanceList_counts_bounds (ctx : svcCtx)
    (insts : List (String × instanceV)) (heap : Heap) (reg : Registry)
    (ds : List targetData)
    (hok : ∀ a, (heapGet heap a).BootstrapCount + ds.length < W64 ∧
      (heapGet heap a).FailureCount + ds.length < W64) :
    (∀ a, (heapGet heap a).BootstrapCount
        ≤ (heapGet (observeInstanceList ctx insts heap reg ds).2.1
            a).BootstrapCount ∧
      (heapGet (observeInstanceList ctx insts heap reg ds).2.1
          a).BootstrapCount ≤ (heapGet heap a).BootstrapCount + ds.length ∧
      (heapGet heap a).FailureCount
        ≤ (heapGet (observeInstanceList ctx insts heap reg ds).2.1
            a).FailureCount ∧
      (heapGet (observeInstanceList ctx insts heap reg ds).2.1
          a).FailureCount ≤ (heapGet heap a).FailureCount + ds.length) ∧
    (∀ l, (famGet reg.extendingTotalStackBootstrap l).getD 0
        ≤ (famGet (observeInstanceList ctx insts heap reg
            ds).2.2.extendingTotalStackBootstrap l).getD 0 ∧
      (famGet reg.extendingTotalStackFailure l).getD 0
        ≤ (famGet (observeInstanceList ctx insts heap reg
            ds).2.2.extendingTotalStackFailure l).getD 0 ∧
      (famGet reg.extendingTotalServiceBootstrap l).getD 0
        ≤ (famGet (observeInstanceList ctx insts heap reg
            ds).2.2.extendingTotalServiceBootstrap l).getD 0 ∧
      (famGet reg.extendingTotalServiceFailure l).getD 0
        ≤ (famGet (observeInstanceList ctx insts heap reg
            ds).2.2.extendingTotalServiceFailure l).getD 0 ∧
      (famGet reg.extendingTotalInstanceBootstrap l).getD 0
        ≤ (famGet (observeInstanceList ctx insts heap reg
            ds).2.2.extendingTotalInstanceBootstrap l).getD 0 ∧
      (famGet reg.extendingTotalInstanceFailure l).getD 0
        ≤ (famGet (observeInstanceList ctx insts heap reg
            ds).2.2.extendingTotalInstanceFailure l).getD 0) := by
  induction ds generalizing insts heap reg with
  | nil =>
      refine ⟨fun a => ?_, fun l => ?_⟩
      · simp only [observeInstanceList, List.length_nil]
        omega
      · simp only [observeInstanceList]
        exact ⟨le_refl _, le_refl _, le_refl _, le_refl _, le_refl _,
          le_refl _⟩
  | cons d ds ih =>
      have hok1 : ∀ a, (heapGet heap a).BootstrapCount + 1 < W64 ∧
          (heapGet heap a).FailureCount + 1 < W64 := by
        intro a
        have h1 := (hok a).1
        have h2 := (hok a).2
        simp only [List.length_cons] at h1 h2
        omega
      obtain ⟨hs1, hs2⟩ :=
        observeInstance_counts_bounds ctx insts heap reg d hok1
      have hok2 : ∀ a,
          (heapGet (observeInstance ctx insts heap reg d).2.1
            a).BootstrapCount + ds.length < W64 ∧
          (heapGet (observeInstance ctx insts heap reg d).2.1
            a).FailureCount + ds.length < W64 := by
        intro a
        have h1 := (hok a).1
        have h2 := (hok a).2
        have h3 := (hs1 a).2.1
        have h4 := (hs1 a).2.2.2
        simp only [List.length_cons] at h1 h2
        omega
      obtain ⟨hi1, hi2⟩ := ih (observeInstance ctx insts heap reg d).1
        (observeInstance ctx insts heap reg d).2.1
        (observeInstance ctx insts heap reg d).2.2 hok2
      have hrec : observeInstanceList ctx insts heap reg (d :: ds) =
          observeInstanceList ctx (observeInstance ctx insts heap reg d).1
            (observeInstance ctx insts heap reg d).2.1
            (observeInstance ctx insts heap reg d).2.2 ds := rfl
      rw [hrec]
      refine ⟨fun a => ?_, fun l => ?_⟩
      · have A := hs1 a
        have B := hi1 a
        simp only [List.length_cons]
        omega
      · exact ⟨le_trans (hs2 l).1 (hi2 l).1,
          le_trans (hs2 l).2.1 (hi2 l).2.1,
          le_trans (hs2 l).2.2.1 (hi2 l).2.2.1,
          le_trans (hs2 l).2.2.2.1 (hi2 l).2.2.2.1,
          le_trans (hs2 l).2.2.2.2.1 (hi2 l).2.2.2.2.1,
          le_trans (hs2 l).2.2.2.2.2 (hi2 l).2.2.2.2.2⟩

/-- **C5**: for every node in the model and any sequence of scrape
observations within one process lifetime (provided the `uint64` counters
do not overflow, which would take `2^64` transitions), the node's
`bootstrapCount` and `failureCount` afterwards are ≥ their values
before, and no single observation decreases either field or any counter
family; hence the values at any later scrape cycle dominate the values
at any earlier one. -/
theorem claim5_counters_monotonic :
    (∀ (envName : String) (stks : List (String × stackV)) (heap : Heap)
       (reg : Registry) (d : targetData),
      (∀ a, (heapGet heap a).BootstrapCount + 1 < W64 ∧
        (heapGet heap a).FailureCount + 1 < W64) →
      (∀ a, (heapGet heap a).BootstrapCount
          ≤ (heapGet (observeStack envName stks heap reg d).2.1
              a).BootstrapCount ∧
        (heapGet heap a).FailureCount
          ≤ (heapGet (observeStack envName stks heap reg d).2.1
              a).FailureCount) ∧
      (∀ l, (famGet reg.extendingTotalStackBootstrap l).getD 0
          ≤ (famGet (observeStack envName stks heap reg
              d).2.2.extendingTotalStackBootstrap l).getD 0 ∧
        (famGet reg.extendingTotalStackFailure l).getD 0
          ≤ (famGet (observeStack envName stks heap reg
              d).2.2.extendingTotalStackFailure l).getD 0)) ∧
    (∀ (ctx : stkCtx) (svcs : List (String × serviceV)) (heap : Heap)
       (reg : Registry) (d : targetData),
      (∀ a, (heapGet heap a).BootstrapCount + 1 < W64 ∧
        (heapGet heap a).FailureCount + 1 < W64) →
      (∀ a, (heapGet heap a).BootstrapCount
          ≤ (heapGet (observeService ctx svcs heap reg d).2.1
              a).BootstrapCount ∧
        (heapGet heap a).FailureCount
          ≤ (heapGet (observeService ctx svcs heap reg d).2.1
              a).FailureCount) ∧
      (∀ l, (famGet reg.extendingTotalServiceBootstrap l).getD 0
          ≤ (famGet (observeService ctx svcs heap reg
              d).2.2.extendingTotalServiceBootstrap l).getD 0 ∧
        (famGet reg.extendingTotalServiceFailure l).getD 0
          ≤ (famGet (observeService ctx svcs heap reg
              d).2.2.extendingTotalServiceFailure l).getD 0)) ∧
    (∀ (ctx : svcCtx) (insts : List (String × instanceV)) (heap : Heap)
       (reg : Registry) (d : targetData),
      (∀ a, (heapGet heap a).BootstrapCount + 1 < W64 ∧
        (heapGet heap a).FailureCount + 1 < W64) →
      (∀ a, (heapGet heap a).BootstrapCount
          ≤ (heapGet (observeInstance ctx insts heap reg d).2.1
              a).BootstrapCount ∧
        (heapGet heap a).FailureCount
          ≤ (heapGet (observeInstance ctx insts heap reg d).2.1
              a).FailureCount) ∧
      (∀ l, (famGet reg.extendingTotalInstanceBootstrap l).getD 0
          ≤ (famGet (observeInstance ctx insts heap reg
              d).2.2.extendingTotalInstanceBootstrap l).getD 0 ∧
        (famGet reg.extendingTotalInstanceFailure l).getD 0
          ≤ (famGet (observeInstance ctx insts heap reg
              d).2.2.extendingTotalInstanceFailure l).getD 0)) ∧
    (∀ (envName : String) (stks : List (String × stackV)) (heap : Heap)
       (reg : Registry) (ds : List targetData),
      (∀ a, (heapGet heap a).BootstrapCount + ds.length < W64 ∧
        (heapGet heap a).FailureCount + ds.length < W64) →
      (∀ a, (heapGet heap a).BootstrapCount
          ≤ (heapGet (observeStackList envName stks heap reg ds).2.1
              a).BootstrapCount ∧
        (heapGet heap a).FailureCount
          ≤ (heapGet (observeStackList envName stks heap reg ds).2.1
              a).FailureCount) ∧
      (∀ l, (famGet reg.extendingTotalStackBootstrap l).getD 0
          ≤ (famGet (observeStackList envName stks heap reg
              ds).2.2.extendingTotalStackBootstrap l).getD 0 ∧
        (famGet reg.extendingTotalStackFailure l).getD 0
          ≤ (famGet (observeStackList envName stks heap reg
              ds).2.2.extendingTotalStackFailure l).getD 0)) ∧
    (∀ (ctx : stkCtx) (svcs : List (String × serviceV)) (heap : Heap)
       (reg : Registry) (ds : List targetData),
      (∀ a, (heapGet heap a).BootstrapCount + ds.length < W64 ∧
        (heapGet heap a).FailureCount + ds.length < W64) →
      (∀ a, (heapGet heap a).BootstrapCount
          ≤ (heapGet (observeServiceList ctx svcs heap reg ds).2.1
              a).BootstrapCount ∧
        (heapGet heap a).FailureCount
          ≤ (heapGet (observeServiceList ctx svcs heap reg ds).2.1
              a).FailureCount) ∧
      (∀ l, (famGet reg.extendingTotalServiceBootstrap l).getD 0
          ≤ (famGet (observeServiceList ctx svcs heap reg
              ds).2.2.extendingTotalServiceBootstrap l).getD 0 ∧
        (famGet reg.extendingTotalServiceFailure l).getD 0
          ≤ (famGet (observeServiceList ctx svcs heap reg
              ds).2.2.extendingTotalServiceFailure l).getD 0)) ∧
    (∀ (ctx : svcCtx) (insts : List (String × instanceV)) (heap : Heap)
       (reg : Registry) (ds : List targetData),
      (∀ a, (heapGet heap a).BootstrapCount + ds.length < W64 ∧
        (heapGet heap a).FailureCount + ds.length < W64) →
      (∀ a, (heapGet heap a).BootstrapCount
          ≤ (heapGet (observeInstanceList ctx insts heap reg ds).2.1
              a).BootstrapCount ∧
        (heapGet heap a).FailureCount
          ≤ (heapGet (observeInstanceList ctx insts heap reg ds).2.1
              a).FailureCount) ∧
      (∀ l, (famGet reg.extendingTotalInstanceBootstrap l).getD 0
          ≤ (famGet (observeInstanceList ctx insts heap reg
              ds).2.2.extendingTotalInstanceBootstrap l).getD 0 ∧
        (famGet reg.extendingTotalInstanceFailure l).getD 0
          ≤ (famGet (observeInstanceList ctx insts heap reg
              ds).2.2.extendingTotalInstanceFailure l).getD 0)) := by
  refine ⟨?_, ?_, ?_, ?_, ?_, ?_⟩
  · intro envName stks heap reg d hok
    obtain ⟨h1, h2⟩ := observeStack_counts_bounds envName stks heap reg d hok
    exact ⟨fun a => ⟨(h1 a).1, (h1 a).2.2.1⟩,
      fun l => ⟨(h2 l).1, (h2 l).2.1⟩⟩
  · intro ctx svcs heap reg d hok
    obtain ⟨h1, h2⟩ := observeService_counts_bounds ctx svcs heap reg d hok
    exact ⟨fun a => ⟨(h1 a).1, (h1 a).2.2.1⟩,
      fun l => ⟨(h2 l).2.2.1, (h2 l).2.2.2.1⟩⟩
  · intro ctx insts heap reg d hok
    obtain ⟨h1, h2⟩ := observeInstance_counts_bounds ctx insts heap reg d hok
    exact ⟨fun a => ⟨(h1 a).1, (h1 a).2.2.1⟩,
      fun l => ⟨(h2 l).2.2.2.2.1, (h2 l).2.2.2.2.2⟩⟩
  · intro envName stks heap reg ds hok
    obtain ⟨h1, h2⟩ :=
      observeStackList_counts_bounds envName stks heap reg ds hok
    exact ⟨fun a => ⟨(h1 a).1, (h1 a).2.2.1⟩,
      fun l => ⟨(h2 l).1, (h2 l).2.1⟩⟩
  · intro ctx svcs heap reg ds hok
    obtain ⟨h1, h2⟩ :=
      observeServiceList_counts_bounds ctx svcs heap reg ds hok
    exact ⟨fun a => ⟨(h1 a).1, (h1 a).2.2.1⟩,
      fun l => ⟨(h2 l).2.2.1, (h2 l).2.2.2.1⟩⟩
  · intro ctx insts heap reg ds hok
    obtain ⟨h1, h2⟩ :=
      observeInstanceList_counts_bounds ctx insts heap reg ds hok
    exact ⟨fun a => ⟨(h1 a).1, (h1 a).2.2.1⟩,
      fun l => ⟨(h2 l).2.2.2.2.1, (h2 l).2.2.2.2.2⟩⟩

/-- Witness for C5: one concrete instance observation never decreases
the instance bootstrap counter series. -/
theorem claim5_counters_monotonic_witness :
    (famGet Registry.empty.extendingTotalInstanceBootstrap
        (instanceLbl witC2ctx witC2d)).getD 0
      ≤ (famGet (observeInstanceList witC2ctx [] [] Registry.empty
          [witC2d]).2.2.extendingTotalInstanceBootstrap
          (instanceLbl witC2ctx witC2d)).getD 0 :=
  ((claim5_counters_monotonic.2.2.2.2.2 witC2ctx [] [] Registry.empty
    [witC2d]
    (by
      intro a
      rw [heapGet_oob [] a (Nat.zero_le a)]
      constructor <;> decide)).2
    (instanceLbl witC2ctx witC2d)).1

/-! ### Claim C8: startup recovery seeds the model and the counters -/

theorem recoverInstances_heap_pres (envName stackName serviceName : String)
    (xs : List (String × sInstance)) (heap : Heap) (reg : Registry) :
    heap.length ≤
      (recoverInstances envName stackName serviceName xs heap
        reg).2.1.length ∧
    ∀ a, a < heap.length →
      heapGet (recoverInstances envName stackName serviceName xs heap
        reg).2.1 a = heapGet heap a := by
  induction xs generalizing heap reg with
  | nil => exact ⟨le_refl _, fun a _ => rfl⟩
  | cons p rest ih =>
      obtain ⟨k, sk⟩ := p
      have hrec : recoverInstances envName stackName serviceName
          ((k, sk) :: rest) heap reg =
          ((k, { obj := heap.length, System := sk.System,
                 StartupTime := sk.StartupTime }) ::
            (recoverInstances envName stackName serviceName rest
              (recoverInstanceStep envName stackName serviceName k sk heap
                reg).1
              (recoverInstanceStep envName stackName serviceName k sk heap
                reg).2).1,
           (recoverInstances envName stackName serviceName rest
              (recoverInstanceStep envName stackName serviceName k sk heap
                reg).1
              (recoverInstanceStep envName stackName serviceName k sk heap
                reg).2).2.1,
           (recoverInstances envName stackName serviceName rest
              (recoverInstanceStep envName stackName serviceName k sk heap
                reg).1
              (recoverInstanceStep envName stackName serviceName k sk heap
                reg).2).2.2) := rfl
      rw [hrec]
      dsimp only
      obtain ⟨ih1, ih2⟩ := ih
        (recoverInstanceStep envName stackName serviceName k sk heap reg).1
        (recoverInstanceStep envName stackName serviceName k sk heap reg).2
      have hlen : (recoverInstanceStep envName stackName serviceName k sk
          heap reg).1.length = heap.length + 1 := by
        simp [recoverInstanceStep]
      constructor
      · omega
      · intro a ha
        rw [ih2 a (by omega)]
        show heapGet (heap ++ [sk.toObject]) a = heapGet heap a
        exact heapGet_append_lt _ _ _ ha

theorem recoverInstances_frame (envName stackName serviceName : String)
    (xs : List (String × sInstance)) (heap : Heap) (reg : Registry) :
    (∀ l : Labels,
      (l.get? 1 ≠ some stackName ∨ l.get? 2 ≠ some serviceName ∨
        ∀ p ∈ xs, l.get? 3 ≠ some p.1) →
      famGet (recoverInstances envName stackName serviceName xs heap
          reg).2.2.extendingTotalInstanceBootstrap l
        = famGet reg.extendingTotalInstanceBootstrap l ∧
      famGet (recoverInstances envName stackName serviceName xs heap
          reg).2.2.extendingTotalInstanceFailure l
        = famGet reg.extendingTotalInstanceFailure l ∧
      famGet (recoverInstances envName stackName serviceName xs heap
          reg).2.2.extendingInstanceBootstrapMsCost l
        = famGet reg.extendingInstanceBootstrapMsCost l) ∧
    (recoverInstances envName stackName serviceName xs heap
        reg).2.2.extendingTotalStackBootstrap
      = reg.extendingTotalStackBootstrap ∧
    (recoverInstances envName stackName serviceName xs heap
        reg).2.2.extendingTotalStackFailure
      = reg.extendingTotalStackFailure ∧
    (recoverInstances envName stackName serviceName xs heap
        reg).2.2.extendingTotalServiceBootstrap
      = reg.extendingTotalServiceBootstrap ∧
    (recoverInstances envName stackName serviceName xs heap
        reg).2.2.extendingTotalServiceFailure
      = reg.extendingTotalServiceFailure := by
  induction xs generalizing heap reg with
  | nil => exact ⟨fun l _ => ⟨rfl, rfl, rfl⟩, rfl, rfl, rfl, rfl⟩
  | cons p rest ih =>
      obtain ⟨k, sk⟩ := p
      have hrec : recoverInstances envName stackName serviceName
          ((k, sk) :: rest) heap reg =
          ((k, { obj := heap.length, System := sk.System,
                 StartupTime := sk.StartupTime }) ::
            (recoverInstances envName stackName serviceName rest
              (recoverInstanceStep envName stackName serviceName k sk heap
                reg).1
              (recoverInstanceStep envName stackName serviceName k sk heap
                reg).2).1,
           (recoverInstances envName stackName serviceName rest
              (recoverInstanceStep envName stackName serviceName k sk heap
                reg).1
              (recoverInstanceStep envName stackName serviceName k sk heap
                reg).2).2.1,
           (recoverInstances envName stackName serviceName rest
              (recoverInstanceStep envName stackName serviceName k sk heap
                reg).1
              (recoverInstanceStep envName stackName serviceName k sk heap
                reg).2).2.2) := rfl
      rw [hrec]
      dsimp only
      obtain ⟨ihf, ih4, ih5, ih6, ih7⟩ := ih
        (recoverInstanceStep envName stackName serviceName k sk heap reg).1
        (recoverInstanceStep envName stackName serviceName k sk heap reg).2
      refine ⟨?_, ?_, ?_, ?_, ?_⟩
      · intro l hl
        have hLne : ([envName, stackName, serviceName, k,
            formatBool sk.System, sk.Typ] : Labels) ≠ l := by
          intro heq
          rcases hl with h | h | h
          · exact h (heq ▸ rfl)
          · exact h (heq ▸ rfl)
          · exact h (k, sk) (List.mem_cons_self _ _) (heq ▸ rfl)
        have hl' : l.get? 1 ≠ some stackName ∨
            l.get? 2 ≠ some serviceName ∨
            ∀ p ∈ rest, l.get? 3 ≠ some p.1 := by
          rcases hl with h | h | h
          · exact Or.inl h
          · exact Or.inr (Or.inl h)
          · exact Or.inr (Or.inr fun p hp => h p (List.mem_cons_of_mem _ hp))
        obtain ⟨f1, f2, f3⟩ := ihf l hl'
        refine ⟨?_, ?_, ?_⟩
        · rw [f1]
          exact famGet_famAdd_ne _ _ _ _ hLne
        · rw [f2]
          exact famGet_famAdd_ne _ _ _ _ hLne
        · rw [f3]
          exact famGet_famSet_ne _ _ _ _ hLne
      · rw [ih4]
        rfl
      · rw [ih5]
        rfl
      · rw [ih6]
        rfl
      · rw [ih7]
        rfl

theorem recoverInstances_spec (envName stackName serviceName : String)
    (xs : List (String × sInstance)) (heap : Heap) (reg : Registry)
    (hnd : (xs.map Prod.fst).Nodup) :
    ∀ n si, (n, si) ∈ xs →
      ∃ v : instanceV,
        lookupA (recoverInstances envName stackName serviceName xs heap
          reg).1 n = some v ∧
        v.System = si.System ∧
        v.StartupTime = si.StartupTime ∧
        v.obj < (recoverInstances envName stackName serviceName xs heap
          reg).2.1.length ∧
        heapGet (recoverInstances envName stackName serviceName xs heap
          reg).2.1 v.obj = si.toObject ∧
        famGet (recoverInstances envName stackName serviceName xs heap
            reg).2.2.extendingTotalInstanceBootstrap
            [envName, stackName, serviceName, n, formatBool si.System,
             si.Typ]
          = some ((famGet reg.extendingTotalInstanceBootstrap
              [envName, stackName, serviceName, n, formatBool si.System,
               si.Typ]).getD 0 + Int.ofNat si.BootstrapCount) ∧
        famGet (recoverInstances envName stackName serviceName xs heap
            reg).2.2.extendingTotalInstanceFailure
            [envName, stackName, serviceName, n, formatBool si.System,
             si.Typ]
          = some ((famGet reg.extendingTotalInstanceFailure
              [envName, stackName, serviceName, n, formatBool si.System,
               si.Typ]).getD 0 + Int.ofNat si.FailureCount) ∧
        famGet (recoverInstances envName stackName serviceName xs heap
            reg).2.2.extendingInstanceBootstrapMsCost
            [envName, stackName, serviceName, n, formatBool si.System,
             si.Typ]
          = some (Int.ofNat si.StartupTime) := by
  induction xs generalizing heap reg with
  | nil =>
      intro n si h
      simp at h
  | cons p rest ih =>
      obtain ⟨k, sk⟩ := p
      have hpair := List.nodup_cons.mp
        (show (k :: rest.map Prod.fst).Nodup from hnd)
      have hknotin : k ∉ rest.map Prod.fst := hpair.1
      have hnd' : (rest.map Prod.fst).Nodup := hpair.2
      intro n si hmem
      have hrec : recoverInstances envName stackName serviceName
          ((k, sk) :: rest) heap reg =
          ((k, { obj := heap.length, System := sk.System,
                 StartupTime := sk.StartupTime }) ::
            (recoverInstances envName stackName serviceName rest
              (recoverInstanceStep envName stackName serviceName k sk heap
                reg).1
              (recoverInstanceStep envName stackName serviceName k sk heap
                reg).2).1,
           (recoverInstances envName stackName serviceName rest
              (recoverInstanceStep envName stackName serviceName k sk heap
                reg).1
              (recoverInstanceStep envName stackName serviceName k sk heap
                reg).2).2.1,
           (recoverInstances envName stackName serviceName rest
              (recoverInstanceStep envName stackName serviceName k sk heap
                reg).1
              (recoverInstanceStep envName stackName serviceName k sk heap
                reg).2).2.2) := rfl
      have hlen : (recoverInstanceStep envName stackName serviceName k sk
          heap reg).1.length = heap.length + 1 := by
        simp [recoverInstanceStep]
      rcases List.mem_cons.mp hmem with heq | hmem'
      · injection heq with hn hsi
        subst hn
        subst hsi
        obtain ⟨hp1, hp2⟩ := recoverInstances_heap_pres envName stackName
          serviceName rest
          (recoverInstanceStep envName stackName serviceName n si heap
            reg).1
          (recoverInstanceStep envName stackName serviceName n si heap
            reg).2
        have hfr := (recoverInstances_frame envName stackName serviceName
          rest
          (recoverInstanceStep envName stackName serviceName n si heap
            reg).1
          (recoverInstanceStep envName stackName serviceName n si heap
            reg).2).1
          [envName, stackName, serviceName, n, formatBool si.System,
           si.Typ]
          (Or.inr (Or.inr (fun p hp hc => by
            have hpn : p.1 = n := by simpa using hc.symm
            exact hknotin (hpn ▸ List.mem_map_of_mem Prod.fst hp))))
        refine ⟨{ obj := heap.length, System := si.System,
                  StartupTime := si.StartupTime }, ?_, rfl, rfl, ?_, ?_,
                ?_, ?_, ?_⟩
        · rw [hrec]
          simp [lookupA]
        · rw [hrec]
          dsimp only
          omega
        · rw [hrec]
          dsimp only
          rw [hp2 heap.length (by omega)]
          show heapGet (heap ++ [si.toObject]) heap.length = si.toObject
          exact heapGet_append_len _ _ _
        · rw [hrec]
          dsimp only
          rw [hfr.1]
          exact famGet_famAdd_self _ _ _
        · rw [hrec]
          dsimp only
          rw [hfr.2.1]
          exact famGet_famAdd_self _ _ _
        · rw [hrec]
          dsimp only
          rw [hfr.2.2]
          exact famGet_famSet_self _ _ _
      · have hkn : k ≠ n := by
          intro hh
          subst hh
          exact hknotin (List.mem_map_of_mem Prod.fst hmem')
        have hLne : ([envName, stackName, serviceName, k,
            formatBool sk.System, sk.Typ] : Labels) ≠
            [envName, stackName, serviceName, n, formatBool si.System,
             si.Typ] := by
          intro heq
          simp only [List.cons.injEq] at heq
          exact hkn heq.2.2.2.1
        obtain ⟨v, hv1, hv2, hv3, hv4, hv5, hv6, hv7, hv8⟩ := ih
          (recoverInstanceStep envName stackName serviceName k sk heap
            reg).1
          (recoverInstanceStep envName stackName serviceName k sk heap
            reg).2 hnd' n si hmem'
        refine ⟨v, ?_, hv2, hv3, ?_, ?_, ?_, ?_, ?_⟩
        · rw [hrec]
          simpa [lookupA, hkn] using hv1
        · rw [hrec]
          dsimp only
          exact hv4
        · rw [hrec]
          dsimp only
          exact hv5
        · rw [hrec]
          dsimp only
          refine hv6.trans ?_
          show some ((famGet (famAdd reg.extendingTotalInstanceBootstrap
              [envName, stackName, serviceName, k, formatBool sk.System,
               sk.Typ] (Int.ofNat sk.BootstrapCount))
              [envName, stackName, serviceName, n, formatBool si.System,
               si.Typ]).getD 0 + Int.ofNat si.BootstrapCount) = _
          rw [famGet_famAdd_ne _ _ _ _ hLne]
        · rw [hrec]
          dsimp only
          refine hv7.trans ?_
          show some ((famGet (famAdd reg.extendingTotalInstanceFailure
              [envName, stackName, serviceName, k, formatBool sk.System,
               sk.Typ] (Int.ofNat sk.FailureCount))
              [envName, stackName, serviceName, n, formatBool si.System,
               si.Typ]).getD 0 + Int.ofNat si.FailureCount) = _
          rw [famGet_famAdd_ne _ _ _ _ hLne]
        · rw [hrec]
          dsimp only
          exact hv8

theorem recoverServices_heap_pres (envName stackName : String)
    (xs : List (String × sService)) (heap : Heap) (reg : Registry) :
    heap.length ≤
      (recoverServices envName stackName xs heap reg).2.1.length ∧
    ∀ a, a < heap.length →
      heapGet (recoverServices envName stackName xs heap reg).2.1 a
        = heapGet heap a := by
  induction xs generalizing heap reg with
  | nil => exact ⟨le_refl _, fun a _ => rfl⟩
  | cons p rest ih =>
      obtain ⟨k, sk⟩ := p
      have hrec : recoverServices envName stackName ((k, sk) :: rest) heap
          reg =
          ((k, { obj := heap.length,
                 Instances := (recoverInstances envName stackName k
                   sk.Instances
                   (recoverServiceStep envName stackName k sk heap reg).1
                   (recoverServiceStep envName stackName k sk heap
                     reg).2).1,
                 System := sk.System }) ::
            (recoverServices envName stackName rest
              (recoverInstances envName stackName k sk.Instances
                (recoverServiceStep envName stackName k sk heap reg).1
                (recoverServiceStep envName stackName k sk heap reg).2).2.1
              (recoverInstances envName stackName k sk.Instances
                (recoverServiceStep envName stackName k sk heap reg).1
                (recoverServiceStep envName stackName k sk heap
                  reg).2).2.2).1,
           (recoverServices envName stackName rest
              (recoverInstances envName stackName k sk.Instances
                (recoverServiceStep envName stackName k sk heap reg).1
                (recoverServiceStep envName stackName k sk heap reg).2).2.1
              (recoverInstances envName stackName k sk.Instances
                (recoverServiceStep envName stackName k sk heap reg).1
                (recoverServiceStep envName stackName k sk heap
                  reg).2).2.2).2.1,
           (recoverServices envName stackName rest
              (recoverInstances envName stackName k sk.Instances
                (recoverServiceStep envName stackName k sk heap reg).1
                (recoverServiceStep envName stackName k sk heap reg).2).2.1
              (recoverInstances envName stackName k sk.Instances
                (recoverServiceStep envName stackName k sk heap reg).1
                (recoverServiceStep envName stackName k sk heap
                  reg).2).2.2).2.2) := rfl
      rw [hrec]
      dsimp only
      have hlen : (recoverServiceStep envName stackName k sk heap
          reg).1.length = heap.length + 1 := by
        simp [recoverServiceStep]
      obtain ⟨hi1, hi2⟩ := recoverInstances_heap_pres envName stackName k
        sk.Instances
        (recoverServiceStep envName stackName k sk heap reg).1
        (recoverServiceStep envName stackName k sk heap reg).2
      obtain ⟨ih1, ih2⟩ := ih
        (recoverInstances envName stackName k sk.Instances
          (recoverServiceStep envName stackName k sk heap reg).1
          (recoverServiceStep envName stackName k sk heap reg).2).2.1
        (recoverInstances envName stackName k sk.Instances
          (recoverServiceStep envName stackName k sk heap reg).1
          (recoverServiceStep envName stackName k sk heap reg).2).2.2
      constructor
      · omega
      · intro a ha
        rw [ih2 a (by omega), hi2 a (by omega)]
        show heapGet (heap ++ [sk.toObject]) a = heapGet heap a
        exact heapGet_append_lt _ _ _ ha

theorem recoverServices_frame (envName stackName : String)
    (xs : List (String × sService)) (heap : Heap) (reg : Registry) :
    (∀ l : Labels,
      (l.get? 1 ≠ some stackName ∨ ∀ p ∈ xs, l.get? 2 ≠ some p.1) →
      famGet (recoverServices envName stackName xs heap
          reg).2.2.extendingTotalServiceBootstrap l
        = famGet reg.extendingTotalServiceBootstrap l ∧
      famGet (recoverServices envName stackName xs heap
          reg).2.2.extendingTotalServiceFailure l
        = famGet reg.extendingTotalServiceFailure l ∧
      famGet (recoverServices envName stackName xs heap
          reg).2.2.extendingTotalInstanceBootstrap l
        = famGet reg.extendingTotalInstanceBootstrap l ∧
      famGet (recoverServices envName stackName xs heap
          reg).2.2.extendingTotalInstanceFailure l
        = famGet reg.extendingTotalInstanceFailure l ∧
      famGet (recoverServices envName stackName xs heap
          reg).2.2.extendingInstanceBootstrapMsCost l
        = famGet reg.extendingInstanceBootstrapMsCost l) ∧
    (recoverServices envName stackName xs heap
        reg).2.2.extendingTotalStackBootstrap
      = reg.extendingTotalStackBootstrap ∧
    (recoverServices envName stackName xs heap
        reg).2.2.extendingTotalStackFailure
      = reg.extendingTotalStackFailure := by
  induction xs generalizing heap reg with
  | nil => exact ⟨fun l _ => ⟨rfl, rfl, rfl, rfl, rfl⟩, rfl, rfl⟩
  | cons p rest ih =>
      obtain ⟨k, sk⟩ := p
      have hrec : recoverServices envName stackName ((k, sk) :: rest) heap
          reg =
          ((k, { obj := heap.length,
                 Instances := (recoverInstances envName stackName k
                   sk.Instances
                   (recoverServiceStep envName stackName k sk heap reg).1
                   (recoverServiceStep envName stackName k sk heap
                     reg).2).1,
                 System := sk.System }) ::
            (recoverServices envName stackName rest
              (recoverInstances envName stackName k sk.Instances
                (recoverServiceStep envName stackName k sk heap reg).1
                (recoverServiceStep envName stackName k sk heap reg).2).2.1
              (recoverInstances envName stackName k sk.Instances
                (recoverServiceStep envName stackName k sk heap reg).1
                (recoverServiceStep envName stackName k sk heap
                  reg).2).2.2).1,
           (recoverServices envName stackName rest
              (recoverInstances envName stackName k sk.Instances
                (recoverServiceStep envName stackName k sk heap reg).1
                (recoverServiceStep envName stackName k sk heap reg).2).2.1
              (recoverInstances envName stackName k sk.Instances
                (recoverServiceStep envName stackName k sk heap reg).1
                (recoverServiceStep envName stackName k sk heap
                  reg).2).2.2).2.1,
           (recoverServices envName stackName rest
              (recoverInstances envName stackName k sk.Instances
                (recoverServiceStep envName stackName k sk heap reg).1
                (recoverServiceStep envName stackName k sk heap reg).2).2.1
              (recoverInstances envName stackName k sk.Instances
                (recoverServiceStep envName stackName k sk heap reg).1
                (recoverServiceStep envName stackName k sk heap
                  reg).2).2.2).2.2) := rfl
      rw [hrec]
      dsimp only
      obtain ⟨ihf, ih4, ih5⟩ := ih
        (recoverInstances envName stackName k sk.Instances
          (recoverServiceStep envName stackName k sk heap reg).1
          (recoverServiceStep envName stackName k sk heap reg).2).2.1
        (recoverInstances envName stackName k sk.Instances
          (recoverServiceStep envName stackName k sk heap reg).1
          (recoverServiceStep envName stackName k sk heap reg).2).2.2
      obtain ⟨rif, ri4, ri5, ri6, ri7⟩ := recoverInstances_frame envName
        stackName k sk.Instances
        (recoverServiceStep envName stackName k sk heap reg).1
        (recoverServiceStep envName stackName k sk heap reg).2
      refine ⟨?_, ?_, ?_⟩
      · intro l hl
        have hLne : ([envName, stackName, k, formatBool sk.System,
            sk.Typ] : Labels) ≠ l := by
          intro heq
          rcases hl with h | h
          · exact h (heq ▸ rfl)
          · exact h (k, sk) (List.mem_cons_self _ _) (heq ▸ rfl)
        have hins : l.get? 1 ≠ some stackName ∨ l.get? 2 ≠ some k ∨
            ∀ p ∈ sk.Instances, l.get? 3 ≠ some p.1 := by
          rcases hl with h | h
          · exact Or.inl h
          · exact Or.inr (Or.inl (h (k, sk) (List.mem_cons_self _ _)))
        have hl' : l.get? 1 ≠ some stackName ∨
            ∀ p ∈ rest, l.get? 2 ≠ some p.1 := by
          rcases hl with h | h
          · exact Or.inl h
          · exact Or.inr fun p hp => h p (List.mem_cons_of_mem _ hp)
        obtain ⟨f1, f2, f3, f4, f5⟩ := ihf l hl'
        obtain ⟨g3, g4, g5⟩ := rif l hins
        refine ⟨?_, ?_, ?_, ?_, ?_⟩
        · rw [f1, ri6]
          exact famGet_famAdd_ne _ _ _ _ hLne
        · rw [f2, ri7]
          exact famGet_famAdd_ne _ _ _ _ hLne
        · rw [f3, g3]
          rfl
        · rw [f4, g4]
          rfl
        · rw [f5, g5]
          rfl
      · rw [ih4, ri4]
        rfl
      · rw [ih5, ri5]
        rfl

theorem recoverServices_spec (envName stackName : String)
    (xs : List (String × sService)) (heap : Heap) (reg : Registry)
    (hnd : (xs.map Prod.fst).Nodup) :
    ∀ vn sv, (vn, sv) ∈ xs →
      ∃ w : serviceV,
        lookupA (recoverServices envName stackName xs heap reg).1 vn
          = some w ∧
        w.System = sv.System ∧
        w.obj < (recoverServices envName stackName xs heap
          reg).2.1.length ∧
        heapGet (recoverServices envName stackName xs heap reg).2.1 w.obj
          = sv.toObject ∧
        famGet (recoverServices envName stackName xs heap
            reg).2.2.extendingTotalServiceBootstrap
            [envName, stackName, vn, formatBool sv.System, sv.Typ]
          = some ((famGet reg.extendingTotalServiceBootstrap
              [envName, stackName, vn, formatBool sv.System,
               sv.Typ]).getD 0 + Int.ofNat sv.BootstrapCount) ∧
        famGet (recoverServices envName stackName xs heap
            reg).2.2.extendingTotalServiceFailure
            [envName, stackName, vn, formatBool sv.System, sv.Typ]
          = some ((famGet reg.extendingTotalServiceFailure
              [envName, stackName, vn, formatBool sv.System,
               sv.Typ]).getD 0 + Int.ofNat sv.FailureCount) ∧
        ((sv.Instances.map Prod.fst).Nodup →
          ∀ n si, (n, si) ∈ sv.Instances →
            ∃ v : instanceV,
              lookupA w.Instances n = some v ∧
              v.System = si.System ∧
              v.StartupTime = si.StartupTime ∧
              v.obj < (recoverServices envName stackName xs heap
                reg).2.1.length ∧
              heapGet (recoverServices envName stackName xs heap reg).2.1
                v.obj = si.toObject ∧
              famGet (recoverServices envName stackName xs heap
                  reg).2.2.extendingTotalInstanceBootstrap
                  [envName, stackName, vn, n, formatBool si.System,
                   si.Typ]
                = some ((famGet reg.extendingTotalInstanceBootstrap
                    [envName, stackName, vn, n, formatBool si.System,
                     si.Typ]).getD 0 + Int.ofNat si.BootstrapCount) ∧
              famGet (recoverServices envName stackName xs heap
                  reg).2.2.extendingTotalInstanceFailure
                  [envName, stackName, vn, n, formatBool si.System,
                   si.Typ]
                = some ((famGet reg.extendingTotalInstanceFailure
                    [envName, stackName, vn, n, formatBool si.System,
                     si.Typ]).getD 0 + Int.ofNat si.FailureCount) ∧
              famGet (recoverServices envName stackName xs heap
                  reg).2.2.extendingInstanceBootstrapMsCost
                  [envName, stackName, vn, n, formatBool si.System,
                   si.Typ]
                = some (Int.ofNat si.StartupTime)) := by
  induction xs generalizing heap reg with
  | nil =>
      intro vn sv h
      simp at h
  | cons p rest ih =>
      obtain ⟨k, sk⟩ := p
      have hpair := List.nodup_cons.mp
        (show (k :: rest.map Prod.fst).Nodup from hnd)
      have hknotin : k ∉ rest.map Prod.fst := hpair.1
      have hnd' : (rest.map Prod.fst).Nodup := hpair.2
      intro vn sv hmem
      have hrec : recoverServices envName stackName ((k, sk) :: rest) heap
          reg =
          ((k, { obj := heap.length,
                 Instances := (recoverInstances envName stackName k
                   sk.Instances
                   (recoverServiceStep envName stackName k sk heap reg).1
                   (recoverServiceStep envName stackName k sk heap
                     reg).2).1,
                 System := sk.System }) ::
            (recoverServices envName stackName rest
              (recoverInstances envName stackName k sk.Instances
                (recoverServiceStep envName stackName k sk heap reg).1
                (recoverServiceStep envName stackName k sk heap reg).2).2.1
              (recoverInstances envName stackName k sk.Instances
                (recoverServiceStep envName stackName k sk heap reg).1
                (recoverServiceStep envName stackName k sk heap
                  reg).2).2.2).1,
           (recoverServices envName stackName rest
              (recoverInstances envName stackName k sk.Instances
                (recoverServiceStep envName stackName k sk heap reg).1
                (recoverServiceStep envName stackName k sk heap reg).2).2.1
              (recoverInstances envName stackName k sk.Instances
                (recoverServiceStep envName stackName k sk heap reg).1
                (recoverServiceStep envName stackName k sk heap
                  reg).2).2.2).2.1,
           (recoverServices envName stackName rest
              (recoverInstances envName stackName k sk.Instances
                (recoverServiceStep envName stackName k sk heap reg).1
                (recoverServiceStep envName stackName k sk heap reg).2).2.1
              (recoverInstances envName stackName k sk.Instances
                (recoverServiceStep envName stackName k sk heap reg).1
                (recoverServiceStep envName stackName k sk heap
                  reg).2).2.2).2.2) := rfl
      have hlen : (recoverServiceStep envName stackName k sk heap
          reg).1.length = heap.length + 1 := by
        simp [recoverServiceStep]
      obtain ⟨hi1, hi2⟩ := recoverInstances_heap_pres envName stackName k
        sk.Instances
        (recoverServiceStep envName stackName k sk heap reg).1
        (recoverServiceStep envName stackName k sk heap reg).2
      obtain ⟨rp1, rp2⟩ := recoverServices_heap_pres envName stackName rest
        (recoverInstances envName stackName k sk.Instances
          (recoverServiceStep envName stackName k sk heap reg).1
          (recoverServiceStep envName stackName k sk heap reg).2).2.1
        (recoverInstances envName stackName k sk.Instances
          (recoverServiceStep envName stackName k sk heap reg).1
          (recoverServiceStep envName stackName k sk heap reg).2).2.2
      obtain ⟨rif, ri4, ri5, ri6, ri7⟩ := recoverInstances_frame envName
        stackName k sk.Instances
        (recoverServiceStep envName stackName k sk heap reg).1
        (recoverServiceStep envName stackName k sk heap reg).2
      rcases List.mem_cons.mp hmem with heq | hmem'
      · injection heq with hn hsi
        subst hn
        subst hsi
        have hfrS := (recoverServices_frame envName stackName rest
          (recoverInstances envName stackName vn sv.Instances
            (recoverServiceStep envName stackName vn sv heap reg).1
            (recoverServiceStep envName stackName vn sv heap reg).2).2.1
          (recoverInstances envName stackName vn sv.Instances
            (recoverServiceStep envName stackName vn sv heap reg).1
            (recoverServiceStep envName stackName vn sv heap reg).2).2.2).1
        have hrest2 : ∀ (l : Labels), l.get? 2 = some vn →
            ∀ p ∈ rest, l.get? 2 ≠ some p.1 := by
          intro l hl p hp hc
          rw [hl] at hc
          have hpk : p.1 = vn := by simpa using hc.symm
          exact hknotin (hpk ▸ List.mem_map_of_mem Prod.fst hp)
        refine ⟨{ obj := heap.length,
                  Instances := (recoverInstances envName stackName vn
                    sv.Instances
                    (recoverServiceStep envName stackName vn sv heap reg).1
                    (recoverServiceStep envName stackName vn sv heap
                      reg).2).1,
                  System := sv.System }, ?_, rfl, ?_, ?_, ?_, ?_, ?_⟩
        · rw [hrec]
          simp [lookupA]
        · rw [hrec]
          dsimp only
          omega
        · rw [hrec]
          dsimp only
          rw [rp2 heap.length (by omega), hi2 heap.length (by omega)]
          show heapGet (heap ++ [sv.toObject]) heap.length = sv.toObject
          exact heapGet_append_len _ _ _
        · rw [hrec]
          dsimp only
          rw [(hfrS [envName, stackName, vn, formatBool sv.System, sv.Typ]
            (Or.inr (hrest2 _ rfl))).1, ri6]
          exact famGet_famAdd_self _ _ _
        · rw [hrec]
          dsimp only
          rw [(hfrS [envName, stackName, vn, formatBool sv.System, sv.Typ]
            (Or.inr (hrest2 _ rfl))).2.1, ri7]
          exact famGet_famAdd_self _ _ _
        · intro hndI n si hmemI
          obtain ⟨v, iv1, iv2, iv3, iv4, iv5, iv6, iv7, iv8⟩ :=
            recoverInstances_spec envName stackName vn sv.Instances
              (recoverServiceStep envName stackName vn sv heap reg).1
              (recoverServiceStep envName stackName vn sv heap reg).2
              hndI n si hmemI
          refine ⟨v, iv1, iv2, iv3, ?_, ?_, ?_, ?_, ?_⟩
          · rw [hrec]
            dsimp only
            omega
          · rw [hrec]
            dsimp only
            rw [rp2 v.obj iv4]
            exact iv5
          · rw [hrec]
            dsimp only
            rw [(hfrS [envName, stackName, vn, n, formatBool si.System,
              si.Typ] (Or.inr (hrest2 _ rfl))).2.2.1]
            exact iv6
          · rw [hrec]
            dsimp only
            rw [(hfrS [envName, stackName, vn, n, formatBool si.System,
              si.Typ] (Or.inr (hrest2 _ rfl))).2.2.2.1]
            exact iv7
          · rw [hrec]
            dsimp only
            rw [(hfrS [envName, stackName, vn, n, formatBool si.System,
              si.Typ] (Or.inr (hrest2 _ rfl))).2.2.2.2]
            exact iv8
      · have hkn : k ≠ vn := by
          intro hh
          subst hh
          exact hknotin (List.mem_map_of_mem Prod.fst hmem')
        obtain ⟨w, hw1, hw2, hw3, hw4, hw5, hw6, hw7⟩ := ih
          (recoverInstances envName stackName k sk.Instances
            (recoverServiceStep envName stackName k sk heap reg).1
            (recoverServiceStep envName stackName k sk heap reg).2).2.1
          (recoverInstances envName stackName k sk.Instances
            (recoverServiceStep envName stackName k sk heap reg).1
            (recoverServiceStep envName stackName k sk heap reg).2).2.2
          hnd' vn sv hmem'
        have hLsvc : ([envName, stackName, k, formatBool sk.System,
            sk.Typ] : Labels) ≠
            [envName, stackName, vn, formatBool sv.System, sv.Typ] := by
          intro heq
          simp only [List.cons.injEq] at heq
          exact hkn heq.2.2.1
        have htB : famGet (recoverInstances envName stackName k
            sk.Instances
            (recoverServiceStep envName stackName k sk heap reg).1
            (recoverServiceStep envName stackName k sk heap
              reg).2).2.2.extendingTotalServiceBootstrap
            [envName, stackName, vn, formatBool sv.System, sv.Typ]
            = famGet reg.extendingTotalServiceBootstrap
            [envName, stackName, vn, formatBool sv.System, sv.Typ] := by
          rw [ri6]
          exact famGet_famAdd_ne _ _ _ _ hLsvc
        have htF : famGet (recoverInstances envName stackName k
            sk.Instances
            (recoverServiceStep envName stackName k sk heap reg).1
            (recoverServiceStep envName stackName k sk heap
              reg).2).2.2.extendingTotalServiceFailure
            [envName, stackName, vn, formatBool sv.System, sv.Typ]
            = famGet reg.extendingTotalServiceFailure
            [envName, stackName, vn, formatBool sv.System, sv.Typ] := by
          rw [ri7]
          exact famGet_famAdd_ne _ _ _ _ hLsvc
        rw [htB] at hw5
        rw [htF] at hw6
        refine ⟨w, ?_, hw2, ?_, ?_, ?_, ?_, ?_⟩
        · rw [hrec]
          simpa [lookupA, hkn] using hw1
        · rw [hrec]
          dsimp only
          exact hw3
        · rw [hrec]
          dsimp only
          exact hw4
        · rw [hrec]
          dsimp only
          exact hw5
        · rw [hrec]
          dsimp only
          exact hw6
        · intro hndI n si hmemI
          obtain ⟨v, iv1, iv2, iv3, iv4, iv5, iv6, iv7, iv8⟩ :=
            hw7 hndI n si hmemI
          have hIfr := rif
            [envName, stackName, vn, n, formatBool si.System, si.Typ]
            (Or.inr (Or.inl (by
              intro hc
              have : vn = k := by simpa using hc
              exact hkn this.symm)))
          rw [hIfr.1] at iv6
          rw [hIfr.2.1] at iv7
          refine ⟨v, iv1, iv2, iv3, ?_, ?_, ?_, ?_, ?_⟩
          · rw [hrec]
            dsimp only
            exact iv4
          · rw [hrec]
            dsimp only
            exact iv5
          · rw [hrec]
            dsimp only
            exact iv6
          · rw [hrec]
            dsimp only
            exact iv7
          · rw [hrec]
            dsimp only
            exact iv8

theorem recoverStacks_heap_pres (envName : String)
    (xs : List (String × sStack)) (proStacks : List (String × stackV))
    (heap : Heap) (reg : Registry) :
    heap.length ≤
      (recoverStacks envName xs proStacks heap reg).2.1.length ∧
    ∀ a, a < heap.length →
      heapGet (recoverStacks envName xs proStacks heap reg).2.1 a
        = heapGet heap a := by
  induction xs generalizing proStacks heap reg with
  | nil => exact ⟨le_refl _, fun a _ => rfl⟩
  | cons p rest ih =>
      obtain ⟨k, sk⟩ := p
      have hrec : recoverStacks envName ((k, sk) :: rest) proStacks heap
          reg =
          recoverStacks envName rest
            (insertA proStacks k
              { obj := heap.length,
                Services := (recoverServices envName k sk.Services
                  (recoverStackStep envName k sk heap reg).1
                  (recoverStackStep envName k sk heap reg).2).1,
                System := sk.System })
            (recoverServices envName k sk.Services
              (recoverStackStep envName k sk heap reg).1
              (recoverStackStep envName k sk heap reg).2).2.1
            (recoverServices envName k sk.Services
              (recoverStackStep envName k sk heap reg).1
              (recoverStackStep envName k sk heap reg).2).2.2 := rfl
      rw [hrec]
      have hlen : (recoverStackStep envName k sk heap reg).1.length
          = heap.length + 1 := by
        simp [recoverStackStep]
      obtain ⟨hs1, hs2⟩ := recoverServices_heap_pres envName k sk.Services
        (recoverStackStep envName k sk heap reg).1
        (recoverStackStep envName k sk heap reg).2
      obtain ⟨ih1, ih2⟩ := ih
        (insertA proStacks k
          { obj := heap.length,
            Services := (recoverServices envName k sk.Services
              (recoverStackStep envName k sk heap reg).1
              (recoverStackStep envName k sk heap reg).2).1,
            System := sk.System })
        (recoverServices envName k sk.Services
          (recoverStackStep envName k sk heap reg).1
          (recoverStackStep envName k sk heap reg).2).2.1
        (recoverServices envName k sk.Services
          (recoverStackStep envName k sk heap reg).1
          (recoverStackStep envName k sk heap reg).2).2.2
      constructor
      · omega
      · intro a ha
        rw [ih2 a (by omega), hs2 a (by omega)]
        show heapGet (heap ++ [sk.toObject]) a = heapGet heap a
        exact heapGet_append_lt _ _ _ ha

theorem recoverStacks_lookup_pres (envName : String)
    (xs : List (String × sStack)) (proStacks : List (String × stackV))
    (heap : Heap) (reg : Registry) (n : String)
    (hn : n ∉ xs.map Prod.fst) :
    lookupA (recoverStacks envName xs proStacks heap reg).1 n
      = lookupA proStacks n := by
  induction xs generalizing proStacks heap reg with
  | nil => rfl
  | cons p rest ih =>
      obtain ⟨k, sk⟩ := p
      have hkn : k ≠ n := by
        intro hh
        exact hn (hh ▸ List.mem_cons_self _ _)
      have hn' : n ∉ rest.map Prod.fst :=
        fun hh => hn (List.mem_cons_of_mem _ hh)
      have hrec : recoverStacks envName ((k, sk) :: rest) proStacks heap
          reg =
          recoverStacks envName rest
            (insertA proStacks k
              { obj := heap.length,
                Services := (recoverServices envName k sk.Services
                  (recoverStackStep envName k sk heap reg).1
                  (recoverStackStep envName k sk heap reg).2).1,
                System := sk.System })
            (recoverServices envName k sk.Services
              (recoverStackStep envName k sk heap reg).1
              (recoverStackStep envName k sk heap reg).2).2.1
            (recoverServices envName k sk.Services
              (recoverStackStep envName k sk heap reg).1
              (recoverStackStep envName k sk heap reg).2).2.2 := rfl
      rw [hrec, ih _ _ _ hn', lookupA_insertA_ne _ _ _ _ hkn]

theorem recoverStacks_frame (envName : String)
    (xs : List (String × sStack)) (proStacks : List (String × stackV))
    (heap : Heap) (reg : Registry) :
    ∀ l : Labels, (∀ p ∈ xs, l.get? 1 ≠ some p.1) →
      famGet (recoverStacks envName xs proStacks heap
          reg).2.2.extendingTotalStackBootstrap l
        = famGet reg.extendingTotalStackBootstrap l ∧
      famGet (recoverStacks envName xs proStacks heap
          reg).2.2.extendingTotalStackFailure l
        = famGet reg.extendingTotalStackFailure l ∧
      famGet (recoverStacks envName xs proStacks heap
          reg).2.2.extendingTotalServiceBootstrap l
        = famGet reg.extendingTotalServiceBootstrap l ∧
      famGet (recoverStacks envName xs proStacks heap
          reg).2.2.extendingTotalServiceFailure l
        = famGet reg.extendingTotalServiceFailure l ∧
      famGet (recoverStacks envName xs proStacks heap
          reg).2.2.extendingTotalInstanceBootstrap l
        = famGet reg.extendingTotalInstanceBootstrap l ∧
      famGet (recoverStacks envName xs proStacks heap
          reg).2.2.extendingTotalInstanceFailure l
        = famGet reg.extendingTotalInstanceFailure l ∧
      famGet (recoverStacks envName xs proStacks heap
          reg).2.2.extendingInstanceBootstrapMsCost l
        = famGet reg.extendingInstanceBootstrapMsCost l := by
  induction xs generalizing proStacks heap reg with
  | nil => exact fun l _ => ⟨rfl, rfl, rfl, rfl, rfl, rfl, rfl⟩
  | cons p rest ih =>
      obtain ⟨k, sk⟩ := p
      intro l hl
      have hrec : recoverStacks envName ((k, sk) :: rest) proStacks heap
          reg =
          recoverStacks envName rest
            (insertA proStacks k
              { obj := heap.length,
                Services := (recoverServices envName k sk.Services
                  (recoverStackStep envName k sk heap reg).1
                  (recoverStackStep envName k sk heap reg).2).1,
                System := sk.System })
            (recoverServices envName k sk.Services
              (recoverStackStep envName k sk heap reg).1
              (recoverStackStep envName k sk heap reg).2).2.1
            (recoverServices envName k sk.Services
              (recoverStackStep envName k sk heap reg).1
              (recoverStackStep envName k sk heap reg).2).2.2 := rfl
      rw [hrec]
      have hLne : ([envName, k, formatBool sk.System, sk.Typ] : Labels)
          ≠ l := by
        intro heq
        exact hl (k, sk) (List.mem_cons_self _ _) (heq ▸ rfl)
      have hget1 : l.get? 1 ≠ some k :=
        hl (k, sk) (List.mem_cons_self _ _)
      obtain ⟨sf, s4, s5⟩ := recoverServices_frame envName k sk.Services
        (recoverStackStep envName k sk heap reg).1
        (recoverStackStep envName k sk heap reg).2
      obtain ⟨g1, g2, g3, g4, g5⟩ := sf l (Or.inl hget1)
      obtain ⟨f1, f2, f3, f4, f5, f6, f7⟩ := ih
        (insertA proStacks k
          { obj := heap.length,
            Services := (recoverServices envName k sk.Services
              (recoverStackStep envName k sk heap reg).1
              (recoverStackStep envName k sk heap reg).2).1,
            System := sk.System })
        (recoverServices envName k sk.Services
          (recoverStackStep envName k sk heap reg).1
          (recoverStackStep envName k sk heap reg).2).2.1
        (recoverServices envName k sk.Services
          (recoverStackStep envName k sk heap reg).1
          (recoverStackStep envName k sk heap reg).2).2.2
        l (fun p hp => hl p (List.mem_cons_of_mem _ hp))
      refine ⟨?_, ?_, ?_, ?_, ?_, ?_, ?_⟩
      · rw [f1, s4]
        exact famGet_famAdd_ne _ _ _ _ hLne
      · rw [f2, s5]
        exact famGet_famAdd_ne _ _ _ _ hLne
      · rw [f3, g1]
        rfl
      · rw [f4, g2]
        rfl
      · rw [f5, g3]
        rfl
      · rw [f6, g4]
        rfl
      · rw [f7, g5]
        rfl

theorem recoverStacks_spec (envName : String)
    (xs : List (String × sStack)) (proStacks : List (String × stackV))
    (heap : Heap) (reg : Registry)
    (hnd : (xs.map Prod.fst).Nodup) :
    ∀ sn st, (sn, st) ∈ xs →
      ∃ u : stackV,
        lookupA (recoverStacks envName xs proStacks heap reg).1 sn
          = some u ∧
        u.System = st.System ∧
        u.obj < (recoverStacks envName xs proStacks heap reg).2.1.length ∧
        heapGet (recoverStacks envName xs proStacks heap reg).2.1 u.obj
          = st.toObject ∧
        famGet (recoverStacks envName xs proStacks heap
            reg).2.2.extendingTotalStackBootstrap
            [envName, sn, formatBool st.System, st.Typ]
          = some ((famGet reg.extendingTotalStackBootstrap
              [envName, sn, formatBool st.System, st.Typ]).getD 0
              + Int.ofNat st.BootstrapCount) ∧
        famGet (recoverStacks envName xs proStacks heap
            reg).2.2.extendingTotalStackFailure
            [envName, sn, formatBool st.System, st.Typ]
          = some ((famGet reg.extendingTotalStackFailure
              [envName, sn, formatBool st.System, st.Typ]).getD 0
              + Int.ofNat st.FailureCount) ∧
        ((st.Services.map Prod.fst).Nodup →
          ∀ vn sv, (vn, sv) ∈ st.Services →
            ∃ w : serviceV,
              lookupA u.Services vn = some w ∧
              w.System = sv.System ∧
              w.obj < (recoverStacks envName xs proStacks heap
                reg).2.1.length ∧
              heapGet (recoverStacks envName xs proStacks heap reg).2.1
                w.obj = sv.toObject ∧
              famGet (recoverStacks envName xs proStacks heap
                  reg).2.2.extendingTotalServiceBootstrap
                  [envName, sn, vn, formatBool sv.System, sv.Typ]
                = some ((famGet reg.extendingTotalServiceBootstrap
                    [envName, sn, vn, formatBool sv.System,
                     sv.Typ]).getD 0 + Int.ofNat sv.BootstrapCount) ∧
              famGet (recoverStacks envName xs proStacks heap
                  reg).2.2.extendingTotalServiceFailure
                  [envName, sn, vn, formatBool sv.System, sv.Typ]
                = some ((famGet reg.extendingTotalServiceFailure
                    [envName, sn, vn, formatBool sv.System,
                     sv.Typ]).getD 0 + Int.ofNat sv.FailureCount) ∧
              ((sv.Instances.map Prod.fst).Nodup →
                ∀ n si, (n, si) ∈ sv.Instances →
                  ∃ v : instanceV,
                    lookupA w.Instances n = some v ∧
                    v.System = si.System ∧
                    v.StartupTime = si.StartupTime ∧
                    v.obj < (recoverStacks envName xs proStacks heap
                      reg).2.1.length ∧
                    heapGet (recoverStacks envName xs proStacks heap
                      reg).2.1 v.obj = si.toObject ∧
                    famGet (recoverStacks envName xs proStacks heap
                        reg).2.2.extendingTotalInstanceBootstrap
                        [envName, sn, vn, n, formatBool si.System,
                         si.Typ]
                      = some ((famGet reg.extendingTotalInstanceBootstrap
                          [envName, sn, vn, n, formatBool si.System,
                           si.Typ]).getD 0
                          + Int.ofNat si.BootstrapCount) ∧
                    famGet (recoverStacks envName xs proStacks heap
                        reg).2.2.extendingTotalInstanceFailure
                        [envName, sn, vn, n, formatBool si.System,
                         si.Typ]
                      = some ((famGet reg.extendingTotalInstanceFailure
                          [envName, sn, vn, n, formatBool si.System,
                           si.Typ]).getD 0
                          + Int.ofNat si.FailureCount) ∧
                    famGet (recoverStacks envName xs proStacks heap
                        reg).2.2.extendingInstanceBootstrapMsCost
                        [envName, sn, vn, n, formatBool si.System,
                         si.Typ]
                      = some (Int.ofNat si.StartupTime))) := by
  induction xs generalizing proStacks heap reg with
  | nil =>
      intro sn st h
      simp at h
  | cons p rest ih =>
      obtain ⟨k, sk⟩ := p
      have hpair := List.nodup_cons.mp
        (show (k :: rest.map Prod.fst).Nodup from hnd)
      have hknotin : k ∉ rest.map Prod.fst := hpair.1
      have hnd' : (rest.map Prod.fst).Nodup := hpair.2
      intro sn st hmem
      have hrec : recoverStacks envName ((k, sk) :: rest) proStacks heap
          reg =
          recoverStacks envName rest
            (insertA proStacks k
              { obj := heap.length,
                Services := (recoverServices envName k sk.Services
                  (recoverStackStep envName k sk heap reg).1
                  (recoverStackStep envName k sk heap reg).2).1,
                System := sk.System })
            (recoverServices envName k sk.Services
              (recoverStackStep envName k sk heap reg).1
              (recoverStackStep envName k sk heap reg).2).2.1
            (recoverServices envName k sk.Services
              (recoverStackStep envName k sk heap reg).1
              (recoverStackStep envName k sk heap reg).2).2.2 := rfl
      have hlen : (recoverStackStep envName k sk heap reg).1.length
          = heap.length + 1 := by
        simp [recoverStackStep]
      obtain ⟨ss1, ss2⟩ := recoverServices_heap_pres envName k sk.Services
        (recoverStackStep envName k sk heap reg).1
        (recoverStackStep envName k sk heap reg).2
      obtain ⟨svf, sv4, sv5⟩ := recoverServices_frame envName k sk.Services
        (recoverStackStep envName k sk heap reg).1
        (recoverStackStep envName k sk heap reg).2
      obtain ⟨sp1, sp2⟩ := recoverStacks_heap_pres envName rest
        (insertA proStacks k
          { obj := heap.length,
            Services := (recoverServices envName k sk.Services
              (recoverStackStep envName k sk heap reg).1
              (recoverStackStep envName k sk heap reg).2).1,
            System := sk.System })
        (recoverServices envName k sk.Services
          (recoverStackStep envName k sk heap reg).1
          (recoverStackStep envName k sk heap reg).2).2.1
        (recoverServices envName k sk.Services
          (recoverStackStep envName k sk heap reg).1
          (recoverStackStep envName k sk heap reg).2).2.2
      rcases List.mem_cons.mp hmem with heq | hmem'
      · injection heq with hn hsi
        subst hn
        subst hsi
        have stf := recoverStacks_frame envName rest
          (insertA proStacks sn
            { obj := heap.length,
              Services := (recoverServices envName sn st.Services
                (recoverStackStep envName sn st heap reg).1
                (recoverStackStep envName sn st heap reg).2).1,
              System := st.System })
          (recoverServices envName sn st.Services
            (recoverStackStep envName sn st heap reg).1
            (recoverStackStep envName sn st heap reg).2).2.1
          (recoverServices envName sn st.Services
            (recoverStackStep envName sn st heap reg).1
            (recoverStackStep envName sn st heap reg).2).2.2
        have hrest1 : ∀ (l : Labels), l.get? 1 = some sn →
            ∀ p ∈ rest, l.get? 1 ≠ some p.1 := by
          intro l hl p hp hc
          rw [hl] at hc
          have hpk : p.1 = sn := by simpa using hc.symm
          exact hknotin (hpk ▸ List.mem_map_of_mem Prod.fst hp)
        refine ⟨{ obj := heap.length,
                  Services := (recoverServices envName sn st.Services
                    (recoverStackStep envName sn st heap reg).1
                    (recoverStackStep envName sn st heap reg).2).1,
                  System := st.System }, ?_, rfl, ?_, ?_, ?_, ?_, ?_⟩
        · rw [hrec,
            recoverStacks_lookup_pres envName rest _ _ _ sn hknotin]
          exact lookupA_insertA_self _ _ _
        · rw [hrec]
          dsimp only
          omega
        · rw [hrec]
          dsimp only
          rw [sp2 heap.length (by omega), ss2 heap.length (by omega)]
          show heapGet (heap ++ [st.toObject]) heap.length = st.toObject
          exact heapGet_append_len _ _ _
        · rw [hrec]
          rw [(stf [envName, sn, formatBool st.System, st.Typ]
            (hrest1 _ rfl)).1, sv4]
          exact famGet_famAdd_self _ _ _
        · rw [hrec]
          rw [(stf [envName, sn, formatBool st.System, st.Typ]
            (hrest1 _ rfl)).2.1, sv5]
          exact famGet_famAdd_self _ _ _
        · intro hndS vn sv hmemS
          obtain ⟨w, sw1, sw2, sw3, sw4, sw5, sw6, sw7⟩ :=
            recoverServices_spec envName sn st.Services
              (recoverStackStep envName sn st heap reg).1
              (recoverStackStep envName sn st heap reg).2 hndS vn sv hmemS
          refine ⟨w, sw1, sw2, ?_, ?_, ?_, ?_, ?_⟩
          · rw [hrec]
            omega
          · rw [hrec]
            rw [sp2 w.obj sw3]
            exact sw4
          · rw [hrec]
            rw [(stf [envName, sn, vn, formatBool sv.System, sv.Typ]
              (hrest1 _ rfl)).2.2.1]
            exact sw5
          · rw [hrec]
            rw [(stf [envName, sn, vn, formatBool sv.System, sv.Typ]
              (hrest1 _ rfl)).2.2.2.1]
            exact sw6
          · intro hndI n si hmemI
            obtain ⟨v, iv1, iv2, iv3, iv4, iv5, iv6, iv7, iv8⟩ :=
              sw7 hndI n si hmemI
            refine ⟨v, iv1, iv2, iv3, ?_, ?_, ?_, ?_, ?_⟩
            · rw [hrec]
              omega
            · rw [hrec]
              rw [sp2 v.obj iv4]
              exact iv5
            · rw [hrec]
              rw [(stf [envName, sn, vn, n, formatBool si.System, si.Typ]
                (hrest1 _ rfl)).2.2.2.2.1]
              exact iv6
            · rw [hrec]
              rw [(stf [envName, sn, vn, n, formatBool si.System, si.Typ]
                (hrest1 _ rfl)).2.2.2.2.2.1]
              exact iv7
            · rw [hrec]
              rw [(stf [envName, sn, vn, n, formatBool si.System, si.Typ]
                (hrest1 _ rfl)).2.2.2.2.2.2]
              exact iv8
      · have hkn : k ≠ sn := by
          intro hh
          subst hh
          exact hknotin (List.mem_map_of_mem Prod.fst hmem')
        have hL1ne : ([envName, k, formatBool sk.System, sk.Typ] : Labels)
            ≠ [envName, sn, formatBool st.System, st.Typ] := by
          intro heq
          simp only [List.cons.injEq] at heq
          exact hkn heq.2.1
        have hget1 : ∀ (l : Labels), l.get? 1 = some sn →
            l.get? 1 ≠ some k := by
          intro l hl hc
          rw [hl] at hc
          exact hkn (by simpa using hc.symm)
        obtain ⟨u, hu1, hu2, hu3, hu4, hu5, hu6, hu7⟩ := ih
          (insertA proStacks k
            { obj := heap.length,
              Services := (recoverServices envName k sk.Services
                (recoverStackStep envName k sk heap reg).1
                (recoverStackStep envName k sk heap reg).2).1,
              System := sk.System })
          (recoverServices envName k sk.Services
            (recoverStackStep envName k sk heap reg).1
            (recoverStackStep envName k sk heap reg).2).2.1
          (recoverServices envName k sk.Services
            (recoverStackStep envName k sk heap reg).1
            (recoverStackStep envName k sk heap reg).2).2.2
          hnd' sn st hmem'
        have htSB : famGet (recoverServices envName k sk.Services
            (recoverStackStep envName k sk heap reg).1
            (recoverStackStep envName k sk heap
              reg).2).2.2.extendingTotalStackBootstrap
            [envName, sn, formatBool st.System, st.Typ]
            = famGet reg.extendingTotalStackBootstrap
            [envName, sn, formatBool st.System, st.Typ] := by
          rw [sv4]
          exact famGet_famAdd_ne _ _ _ _ hL1ne
        have htSF : famGet (recoverServices envName k sk.Services
            (recoverStackStep envName k sk heap reg).1
            (recoverStackStep envName k sk heap
              reg).2).2.2.extendingTotalStackFailure
            [envName, sn, formatBool st.System, st.Typ]
            = famGet reg.extendingTotalStackFailure
            [envName, sn, formatBool st.System, st.Typ] := by
          rw [sv5]
          exact famGet_famAdd_ne _ _ _ _ hL1ne
        rw [htSB] at hu5
        rw [htSF] at hu6
        refine ⟨u, ?_, hu2, ?_, ?_, ?_, ?_, ?_⟩
        · rw [hrec]
          exact hu1
        · rw [hrec]
          exact hu3
        · rw [hrec]
          exact hu4
        · rw [hrec]
          exact hu5
        · rw [hrec]
          exact hu6
        · intro hndS vn sv hmemS
          obtain ⟨w, hw1, hw2, hw3, hw4, hw5, hw6, hw7⟩ :=
            hu7 hndS vn sv hmemS
          have hsvB := (svf [envName, sn, vn, formatBool sv.System, sv.Typ]
            (Or.inl (hget1 _ rfl))).1
          have hsvF := (svf [envName, sn, vn, formatBool sv.System, sv.Typ]
            (Or.inl (hget1 _ rfl))).2.1
          rw [hsvB] at hw5
          rw [hsvF] at hw6
          refine ⟨w, hw1, hw2, ?_, ?_, ?_, ?_, ?_⟩
          · rw [hrec]
            exact hw3
          · rw [hrec]
            exact hw4
          · rw [hrec]
            exact hw5
          · rw [hrec]
            exact hw6
          · intro hndI n si hmemI
            obtain ⟨v, iv1, iv2, iv3, iv4, iv5, iv6, iv7, iv8⟩ :=
              hw7 hndI n si hmemI
            have hiB := (svf [envName, sn, vn, n, formatBool si.System,
              si.Typ] (Or.inl (hget1 _ rfl))).2.2.1
            have hiF := (svf [envName, sn, vn, n, formatBool si.System,
              si.Typ] (Or.inl (hget1 _ rfl))).2.2.2.1
            rw [hiB] at iv6
            rw [hiF] at iv7
            refine ⟨v, iv1, iv2, iv3, ?_, ?_, ?_, ?_, ?_⟩
            · rw [hrec]
              exact iv4
            · rw [hrec]
              exact iv5
            · rw [hrec]
              exact iv6
            · rw [hrec]
              exact iv7
            · rw [hrec]
              exact iv8

/-- C8: during startup recovery, for each project whose generic-object
query returns a non-empty list whose last entry carries a resourceData,
that last entry is the one deserialised, and every stack, service and
instance stored in it is rehydrated into the model under its name (with
its `object` allocated and holding the stored fields), each
corresponding cumulative counter series is increased by exactly the
stored bootstrapCount and failureCount (so it equals its previous value
plus the stored count, hence is at least the pre-restart value), and
each instance's startup-ms gauge is set to the stored StartupTime.
The per-level name-uniqueness assumptions reflect that the checkpoint
was serialised from Go maps keyed by name. -/
theorem claim8_recovery_seeds_model (envName : String)
    (proStacks : List (String × stackV)) (heap : Heap) (reg : Registry)
    (data : List targetData) (dl : targetData) (sp : sProject)
    (hlast : data.getLast? = some dl)
    (hres : dl.ResourceData = some sp)
    (hnd : (sp.Stacks.map Prod.fst).Nodup) :
    recoverSelect data = some sp ∧
    ∀ sn st, (sn, st) ∈ sp.Stacks →
      ∃ u : stackV,
        lookupA (recoverProject envName proStacks heap reg data).1 sn
          = some u ∧
        u.System = st.System ∧
        u.obj < (recoverProject envName proStacks heap reg
          data).2.1.length ∧
        heapGet (recoverProject envName proStacks heap reg data).2.1 u.obj
          = st.toObject ∧
        famGet (recoverProject envName proStacks heap reg
            data).2.2.extendingTotalStackBootstrap
            [envName, sn, formatBool st.System, st.Typ]
          = some ((famGet reg.extendingTotalStackBootstrap
              [envName, sn, formatBool st.System, st.Typ]).getD 0
              + Int.ofNat st.BootstrapCount) ∧
        famGet (recoverProject envName proStacks heap reg
            data).2.2.extendingTotalStackFailure
            [envName, sn, formatBool st.System, st.Typ]
          = some ((famGet reg.extendingTotalStackFailure
              [envName, sn, formatBool st.System, st.Typ]).getD 0
              + Int.ofNat st.FailureCount) ∧
        ((st.Services.map Prod.fst).Nodup →
          ∀ vn sv, (vn, sv) ∈ st.Services →
            ∃ w : serviceV,
              lookupA u.Services vn = some w ∧
              w.System = sv.System ∧
              w.obj < (recoverProject envName proStacks heap reg
                data).2.1.length ∧
              heapGet (recoverProject envName proStacks heap reg
                data).2.1 w.obj = sv.toObject ∧
              famGet (recoverProject envName proStacks heap reg
                  data).2.2.extendingTotalServiceBootstrap
                  [envName, sn, vn, formatBool sv.System, sv.Typ]
                = some ((famGet reg.extendingTotalServiceBootstrap
                    [envName, sn, vn, formatBool sv.System,
                     sv.Typ]).getD 0 + Int.ofNat sv.BootstrapCount) ∧
              famGet (recoverProject envName proStacks heap reg
                  data).2.2.extendingTotalServiceFailure
                  [envName, sn, vn, formatBool sv.System, sv.Typ]
                = some ((famGet reg.extendingTotalServiceFailure
                    [envName, sn, vn, formatBool sv.System,
                     sv.Typ]).getD 0 + Int.ofNat sv.FailureCount) ∧
              ((sv.Instances.map Prod.fst).Nodup →
                ∀ n si, (n, si) ∈ sv.Instances →
                  ∃ v : instanceV,
                    lookupA w.Instances n = some v ∧
                    v.System = si.System ∧
                    v.StartupTime = si.StartupTime ∧
                    v.obj < (recoverProject envName proStacks heap reg
                      data).2.1.length ∧
                    heapGet (recoverProject envName proStacks heap reg
                      data).2.1 v.obj = si.toObject ∧
                    famGet (recoverProject envName proStacks heap reg
                        data).2.2.extendingTotalInstanceBootstrap
                        [envName, sn, vn, n, formatBool si.System,
                         si.Typ]
                      = some ((famGet reg.extendingTotalInstanceBootstrap
                          [envName, sn, vn, n, formatBool si.System,
                           si.Typ]).getD 0
                          + Int.ofNat si.BootstrapCount) ∧
                    famGet (recoverProject envName proStacks heap reg
                        data).2.2.extendingTotalInstanceFailure
                        [envName, sn, vn, n, formatBool si.System,
                         si.Typ]
                      = some ((famGet reg.extendingTotalInstanceFailure
                          [envName, sn, vn, n, formatBool si.System,
                           si.Typ]).getD 0
                          + Int.ofNat si.FailureCount) ∧
                    famGet (recoverProject envName proStacks heap reg
                        data).2.2.extendingInstanceBootstrapMsCost
                        [envName, sn, vn, n, formatBool si.System,
                         si.Typ]
                      = some (Int.ofNat si.StartupTime))) := by
  have hsel : recoverSelect data = some sp := by
    simp [recoverSelect, hlast, hres]
  have hpro : recoverProject envName proStacks heap reg data
      = recoverStacks envName sp.Stacks proStacks heap reg := by
    simp [recoverProject, hsel]
  refine ⟨hsel, ?_⟩
  simp only [hpro]
  exact recoverStacks_spec envName sp.Stacks proStacks heap reg hnd

/-- A checkpointed instance for the C8 witness. -/
def witC8i : sInstance :=
  { Id := "1i1", Name := "web-0", State := "running", Typ := "container",
    BootstrapCount := 3, FailureCount := 1, System := false,
    StartupTime := 250 }

/-- A checkpointed service for the C8 witness. -/
def witC8sv : sService :=
  { Id := "1s1", Name := "web", State := "active", Typ := "service",
    BootstrapCount := 2, FailureCount := 0, System := false,
    Instances := [("web-0", witC8i)] }

/-- A checkpointed stack for the C8 witness. -/
def witC8st : sStack :=
  { Id := "1st1", Name := "front", State := "active", Typ := "stack",
    BootstrapCount := 1, FailureCount := 0, System := false,
    Services := [("web", witC8sv)] }

/-- A checkpointed project for the C8 witness. -/
def witC8sp : sProject :=
  { Id := "1a1", Name := "env", State := "active", Typ := "project",
    BootstrapCount := 0, FailureCount := 0,
    Stacks := [("front", witC8st)] }

/-- The generic-object row holding the C8 witness checkpoint. -/
def witC8d : targetData :=
  { targetData.zero with ResourceData := some witC8sp }

/-- Witness for C8: recovering one concrete single-entry checkpoint into
an empty model rehydrates the stack, service and instance under their
names, stores their objects, seeds the three bootstrap counters at 1, 2
and 3, the instance failure counter at 1, and the startup-ms gauge at
250. -/
theorem claim8_recovery_seeds_model_witness :
    recoverSelect [witC8d] = some witC8sp ∧
    ∃ u : stackV, ∃ w : serviceV, ∃ v : instanceV,
      lookupA (recoverProject "env" [] [] Registry.empty
        [witC8d]).1 "front" = some u ∧
      lookupA u.Services "web" = some w ∧
      lookupA w.Instances "web-0" = some v ∧
      heapGet (recoverProject "env" [] [] Registry.empty [witC8d]).2.1
        u.obj = witC8st.toObject ∧
      heapGet (recoverProject "env" [] [] Registry.empty [witC8d]).2.1
        w.obj = witC8sv.toObject ∧
      heapGet (recoverProject "env" [] [] Registry.empty [witC8d]).2.1
        v.obj = witC8i.toObject ∧
      famGet (recoverProject "env" [] [] Registry.empty
          [witC8d]).2.2.extendingTotalStackBootstrap
          ["env", "front", "false", "stack"] = some 1 ∧
      famGet (recoverProject "env" [] [] Registry.empty
          [witC8d]).2.2.extendingTotalServiceBootstrap
          ["env", "front", "web", "false", "service"] = some 2 ∧
      famGet (recoverProject "env" [] [] Registry.empty
          [witC8d]).2.2.extendingTotalInstanceBootstrap
          ["env", "front", "web", "web-0", "false", "container"]
        = some 3 ∧
      famGet (recoverProject "env" [] [] Registry.empty
          [witC8d]).2.2.extendingTotalInstanceFailure
          ["env", "front", "web", "web-0", "false", "container"]
        = some 1 ∧
      famGet (recoverProject "env" [] [] Registry.empty
          [witC8d]).2.2.extendingInstanceBootstrapMsCost
          ["env", "front", "web", "web-0", "false", "container"]
        = some 250 := by
  obtain ⟨hsel, hall⟩ := claim8_recovery_seeds_model "env" [] []
    Registry.empty [witC8d] witC8d witC8sp rfl rfl (by decide)
  obtain ⟨u, hu1, hu2, hu3, hu4, hu5, hu6, hu7⟩ :=
    hall "front" witC8st (by simp [witC8sp])
  obtain ⟨w, hw1, hw2, hw3, hw4, hw5, hw6, hw7⟩ :=
    hu7 (by simp [witC8st]) "web" witC8sv (by simp [witC8st])
  obtain ⟨v, iv1, iv2, iv3, iv4, iv5, iv6, iv7, iv8⟩ :=
    hw7 (by simp [witC8sv]) "web-0" witC8i (by simp [witC8sv])
  refine ⟨hsel, u, w, v, hu1, hw1, iv1, hu4, hw4, iv5,
    ?_, ?_, ?_, ?_, ?_⟩
  · exact hu5.trans (by decide)
  · exact hw5.trans (by decide)
  · exact iv6.trans (by decide)
  · exact iv7.trans (by decide)
  · exact iv8.trans (by decide)

/-! ### Claim C9: backup deletes old checkpoints only after a 201 -/

theorem backupRemoves_of_ne201 (g : List (String × List String))
    (proId : String) (cr : Option Nat) (hc : cr ≠ some 201) :
    backupRemoves g proId cr = [] := by
  cases cr with
  | none => rfl
  | some s =>
      have hs : s ≠ 201 := by
        intro hh
        exact hc (by rw [hh])
      simp [backupRemoves, hs]

theorem lookupA_backupAllRemoves (g : List (String × List String))
    (pids : List String) (crs : String → Option Nat) (pid : String) :
    lookupA (backupAllRemoves g pids crs) pid
      = if pid ∈ pids then some (backupRemoves g pid (crs pid))
        else none := by
  induction pids with
  | nil => simp [backupAllRemoves, lookupA]
  | cons p rest ih =>
      show (if p = pid then some (backupRemoves g p (crs p))
        else lookupA (backupAllRemoves g rest crs) pid) = _
      by_cases hp : p = pid
      · subst hp
        simp
      · rw [if_neg hp, ih]
        simp [Ne.symm hp]

/-- C9: per project, remove POSTs are issued only when the creating POST
returned 201 Created (a non-empty remove list implies a 201, and any
other outcome — transport error or other status — removes nothing);
every removed id was recorded by the pre-listing under this project's
key; hence on the modelled server a project that had checkpoints, or
whose create succeeded with a fresh id, still has at least one
checkpoint after the backup; and the removes issued for a project
depend only on that project's own create outcome, so one project's
failure does not affect another's backup. -/
theorem claim9_backup_atomicity :
    (∀ (g : List (String × List String)) (proId : String)
       (cr : Option Nat),
      backupRemoves g proId cr ≠ [] → cr = some 201) ∧
    (∀ (g : List (String × List String)) (proId : String)
       (cr : Option Nat),
      cr ≠ some 201 → backupRemoves g proId cr = []) ∧
    (∀ (g : List (String × List String)) (proId : String)
       (cr : Option Nat) (i : String),
      i ∈ backupRemoves g proId cr →
      ∃ ids, lookupA g proId = some ids ∧ i ∈ ids) ∧
    (∀ (oldIds : List String) (newId : String) (cr : Option Nat)
       (g : List (String × List String)) (proId : String),
      lookupA g proId = some oldIds → newId ∉ oldIds →
      (cr = some 201 ∨ oldIds ≠ []) →
      backupServerAfter oldIds newId cr g proId ≠ []) ∧
    (∀ (g : List (String × List String)) (pids : List String)
       (crs1 crs2 : String → Option Nat) (pid : String),
      crs1 pid = crs2 pid →
      lookupA (backupAllRemoves g pids crs1) pid
        = lookupA (backupAllRemoves g pids crs2) pid) := by
  refine ⟨?_, ?_, ?_, ?_, ?_⟩
  · intro g proId cr h
    cases cr with
    | none => exact absurd rfl h
    | some s =>
        by_cases hs : s = 201
        · rw [hs]
        · exact absurd (by simp [backupRemoves, hs]) h
  · intro g proId cr h
    exact backupRemoves_of_ne201 g proId cr h
  · intro g proId cr i hi
    cases cr with
    | none => simp [backupRemoves] at hi
    | some s =>
        by_cases hs : s = 201
        · subst hs
          cases hlk : lookupA g proId with
          | none => simp [backupRemoves, hlk] at hi
          | some ids =>
              exact ⟨ids, rfl, by simpa [backupRemoves, hlk] using hi⟩
        · simp [backupRemoves, hs] at hi
  · intro oldIds newId cr g proId hlk hnew hcase
    by_cases hc : cr = some 201
    · subst hc
      intro hemp
      have hmem : newId ∈ backupServerAfter oldIds newId (some 201) g
          proId := by
        simp [backupServerAfter, backupRemoves, hlk, hnew]
      rw [hemp] at hmem
      simp at hmem
    · have hrem : backupRemoves g proId cr = [] :=
        backupRemoves_of_ne201 g proId cr hc
      have hold : oldIds ≠ [] := hcase.resolve_left hc
      have hafter : backupServerAfter oldIds newId cr g proId
          = oldIds := by
        simp only [backupServerAfter, hrem]
        simp
      intro hemp
      rw [hafter] at hemp
      exact hold hemp
  · intro g pids crs1 crs2 pid h
    rw [lookupA_backupAllRemoves, lookupA_backupAllRemoves, h]

/-- Witness for C9 (Scenario F): with checkpoints A and B recorded for
project env and fresh id C, a successful create (201) still leaves a
checkpoint on the server (C survives), a failed create leaves A and B
in place (no removes issued, server keeps a checkpoint). -/
theorem claim9_backup_atomicity_witness :
    lookupA [("env", ["A", "B"])] "env" = some ["A", "B"] ∧
    backupServerAfter ["A", "B"] "C" (some 201)
      [("env", ["A", "B"])] "env" ≠ [] ∧
    backupServerAfter ["A", "B"] "C" none
      [("env", ["A", "B"])] "env" ≠ [] ∧
    backupRemoves [("env", ["A", "B"])] "env" none = [] :=
  ⟨by decide,
   claim9_backup_atomicity.2.2.2.1 ["A", "B"] "C" (some 201)
     [("env", ["A", "B"])] "env" (by decide) (by decide) (Or.inl rfl),
   claim9_backup_atomicity.2.2.2.1 ["A", "B"] "C" none
     [("env", ["A", "B"])] "env" (by decide) (by decide)
     (Or.inr (by decide)),
   claim9_backup_atomicity.2.1 [("env", ["A", "B"])] "env" none
     (by decide)⟩

/-! ### Claim C7: gauge reset at the start of a scrape -/

/-- **C7**: at the start of every scrape cycle (`metric.fetch`), exactly
the host-state, host-agent-state, stacks-health, stacks-state,
services-scale, services-health, services-state, instance-heartbeat,
service-heartbeat and stack-heartbeat gauge families are reset to empty,
while all cumulative bootstrap/failure counters and the instance
startup-ms gauge retain their values from before the scrape. -/
theorem claim7_reset_exact (r : Registry) :
    (metricFetchReset r).infinityWorksHostsState = [] ∧
    (metricFetchReset r).infinityWorksHostAgentsState = [] ∧
    (metricFetchReset r).infinityWorksStacksHealth = [] ∧
    (metricFetchReset r).infinityWorksStacksState = [] ∧
    (metricFetchReset r).infinityWorksServicesScale = [] ∧
    (metricFetchReset r).infinityWorksServicesHealth = [] ∧
    (metricFetchReset r).infinityWorksServicesState = [] ∧
    (metricFetchReset r).extendingInstanceHeartbeat = [] ∧
    (metricFetchReset r).extendingServiceHeartbeat = [] ∧
    (metricFetchReset r).extendingStackHeartbeat = [] ∧
    (metricFetchReset r).extendingTotalStackBootstrap =
      r.extendingTotalStackBootstrap ∧
    (metricFetchReset r).extendingTotalStackFailure =
      r.extendingTotalStackFailure ∧
    (metricFetchReset r).extendingTotalServiceBootstrap =
      r.extendingTotalServiceBootstrap ∧
    (metricFetchReset r).extendingTotalServiceFailure =
      r.extendingTotalServiceFailure ∧
    (metricFetchReset r).extendingTotalInstanceBootstrap =
      r.extendingTotalInstanceBootstrap ∧
    (metricFetchReset r).extendingTotalInstanceFailure =
      r.extendingTotalInstanceFailure ∧
    (metricFetchReset r).extendingInstanceBootstrapMsCost =
      r.extendingInstanceBootstrapMsCost := by
  refine ⟨rfl, rfl, rfl, rfl, rfl, rfl, rfl, rfl, rfl, rfl,
    rfl, rfl, rfl, rfl, rfl, rfl, rfl⟩

/-! ### Claim C4: behaviour of rancherClient.get on errors -/

/-- **C4** (code behaviour at the claimed inputs): on a JSON decode
error `rancherClient.get` does return the empty page, but on a transport
error (`client.Do` fails, `resp == nil`) it does **not** return an empty
page: evaluating `defer resp.Body.Close()` dereferences the nil response
and panics.  The claim as stated is therefore false for the
transport-error half. -/
theorem claim4_get_transport_error_panics :
    rancherClientGet getOutcome.transportErr =
      Except.error
        ("runtime error: invalid memory address or nil pointer dereference") ∧
    rancherClientGet (getOutcome.body none) =
      Except.ok { Data := [], Pagination := none } :=
  ⟨rfl, rfl⟩

end RancherExporter
